import Mathlib

/-!
# Link position view: pose conversion, frame candidates and configuration trials

A shallow embedding of `src/BodyPlugin/LinkPositionView.cpp` (choreonoid).

* Scalars (`double` in the source) are elements of a commutative ring `K`
  (ordered where joint limits are compared); arithmetic is exact.
* `Position` is an Eigen transform: a 3x3 linear part and a translation.
  `A * B` and `A.inverse(Eigen::Isometry)` follow Eigen's definitions.
* Objects that the source reaches through pointers (links, kinematics kit,
  joint path, configuration handler) are records of the values their accessors
  return; an absent object is `none`, and dereferencing it makes the
  operation return `none`.
* The body's mutable kinematic state and the solver's preferred configuration
  live in `World`; `World.ikCalls` and `World.edits` record, in call order, the
  calls made to the solver and to the body item.
* Widget styling, window geometry, reference roll-pitch-yaw bookkeeping and
  the delivery of signals to slots are not part of the embedding.
-/

namespace Cnoid

/-! ## Rigid transforms -/

/-- `Matrix3`: the linear (rotation) part of a transform. -/
abbrev Matrix3 (K : Type) := Matrix (Fin 3) (Fin 3) K

/-- `Position` (an Eigen 3D transform): linear part and translation. -/
structure Position (K : Type) where
  linear : Matrix3 K
  translation : Fin 3 → K

namespace Position

variable {K : Type} [CommRing K]

/-- Eigen's transform product: `(A * B)(x) = A(B(x))`. -/
def mul (A B : Position K) : Position K :=
  { linear := A.linear * B.linear
    translation := A.linear.mulVec B.translation + A.translation }

instance : Mul (Position K) := ⟨mul⟩

/-- `T.inverse(Eigen::Isometry)`: the linear part is transposed, and the
translation is `-(Rᵀ t)`. It is the inverse when the linear part is
orthogonal. -/
def inverseIsometry (A : Position K) : Position K :=
  { linear := A.linear.transpose
    translation := -(A.linear.transpose.mulVec A.translation) }

/-- `Position::Identity()`. -/
def identity : Position K := { linear := 1, translation := 0 }

/-- `T.linear() = R`: replaces the linear part, keeps the translation. -/
def setLinear (A : Position K) (R : Matrix3 K) : Position K :=
  { A with linear := R }

/-- A transform is an isometry when its linear part is orthogonal. -/
def IsIsometry (A : Position K) : Prop :=
  A.linear.transpose * A.linear = 1 ∧ A.linear * A.linear.transpose = 1

end Position

/-! ## Identifiers and coordinate frames -/

/-- Modelled from the spec: `GeneralId` (GeneralId.h is not among the sources)
is a discriminated identifier, either an integer or a string; two ids are
equal only if they have the same discriminant and the same value. -/
inductive GeneralId where
  | int (n : Int)
  | str (s : String)
  deriving DecidableEq, Repr

namespace GeneralId

/-- `GeneralId::defaultId()`: the integer id `0`, the origin sentinel. -/
def defaultId : GeneralId := .int 0

/-- `GeneralId::isInt()`. -/
def isInt : GeneralId → Bool
  | .int _ => true
  | .str _ => false

/-- `GeneralId::toInt()`: the integer value (of an integer id). -/
def toInt : GeneralId → Int
  | .int n => n
  | .str _ => -1

/-- `GeneralId::toString()`: the string value (of a string id). -/
def toString : GeneralId → String
  | .int _ => ""
  | .str s => s

/-- Modelled from the spec: `GeneralId::label()`, the id's own label: the
decimal numeral of an integer id, the string of a string id. -/
def label : GeneralId → String
  | .int n => ToString.toString n
  | .str s => s

end GeneralId

/-- `CoordinateFrame`: its data members. `sigUpdated` records, in order, the
flags with which the signal `sigUpdated_` has been emitted. -/
structure CoordinateFrame (K : Type) where
  T : Position K
  id : GeneralId
  mode : Int
  note : String
  sigUpdated : List Int := []

/-- `CoordinateFrameSet`, seen through `getFindableFrameLists()`: the frames
exposed to pick lists, in list order. -/
structure CoordinateFrameSet (K : Type) where
  getFindableFrameLists : List (CoordinateFrame K)

/-- `FrameType` (`LinkKinematicsKit::WorldFrame`, `BodyFrame`, `LinkFrame`). -/
inductive FrameType where
  | WorldFrame
  | BodyFrame
  | LinkFrame
  deriving DecidableEq, Repr

/-! ## Body, solver and kinematics kit -/

/-- The mutable kinematic state of the body: joint displacement `q` by joint
id and link pose `T` by link index (index `0` is the root link). -/
structure KinematicState (K : Type) where
  q : Nat → K
  linkT : Nat → Position K

/-- `Link`: its index in the body, its attitude pose `Ta()` as computed from
the body's kinematic state, and `calcRfromAttitude` (Link.h is not among the
sources, so both are inputs). -/
structure Link (K : Type) where
  index : Nat
  isBodyRoot : Bool
  Ta : KinematicState K → Position K
  calcRfromAttitude : Matrix3 K → Matrix3 K
  name : String := ""

/-- `Link::T()`: the link's pose in the current kinematic state. -/
def Link.T {K : Type} (l : Link K) (s : KinematicState K) : Position K :=
  s.linkT l.index

/-- A joint of a joint path: its joint id and its displacement limits. -/
structure Joint (K : Type) where
  jointId : Nat
  q_lower : K
  q_upper : K

/-- `InverseKinematics`: the solver is a function of the handler's preferred
configuration, the target pose and the body's kinematic state; it returns
whether it solved and the kinematic state it leaves behind. -/
structure InverseKinematics (K : Type) where
  calcInverseKinematics :
    Option Int → Position K → KinematicState K → Bool × KinematicState K
  calcRemainingPartForwardKinematicsForInverseKinematics :
    KinematicState K → KinematicState K

/-- `JointPath`: an inverse-kinematics solver over a chain of joints ending
at `endLink`. -/
structure JointPath (K : Type) extends InverseKinematics K where
  joints : List (Joint K)
  endLink : Nat
  name : String

/-- `JointSpaceConfigurationHandler`: the declared configuration types. The
preferred configuration it holds is `World.preferred`. -/
structure JointSpaceConfigurationHandler (K : Type) where
  configurationTypeIds : List Int
  getConfigurationTargetNames : List String
  getConfigurationStateNames : Int → List String
  getCurrentConfigurationTypes : KinematicState K → List Int

/-- `Body`, as a handle: the body whose state is `World.kin`. -/
structure Body where
  name : String
  deriving DecidableEq, Repr

/-- `LinkKinematicsKit`: the values returned by its accessors. -/
structure LinkKinematicsKit (K : Type) where
  link : Link K
  baseLink : Option (Link K)
  body : Option Body
  inverseKinematics : Option (InverseKinematics K)
  jointPath : Option (JointPath K)
  configurationHandler : Option (JointSpaceConfigurationHandler K)
  frameSet : FrameType → Option (CoordinateFrameSet K)
  currentFrameId : FrameType → GeneralId
  currentBaseFrameType : FrameType
  isCustomIkDisabled : Bool
  /-- Whether `frameSetSuite()` is present. -/
  frameSetSuite : Bool := false
  /-- The frame `currentFrame(frameType)` returns; `none` stands for the
  implicit identity frame. -/
  currentFrame : FrameType → Option (CoordinateFrame K) := fun _ => none

/-- Calls made to the body item during a kinematic-state edit. -/
inductive EditEvent where
  | beginKinematicStateEdit
  | notifyKinematicStateChange
  | acceptKinematicStateEdit
  | cancelKinematicStateEdit
  deriving DecidableEq, Repr

/-- The state shared between the view, the dialog and the solver. -/
structure World (K : Type) where
  kin : KinematicState K
  preferred : Option Int
  ikCalls : List (Option Int × Position K)
  edits : List EditEvent

/-! ## Qt combo box -/

/-- `QVariant` item data: invalid, an int or a string. -/
inductive QVariant where
  | invalid
  | int (n : Int)
  | string (s : String)
  deriving DecidableEq, Repr

/-- One entry of a combo box: its text and its user data. -/
structure ComboItem where
  text : String
  data : QVariant
  deriving DecidableEq, Repr

/-- `QComboBox`: its entries and its current index (`-1` when there is none). -/
structure QComboBox where
  items : List ComboItem
  currentIndex : Int
  deriving DecidableEq, Repr

namespace QComboBox

/-- `QComboBox::count()`. -/
def count (c : QComboBox) : Int := c.items.length

/-- `QComboBox::clear()`. -/
def clear (_c : QComboBox) : QComboBox := { items := [], currentIndex := -1 }

/-- `QComboBox::addItem(text, userData)`: appends an entry; the first entry
added to an empty box becomes the current one. -/
def addItem (c : QComboBox) (text : String) (data : QVariant) : QComboBox :=
  { items := c.items ++ [{ text := text, data := data }]
    currentIndex := if c.items.isEmpty then 0 else c.currentIndex }

/-- `QComboBox::setCurrentIndex(index)`: an index outside the entries leaves
the box without a current entry. -/
def setCurrentIndex (c : QComboBox) (index : Int) : QComboBox :=
  { c with currentIndex := if 0 ≤ index ∧ index < c.count then index else -1 }

end QComboBox

/-- The id an entry of a frame combo stands for, as `onFrameComboActivated`
and `onFrameUpdate` read it back from the entry's user data. -/
def ComboItem.id (item : ComboItem) : Option GeneralId :=
  match item.data with
  | .int n => some (.int n)
  | .string s => some (.str s)
  | .invalid => none

/-! ## The view -/

/-- `enum CoordinateMode` values, held in `int coordinateMode`. -/
def WorldCoordinateMode : Int := 0

/-- `BodyCoordinateMode`. -/
def BodyCoordinateMode : Int := 1

/-- `LocalCoordinateMode`. -/
def LocalCoordinateMode : Int := 2

/-- `enum FrameComboType`. -/
inductive FrameComboType where
  | BaseFrameCombo
  | LinkFrameCombo
  deriving DecidableEq, Repr

/-- `enum TargetType`. -/
inductive TargetType where
  | LinkTarget
  | PositionEditTarget
  deriving DecidableEq, Repr

/-- `BodyItem`, as a handle on the body it holds. -/
structure BodyItem where
  body : Body
  deriving DecidableEq, Repr

/-- `enum TargetLinkType`. -/
inductive TargetLinkType where
  | AnyLink
  | RootOrIkLink
  | IkLink
  deriving DecidableEq, Repr

/-- `LinkPositionView::Impl`: the data members the embedded functions use. -/
structure Impl (K : Type) where
  targetType : TargetType
  targetBodyItem : Option BodyItem
  targetLink : Option (Link K)
  kinematicsKit : Option (LinkKinematicsKit K)
  baseFrame : CoordinateFrame K
  linkFrame : CoordinateFrame K
  coordinateMode : Int
  preferredCoordinateMode : Int
  /-- The pose shown by `positionWidget` (`none` after `clearPosition`). -/
  positionWidget : Option (Position K)
  defaultCoordName : FrameType → String
  frameCombo : FrameComboType → QComboBox
  resultLabel : String
  configurationLabel : String
  currentConfigurationTypes : List Int
  configurationString : String
  tmpConfigurationLabelSet : List String
  /-- The pose `positionEditTarget->getPosition()` returns, when a position
  edit target is set. -/
  positionEditTarget : Option (Position K) := none
  targetLabel : String := ""
  functionToGetDefaultFrameNames :
    Option (LinkKinematicsKit K → String × String × String) := none
  /-- The selected target link type; the constructor selects `RootOrIkLink`. -/
  targetLinkTypeSelection : TargetLinkType := TargetLinkType.RootOrIkLink

namespace Impl

variable {K : Type} [CommRing K]

/-- The body of the two nested loops of `updateConfigurationDisplay`: a label
not yet in `tmpConfigurationLabelSet` is inserted and appended to
`configurationString`, after a `"-"` unless the string is empty. -/
def appendConfigurationLabel (acc : List String × String) (label : String) :
    List String × String :=
  if label ∈ acc.1 then acc
  else (label :: acc.1, (if acc.2.isEmpty then acc.2 else acc.2 ++ "-") ++ label)

/-- `LinkPositionView::Impl::updateConfigurationDisplay`. -/
def updateConfigurationDisplay (v : Impl K) (w : World K) : Impl K :=
  match v.kinematicsKit with
  | none => v
  | some kit =>
    match kit.configurationHandler with
    | none => v
    | some configuration =>
      let v := { v with configurationString := "" }
      let types := configuration.getCurrentConfigurationTypes w.kin
      let v :=
        if types ≠ v.currentConfigurationTypes then
          let allLabels := types.map configuration.getConfigurationStateNames
          let maxNumLabels := (allLabels.map List.length).foldl max 0
          let r := (List.range maxNumLabels).foldl
            (fun acc i => allLabels.foldl
              (fun acc labels =>
                match labels.get? i with
                | some label => appendConfigurationLabel acc label
                | none => acc) acc)
            (v.tmpConfigurationLabelSet, v.configurationString)
          { v with
            tmpConfigurationLabelSet := r.1
            configurationString := r.2
            configurationLabel := r.2
            currentConfigurationTypes := types }
        else v
      { v with tmpConfigurationLabelSet := [] }

/-- `LinkPositionView::Impl::updateDisplayWithCurrentLinkPosition`. -/
def updateDisplayWithCurrentLinkPosition (v : Impl K) (w : World K) : Impl K :=
  match v.targetLink with
  | none => v
  | some targetLink =>
    let T := v.baseFrame.T.inverseIsometry * targetLink.Ta w.kin * v.linkFrame.T
    let T :=
      match v.kinematicsKit with
      | none => T
      | some kinematicsKit =>
        match kinematicsKit.baseLink with
        | none => T
        | some baseLink =>
          if v.coordinateMode = BodyCoordinateMode then
            (baseLink.Ta w.kin).inverseIsometry * T
          else T
    updateConfigurationDisplay { v with positionWidget := some T } w

/-- The pose `findBodyIkSolution` passes to `ik->calcInverseKinematics`: the
`if(isRawT) ... else ...` branch of the function. `none` stands for the
dereference of an absent target link. -/
def solverTarget (v : Impl K) (kinematicsKit : LinkKinematicsKit K) (w : World K)
    (T_input : Position K) (isRawT : Bool) : Option (Position K) :=
  if isRawT then some T_input
  else
    match v.targetLink with
    | none => none
    | some targetLink =>
      let T := v.baseFrame.T * T_input * v.linkFrame.T.inverseIsometry
      let T :=
        match kinematicsKit.baseLink with
        | none => T
        | some baseLink =>
          if v.coordinateMode = BodyCoordinateMode then baseLink.Ta w.kin * T
          else T
      some (T.setLinear (targetLink.calcRfromAttitude T.linear))

/-- Modelled from the spec: `BodyItem::cancelKinematicStateEdit` (BodyItem is
not among the sources) rolls the body state back to the pre-attempt state,
the state `kin0` it had at `beginKinematicStateEdit`. -/
def cancelKinematicStateEdit (kin0 : KinematicState K) (w : World K) : World K :=
  { w with
    kin := kin0
    edits := w.edits ++ [EditEvent.cancelKinematicStateEdit] }

/-- `LinkPositionView::Impl::findBodyIkSolution`. The result is the returned
flag with the view and the world after the call; `none` stands for the
dereference of an absent target link or body item. -/
def findBodyIkSolution (v : Impl K) (w : World K) (T_input : Position K)
    (isRawT : Bool) : Option (Bool × Impl K × World K) :=
  match v.kinematicsKit with
  | none => some (false, v, w)
  | some kinematicsKit =>
    match kinematicsKit.inverseKinematics with
    | none => some (false, v, w)
    | some ik =>
      match v.targetBodyItem with
      | none => none
      | some _ =>
        let kin0 := w.kin
        let w := { w with edits := w.edits ++ [EditEvent.beginKinematicStateEdit] }
        match solverTarget v kinematicsKit w T_input isRawT with
        | none => none
        | some T =>
          let r := ik.calcInverseKinematics w.preferred T w.kin
          let w := { w with kin := r.2, ikCalls := w.ikCalls ++ [(w.preferred, T)] }
          if r.1 then
            some (true, { v with resultLabel := "Solved" },
              { w with
                kin := ik.calcRemainingPartForwardKinematicsForInverseKinematics w.kin
                edits := w.edits ++ [EditEvent.notifyKinematicStateChange,
                  EditEvent.acceptKinematicStateEdit] })
          else
            some (false, { v with resultLabel := "Not Solved" },
              cancelKinematicStateEdit kin0 w)

/-- `LinkPositionView::Impl::updateCoordinateFrameComboItems`, loop body: one
findable frame is appended to the combo, and `currentIndex` moves to it when
its id is the current id. -/
def addFrameComboItem (currentId : GeneralId) (st : QComboBox × Int)
    (frame : CoordinateFrame K) : QComboBox × Int :=
  let combo := st.1
  let index := combo.count
  let id := frame.id
  let combo :=
    if id.isInt then
      combo.addItem (ToString.toString id.toInt ++ ": " ++ frame.note) (QVariant.int id.toInt)
    else
      combo.addItem id.label (QVariant.string id.toString)
  (combo, if id = currentId then index else st.2)

/-- `LinkPositionView::Impl::updateCoordinateFrameComboItems`. -/
def updateCoordinateFrameComboItems (combo : QComboBox)
    (frames : Option (CoordinateFrameSet K)) (currentId : GeneralId)
    (originLabel : String) : QComboBox :=
  let combo := combo.clear
  let combo := combo.addItem ("0: " ++ originLabel) (QVariant.int 0)
  let st : QComboBox × Int :=
    match frames with
    | none => (combo, 0)
    | some frames =>
      frames.getFindableFrameLists.foldl (addFrameComboItem currentId) (combo, 0)
  st.1.setCurrentIndex st.2

/-- `LinkPositionView::Impl::updateCoordinateFrameCandidates(int)`: the
candidates of one frame combo. -/
def updateCoordinateFrameCandidates (v : Impl K) (frameComboIndex : FrameComboType) :
    Impl K :=
  let frameType :=
    if frameComboIndex = FrameComboType.LinkFrameCombo then FrameType.LinkFrame
    else if v.coordinateMode = WorldCoordinateMode then FrameType.WorldFrame
    else FrameType.BodyFrame
  let frames :=
    match v.kinematicsKit with
    | none => none
    | some kinematicsKit => kinematicsKit.frameSet frameType
  let currentFrameId :=
    match v.kinematicsKit with
    | none => GeneralId.defaultId
    | some kinematicsKit => kinematicsKit.currentFrameId frameType
  let combo := updateCoordinateFrameComboItems (v.frameCombo frameComboIndex) frames
    currentFrameId (v.defaultCoordName frameType)
  { v with frameCombo := fun i => if i = frameComboIndex then combo else v.frameCombo i }

end Impl

/-! ## The joint-space configuration dialog -/

/-- Modelled from the spec: `BodyState` (BodyState.h is not among the sources)
is a capture/restore pair of all joint positions and the pose of one
designated link, the root link. A state that never stored anything restores
nothing. -/
structure BodyState (K : Type) where
  positions : Option ((Nat → K) × Position K)

namespace BodyState

variable {K : Type}

/-- Modelled from the spec: `BodyState::storePositions(body)` captures all joint
positions and the root link's pose. -/
def storePositions (_b : BodyState K) (s : KinematicState K) : BodyState K :=
  { positions := some (s.q, s.linkT 0) }

/-- Modelled from the spec: `BodyState::restorePositions(body)` writes the
captured joint positions and root link pose back into the body. -/
def restorePositions (b : BodyState K) (s : KinematicState K) : KinematicState K :=
  match b.positions with
  | none => s
  | some (q, T) => { q := q, linkT := Function.update s.linkT 0 T }

end BodyState

/-- Foreground of a table cell: the default one (an invalid `QVariant`) or red. -/
inductive Foreground where
  | none
  | red
  deriving DecidableEq, Repr

/-- `Qt::SortOrder`. -/
inductive SortOrder where
  | AscendingOrder
  | DescendingOrder
  deriving DecidableEq, Repr

/-- One top-level item of the dialog's tree widget: the number shown in
column 0 (`Qt::DisplayRole`), the configuration type id (`Qt::UserRole`), the
feasibility flag (`Qt::UserRole + 1`, unset at first), the texts of columns
`1, 2, ...`, the foreground of each column and the hidden flag. -/
structure ConfItem where
  number : Int
  typeId : Int
  solved : Option Bool
  texts : List String
  foreground : List Foreground
  hidden : Bool
  deriving DecidableEq, Repr

/-- `QTreeWidgetItem::columnCount()`: column 0 and the text columns. -/
def ConfItem.columnCount (item : ConfItem) : Nat := 1 + item.texts.length

/-- `item->data(0, Qt::UserRole + 1).toBool()`: unset data reads as false. -/
def ConfItem.feasible (item : ConfItem) : Bool := item.solved.getD false

/-- `JointSpaceConfigurationDialog`: its data members. -/
structure JointSpaceConfigurationDialog (K : Type) where
  body : Option Body
  jointPath : Option (JointPath K)
  configuration : Option (JointSpaceConfigurationHandler K)
  T0 : Position K
  bodyState0 : BodyState K
  treeWidget : List ConfItem
  columnCount : Nat
  headerLabels : List String
  windowTitle : String
  feasibleCheck : Bool
  lastSortedSection : Int
  lastSortOrder : SortOrder
  isHidden : Bool

namespace JointSpaceConfigurationDialog

variable {K : Type} [LinearOrderedCommRing K]

/-- `JointSpaceConfigurationDialog::reset`. -/
def reset (d : JointSpaceConfigurationDialog K) : JointSpaceConfigurationDialog K :=
  { d with
    body := none
    jointPath := none
    configuration := none
    treeWidget := []
    lastSortedSection := -1 }

/-- The body of the item loop of `updateItemDisplay`: every column of the item
gets the default foreground when the item is feasible and red otherwise, and
the item is hidden when the feasible-only check is on and it is not feasible. -/
def displayItem (feasibleCheck : Bool) (item : ConfItem) : ConfItem :=
  let solved := item.feasible
  if item.columnCount = 0 then item
  else
    { item with
      foreground :=
        List.replicate item.columnCount (if solved then Foreground.none else Foreground.red)
      hidden := if feasibleCheck then !solved else false }

/-- `JointSpaceConfigurationDialog::updateItemDisplay`. -/
def updateItemDisplay (d : JointSpaceConfigurationDialog K) :
    JointSpaceConfigurationDialog K :=
  if d.treeWidget.length = 0 then d
  else { d with treeWidget := d.treeWidget.map (displayItem d.feasibleCheck) }

/-- The joint-limit loop of `updateConfigurationStates`: false at the first
joint with `q > q_upper` or `q < q_lower`, true when there is none. -/
def jointsWithinLimits (s : KinematicState K) : List (Joint K) → Bool
  | [] => true
  | joint :: rest =>
    if s.q joint.jointId > joint.q_upper ∨ s.q joint.jointId < joint.q_lower then false
    else jointsWithinLimits s rest

/-- One iteration of the trial loop of `updateConfigurationStates`: the item's
type id becomes the preferred configuration, the joint path solves `T0`, and
the item records whether it solved within the joint limits. -/
def trialStep (jointPath : JointPath K) (T0 : Position K)
    (acc : List ConfItem × World K) (item : ConfItem) : List ConfItem × World K :=
  let w := acc.2
  let id := item.typeId
  let w := { w with preferred := some id }
  let r := jointPath.calcInverseKinematics w.preferred T0 w.kin
  let w := { w with kin := r.2, ikCalls := w.ikCalls ++ [(w.preferred, T0)] }
  let solved := if r.1 then jointsWithinLimits w.kin jointPath.joints else false
  (acc.1 ++ [{ item with solved := some solved }], w)

/-- `JointSpaceConfigurationDialog::updateConfigurationStates`; `none` stands
for the dereference of an absent joint path, body or handler. -/
def updateConfigurationStates (d : JointSpaceConfigurationDialog K) (w : World K) :
    Option (JointSpaceConfigurationDialog K × World K) :=
  if d.treeWidget.length = 0 then some (d, w)
  else
    match d.jointPath, d.body, d.configuration with
    | some jointPath, some _, some _ =>
      let T0 := w.kin.linkT jointPath.endLink
      let bodyState0 := d.bodyState0.storePositions w.kin
      let r := d.treeWidget.foldl (trialStep jointPath T0) ([], w)
      let w := r.2
      let w := { w with preferred := none }
      let w := { w with kin := bodyState0.restorePositions w.kin }
      let w := { w with
        kin := { w.kin with linkT := Function.update w.kin.linkT jointPath.endLink T0 } }
      some (updateItemDisplay { d with T0 := T0, bodyState0 := bodyState0, treeWidget := r.1 }, w)
    | _, _, _ => none

/-- The tree item `updateConfigurationTypes` builds for the `i`-th declared
configuration type. -/
def newConfItem (configuration : JointSpaceConfigurationHandler K) (i : Nat)
    (typeId : Int) : ConfItem :=
  { number := (i : Int) + 1
    typeId := typeId
    solved := none
    texts := configuration.getConfigurationStateNames typeId
    foreground := []
    hidden := false }

/-- `JointSpaceConfigurationDialog::updateConfigurationTypes`, with the view's
kinematics kit as argument. -/
def updateConfigurationTypes (d : JointSpaceConfigurationDialog K)
    (kinematicsKit : Option (LinkKinematicsKit K)) (w : World K) :
    Option (Bool × JointSpaceConfigurationDialog K × World K) :=
  let d := d.reset
  match kinematicsKit with
  | none => some (false, d, w)
  | some kinematicsKit =>
    let d := { d with
      body := kinematicsKit.body
      jointPath := kinematicsKit.jointPath
      configuration := kinematicsKit.configurationHandler }
    match d.jointPath, d.configuration with
    | some jointPath, some configuration =>
      match d.body with
      | none => none
      | some _ =>
        let d := { d with
          T0 := w.kin.linkT jointPath.endLink
          bodyState0 := d.bodyState0.storePositions w.kin }
        let name := jointPath.name
        let d := { d with
          windowTitle :=
            if name.isEmpty then "Joint-space configuration" else name ++ " configuration" }
        let targetNames := configuration.getConfigurationTargetNames
        let d := { d with
          columnCount := targetNames.length + 1
          headerLabels := "No" :: targetNames }
        let d := { d with
          treeWidget := d.treeWidget ++
            configuration.configurationTypeIds.enum.map fun p => newConfItem configuration p.1 p.2 }
        match updateConfigurationStates d w with
        | none => none
        | some (d, w) => some (true, d, w)
    | _, _ => some (false, d, w)

/-- `JointSpaceConfigurationDialog::applyConfiguration`, on the dialog's view. -/
def applyConfiguration (d : JointSpaceConfigurationDialog K) (v : Impl K) (w : World K)
    (id : Int) : Option (Impl K × World K) :=
  match d.configuration with
  | none => none
  | some _ =>
    let w := { w with preferred := some id }
    match v.kinematicsKit with
    | none => none
    | some kinematicsKit =>
      match v.findBodyIkSolution w (kinematicsKit.link.T w.kin) true with
      | none => none
      | some (_, v, w) => some (v, { w with preferred := none })

/-- `JointSpaceConfigurationDialog::onCanceled`, on the dialog's view. -/
def onCanceled (d : JointSpaceConfigurationDialog K) (v : Impl K) (w : World K) :
    Option (JointSpaceConfigurationDialog K × World K) :=
  match d.body with
  | some _ =>
    let w := { w with kin := d.bodyState0.restorePositions w.kin }
    match d.jointPath with
    | none => none
    | some jointPath =>
      let w := { w with
        kin := { w.kin with linkT := Function.update w.kin.linkT jointPath.endLink d.T0 } }
      match v.targetBodyItem with
      | none => none
      | some _ =>
        some ({ d with isHidden := true },
          { w with edits := w.edits ++ [EditEvent.notifyKinematicStateChange] })
  | none => some ({ d with isHidden := true }, w)

end JointSpaceConfigurationDialog

end Cnoid

namespace Cnoid

/-! ## Concrete inputs -/

section Examples

/-- Rotation by a quarter turn about the z axis. -/
def exampleRotZ : Position ℤ :=
  { linear := !![0, -1, 0; 1, 0, 0; 0, 0, 1], translation := ![0, 0, 0] }

/-- Translation by one unit along the x axis. -/
def exampleTransX : Position ℤ :=
  { linear := 1, translation := ![1, 0, 0] }

/-- A kinematic state with all joints at zero and all links at the origin. -/
def exampleKin : KinematicState ℤ :=
  { q := fun _ => 0, linkT := fun _ => Position.identity }

/-- A solver that accepts every target and moves nothing. -/
def exampleIk : InverseKinematics ℤ :=
  { calcInverseKinematics := fun _ _ s => (true, s)
    calcRemainingPartForwardKinematicsForInverseKinematics := fun s => s }

/-- The target link: link 2, at the origin, every rotation is a valid attitude. -/
def exampleTargetLink : Link ℤ :=
  { index := 2, isBodyRoot := false, Ta := fun s => s.linkT 2, calcRfromAttitude := fun R => R }

/-- The base link: link 1, turned a quarter turn about z. -/
def exampleBaseLink : Link ℤ :=
  { index := 1, isBodyRoot := false, Ta := fun _ => exampleRotZ, calcRfromAttitude := fun R => R }

/-- A frame at the origin with the default id. -/
def exampleIdentityFrame : CoordinateFrame ℤ :=
  { T := Position.identity, id := GeneralId.defaultId, mode := 0, note := "" }

/-- A kit for the target link with a base link and a solver, no frame sets. -/
def exampleKit : LinkKinematicsKit ℤ :=
  { link := exampleTargetLink
    baseLink := some exampleBaseLink
    body := some { name := "robot" }
    inverseKinematics := some exampleIk
    jointPath := none
    configurationHandler := none
    frameSet := fun _ => none
    currentFrameId := fun _ => GeneralId.defaultId
    currentBaseFrameType := FrameType.BodyFrame
    isCustomIkDisabled := false }

/-- An empty combo box. -/
def exampleCombo : QComboBox := { items := [], currentIndex := -1 }

/-- A view in Body mode on the target link, whose base frame is one unit
along x from the origin. -/
def exampleView : Impl ℤ :=
  { targetType := TargetType.LinkTarget
    targetBodyItem := some { body := { name := "robot" } }
    targetLink := some exampleTargetLink
    kinematicsKit := some exampleKit
    baseFrame := { exampleIdentityFrame with T := exampleTransX, id := GeneralId.int 1 }
    linkFrame := exampleIdentityFrame
    coordinateMode := BodyCoordinateMode
    preferredCoordinateMode := BodyCoordinateMode
    positionWidget := none
    defaultCoordName := fun _ => "Origin"
    frameCombo := fun _ => exampleCombo
    resultLabel := ""
    configurationLabel := ""
    currentConfigurationTypes := []
    configurationString := ""
    tmpConfigurationLabelSet := [] }

/-- A world in the example kinematic state, no preferred configuration. -/
def exampleWorld : World ℤ :=
  { kin := exampleKin, preferred := none, ikCalls := [], edits := [] }

end Examples

/-- The input-direction formula in the words of the spec:
`T = baseFrame.transform · T_input · inverse(linkFrame.transform)`, then
`T = baseLink.attitude · T` when a body attitude applies, then
`T.rotation = attitudeNormalize(link, T.rotation)`. -/
def specInputPose {K : Type} [CommRing K] (baseFrameT T_input linkFrameT : Position K)
    (bodyAttitude : Option (Position K)) (attitudeNormalize : Matrix3 K → Matrix3 K) :
    Position K :=
  let T := baseFrameT * T_input * linkFrameT.inverseIsometry
  let T := match bodyAttitude with
    | some B => B * T
    | none => T
  { linear := attitudeNormalize T.linear, translation := T.translation }

/-- The pose most recently handed to the solver. -/
def World.lastSolverPose {K : Type} (w : World K) : Option (Position K) :=
  w.ikCalls.getLast?.map Prod.snd

namespace JointSpaceConfigurationDialog

section
variable {K : Type} [LinearOrderedCommRing K]

/-- The kinematic state the solver leaves after the trials of the given type
ids, run one after the other from `kin`, each with its id as preferred
configuration and `T0` as target. -/
def kinAfterTrials (jointPath : JointPath K) (T0 : Position K) :
    KinematicState K → List Int → KinematicState K
  | kin, [] => kin
  | kin, id :: rest =>
    kinAfterTrials jointPath T0 (jointPath.calcInverseKinematics (some id) T0 kin).2 rest

/-- The items of the trial loop with their recorded flags, run from `kin`. -/
def trialResults (jointPath : JointPath K) (T0 : Position K) :
    KinematicState K → List ConfItem → List ConfItem
  | _, [] => []
  | kin, item :: rest =>
    let r := jointPath.calcInverseKinematics (some item.typeId) T0 kin
    { item with solved := some (if r.1 then jointsWithinLimits r.2 jointPath.joints else false) } ::
      trialResults jointPath T0 r.2 rest

end

end JointSpaceConfigurationDialog

section Examples

/-- A joint path over joint 0 (limits -1 and 1) ending at link 2. Its solver
fails for preferred type 3; otherwise it puts joint 0 at the preferred type id
and the end link at the target. -/
def exampleJointPath : JointPath ℤ :=
  { calcInverseKinematics := fun p T s =>
      (decide (p ≠ some 3),
        { q := Function.update s.q 0 (p.getD 0), linkT := Function.update s.linkT 2 T })
    calcRemainingPartForwardKinematicsForInverseKinematics := fun s => s
    joints := [{ jointId := 0, q_lower := -1, q_upper := 1 }]
    endLink := 2
    name := "arm" }

/-- A handler declaring the types 1 ("up") and 2 ("down") of one target. -/
def exampleHandler : JointSpaceConfigurationHandler ℤ :=
  { configurationTypeIds := [1, 2]
    getConfigurationTargetNames := ["elbow"]
    getConfigurationStateNames := fun id => if id = 1 then ["up"] else ["down"]
    getCurrentConfigurationTypes := fun _ => [] }

/-- The example kit with the example joint path as solver and the handler. -/
def exampleConfKit : LinkKinematicsKit ℤ :=
  { exampleKit with
    inverseKinematics := some exampleJointPath.toInverseKinematics
    jointPath := some exampleJointPath
    configurationHandler := some exampleHandler }

/-- The example view on the kit with a configuration handler. -/
def exampleConfView : Impl ℤ :=
  { exampleView with kinematicsKit := some exampleConfKit }

/-- A dialog right after construction and `reset`. -/
def exampleEmptyDialog : JointSpaceConfigurationDialog ℤ :=
  { body := none
    jointPath := none
    configuration := none
    T0 := Position.identity
    bodyState0 := { positions := none }
    treeWidget := []
    columnCount := 0
    headerLabels := []
    windowTitle := ""
    feasibleCheck := false
    lastSortedSection := -1
    lastSortOrder := SortOrder.AscendingOrder
    isHidden := true }

/-- A dialog bound to the example joint path and handler, with one row for
each of the types 1 and 2. -/
def exampleDialog : JointSpaceConfigurationDialog ℤ :=
  { exampleEmptyDialog with
    body := some { name := "robot" }
    jointPath := some exampleJointPath
    configuration := some exampleHandler
    treeWidget :=
      [{ number := 1, typeId := 1, solved := none, texts := ["up"], foreground := [],
         hidden := false },
       { number := 2, typeId := 2, solved := none, texts := ["down"], foreground := [],
         hidden := false }] }

/-- The example world with configuration type 7 preferred. -/
def examplePreferredWorld : World ℤ :=
  { exampleWorld with preferred := some 7 }

/-- A dialog bound to the example joint path and a handler, with no rows. -/
def exampleRowlessDialog : JointSpaceConfigurationDialog ℤ :=
  { exampleDialog with treeWidget := [] }

end Examples

/-- The findable frames of a frame set; none for an absent frame set. -/
def findableFrames {K : Type} (frames : Option (CoordinateFrameSet K)) :
    List (CoordinateFrame K) :=
  match frames with
  | none => []
  | some frames => frames.getFindableFrameLists

/-- The combo entry of a findable frame in the words of the spec: labelled
`"<id>: <note>"` and carrying the integer for an integer id, labelled with
the id's own label and carrying the string for a string id. -/
def specFrameEntry {K : Type} (frame : CoordinateFrame K) : ComboItem :=
  match frame.id with
  | .int n => { text := ToString.toString n ++ ": " ++ frame.note, data := QVariant.int n }
  | .str s => { text := (GeneralId.str s).label, data := QVariant.string s }

/-- The frame set of the spec's scenario: frame 5 with note "Grasp" and the
frame "custom". -/
def exampleFrames : CoordinateFrameSet ℤ :=
  { getFindableFrameLists :=
      [{ T := Position.identity, id := GeneralId.int 5, mode := 0, note := "Grasp" },
       { T := exampleTransX, id := GeneralId.str "custom", mode := 0, note := "tool tip" }] }

/-! ## Coordinate mode, target link and sorting -/

/-- `LinkKinematicsKit::currentBaseFrameType()` after
`setCurrentBaseFrameType(frameType)`: the setter (LinkKinematicsKit is not
among the sources) makes `frameType` the current base frame type. -/
def LinkKinematicsKit.setCurrentBaseFrameType {K : Type} (kit : LinkKinematicsKit K)
    (frameType : FrameType) : LinkKinematicsKit K :=
  { kit with currentBaseFrameType := frameType }

namespace Impl

section
variable {K : Type} [CommRing K]

/-- The implicit identity frame (`identityFrame`). -/
def identityFrame : CoordinateFrame K :=
  { T := Position.identity, id := GeneralId.defaultId, mode := 0, note := "" }

/-- `LinkKinematicsKit::currentBaseFrame()`. -/
def currentBaseFrame (kit : LinkKinematicsKit K) : CoordinateFrame K :=
  (kit.currentFrame kit.currentBaseFrameType).getD identityFrame

/-- `LinkKinematicsKit::currentLinkFrame()`. -/
def currentLinkFrame (kit : LinkKinematicsKit K) : CoordinateFrame K :=
  (kit.currentFrame FrameType.LinkFrame).getD identityFrame

/-- `LinkPositionView::Impl::setCoordinateFrameInterfaceEnabled`: switching
the interface off clears both frame combos. -/
def setCoordinateFrameInterfaceEnabled (v : Impl K) (enabled : Bool) : Impl K :=
  if enabled then v else { v with frameCombo := fun i => (v.frameCombo i).clear }

/-- `LinkPositionView::Impl::updateCoordinateFrameCandidates()`, the overload
without argument: the candidates of the base frame combo, then those of the
link frame combo. -/
def updateCoordinateFrameCandidatesAll (v : Impl K) : Impl K :=
  (v.updateCoordinateFrameCandidates FrameComboType.BaseFrameCombo).updateCoordinateFrameCandidates
    FrameComboType.LinkFrameCombo

/-- `LinkPositionView::Impl::updateDisplayWithPositionEditTarget`. -/
def updateDisplayWithPositionEditTarget (v : Impl K) : Impl K :=
  match v.positionEditTarget with
  | none => v
  | some T => { v with positionWidget := some T }

/-- `LinkPositionView::Impl::updateDisplay`. -/
def updateDisplay (v : Impl K) (w : World K) : Impl K :=
  let v :=
    match v.targetType with
    | TargetType.LinkTarget => v.updateDisplayWithCurrentLinkPosition w
    | TargetType.PositionEditTarget => v.updateDisplayWithPositionEditTarget
  { v with resultLabel := "Actual State" }

/-- The first block of `setCoordinateMode`: the radio button of the mode is
checked and, with a kit, World mode makes `WorldFrame` the kit's current base
frame type, Body mode makes it `BodyFrame`, and Local mode leaves it. -/
def checkCoordinateModeRadio (v : Impl K) (mode : Int) : Impl K :=
  if mode = WorldCoordinateMode then
    { v with
      kinematicsKit :=
        v.kinematicsKit.map fun kit => kit.setCurrentBaseFrameType FrameType.WorldFrame }
  else if mode = BodyCoordinateMode then
    { v with
      kinematicsKit :=
        v.kinematicsKit.map fun kit => kit.setCurrentBaseFrameType FrameType.BodyFrame }
  else v

/-- `LinkPositionView::Impl::setCoordinateMode`. -/
def setCoordinateMode (v : Impl K) (w : World K) (mode : Int) (doUpdateDisplay : Bool) :
    Impl K :=
  let v := v.checkCoordinateModeRadio mode
  let v :=
    if mode ≠ v.coordinateMode then
      updateCoordinateFrameCandidatesAll { v with coordinateMode := mode }
    else v
  if doUpdateDisplay then v.updateDisplay w else v

/-- `LinkPositionView::Impl::setBodyCoordinateModeEnabled`. -/
def setBodyCoordinateModeEnabled (v : Impl K) (w : World K) (enabled : Bool) : Impl K :=
  if !enabled && decide (v.coordinateMode = BodyCoordinateMode) then
    v.setCoordinateMode w WorldCoordinateMode false
  else v

/-- `LinkPositionView::Impl::setConfigurationInterfaceEnabled`. -/
def setConfigurationInterfaceEnabled (v : Impl K) (enabled : Bool) : Impl K :=
  if enabled then v else { v with configurationLabel := "-----" }

end

end Impl

namespace CoordinateFrame

variable {K : Type}

/-- `CoordinateFrame::IdUpdate`, `1 << 0`. -/
def IdUpdate : Int := 1

/-- `CoordinateFrame::ModeUpdate`, `1 << 1`. -/
def ModeUpdate : Int := 2

/-- `CoordinateFrame::NoteUpdate`, `1 << 2`. -/
def NoteUpdate : Int := 4

/-- `CoordinateFrame::PositionUpdate`, `1 << 3`. -/
def PositionUpdate : Int := 8

/-- `CoordinateFrame::position()`. -/
def position (frame : CoordinateFrame K) : Position K := frame.T

/-- `CoordinateFrame::setPosition`, defined in the header as `{ T_ = T; }`. -/
def setPosition (frame : CoordinateFrame K) (T : Position K) : CoordinateFrame K :=
  { frame with T := T }

/-- Modelled from the spec: `CoordinateFrame::notifyUpdate(flags)` (declared in
CoordinateFrame.h, defined outside the sources) emits an update with the
bitmask of the fields that changed. -/
def notifyUpdate (frame : CoordinateFrame K) (flags : Int) : CoordinateFrame K :=
  { frame with sigUpdated := frame.sigUpdated ++ [flags] }

/-- Modelled from the spec: `CoordinateFrame::resetId(newId)` (declared in
CoordinateFrame.h, defined outside the sources) fails, returning false with no
mutation and no notification, if `newId` collides with another member of the
owning list; it succeeds and marks `IdUpdate` otherwise, including when the
frame has no owner. `siblings` are the other members of the owning list,
`none` for a frame without owner. -/
def resetId (frame : CoordinateFrame K) (siblings : Option (List (CoordinateFrame K)))
    (newId : GeneralId) : Bool × CoordinateFrame K :=
  match siblings with
  | none => (true, ({ frame with id := newId } : CoordinateFrame K).notifyUpdate IdUpdate)
  | some others =>
    if others.any (fun other => decide (other.id = newId)) then (false, frame)
    else (true, ({ frame with id := newId } : CoordinateFrame K).notifyUpdate IdUpdate)

end CoordinateFrame

/-- `item->data(column, Qt::DisplayRole)`: the number in column 0, the text in
a text column, nothing elsewhere. -/
def ConfItem.displayData (item : ConfItem) (column : Int) : QVariant :=
  if column = 0 then QVariant.int item.number
  else if 0 < column then
    match item.texts.get? (column - 1).toNat with
    | some text => QVariant.string text
    | none => QVariant.invalid
  else QVariant.invalid

/-- Qt's comparison of item data (`QTreeWidgetItem::operator<`): invalid data is
never less, valid data is less than invalid data, ints compare as numbers and
strings as strings. -/
def variantLessThan : QVariant → QVariant → Bool
  | QVariant.invalid, _ => false
  | _, QVariant.invalid => true
  | QVariant.int a, QVariant.int b => decide (a < b)
  | QVariant.string a, QVariant.string b => decide (a < b)
  | _, _ => false

/-- Whether item `a` may stay before item `b` in a sort of the given order:
`b` does not compare before `a`. -/
def itemMayPrecede (column : Int) (order : SortOrder) (a b : ConfItem) : Bool :=
  match order with
  | SortOrder.AscendingOrder => !variantLessThan (b.displayData column) (a.displayData column)
  | SortOrder.DescendingOrder => !variantLessThan (a.displayData column) (b.displayData column)

/-- `QTreeWidget::sortByColumn(column, order)`: a stable sort of the top-level
items by their data in the column. -/
def sortByColumn (items : List ConfItem) (column : Int) (order : SortOrder) : List ConfItem :=
  items.insertionSort (fun a b => itemMayPrecede column order a b = true)

namespace JointSpaceConfigurationDialog

section
variable {K : Type}

/-- `JointSpaceConfigurationDialog::onSectionClicked`. -/
def onSectionClicked (d : JointSpaceConfigurationDialog K) (index : Int) :
    JointSpaceConfigurationDialog K :=
  let order :=
    if index ≠ d.lastSortedSection then SortOrder.AscendingOrder
    else if d.lastSortOrder ≠ SortOrder.AscendingOrder then SortOrder.AscendingOrder
    else SortOrder.DescendingOrder
  { d with
    treeWidget := sortByColumn d.treeWidget index order
    lastSortedSection := index
    lastSortOrder := order }

end

end JointSpaceConfigurationDialog

namespace Impl

section
variable {K : Type} [LinearOrderedCommRing K]

/-- `LinkPositionView::Impl::initializeConfigurationInterface`, with the
configuration dialog (absent until it is first shown) as argument. -/
def initializeConfigurationInterface (v : Impl K)
    (configurationDialog : Option (JointSpaceConfigurationDialog K)) (w : World K) :
    Option (Impl K × Option (JointSpaceConfigurationDialog K) × World K) :=
  let v := { v with currentConfigurationTypes := [] }
  let isConfigurationValid :=
    match v.kinematicsKit with
    | none => false
    | some kinematicsKit =>
      !kinematicsKit.isCustomIkDisabled && kinematicsKit.configurationHandler.isSome
  let v := v.setConfigurationInterfaceEnabled isConfigurationValid
  match configurationDialog with
  | none => some (v, none, w)
  | some d =>
    if isConfigurationValid then
      match d.updateConfigurationTypes v.kinematicsKit w with
      | none => none
      | some (_, d, w) => some (v, some d, w)
    else some (v, some d.reset, w)

/-- The block of `updateTargetLink` that binds the target link: the target
label, the default frame names and, through
`targetBodyItem->getCurrentLinkKinematicsKit`, the kinematics kit with its
base frame type and current frames. The flag is `hasCoordinaeteFrames`; `none`
stands for the dereference of an absent body item. The frame types
`WorldFrame`, `BodyFrame`, `LinkFrame` index `defaultCoordName` in this order. -/
def bindTargetLink (v : Impl K)
    (getCurrentLinkKinematicsKit : Link K → Option (LinkKinematicsKit K))
    (link : Option (Link K)) : Option (Impl K × Bool) :=
  match link with
  | none => some ({ v with targetLabel := "------" }, false)
  | some targetLink =>
    match v.targetBodyItem with
    | none => none
    | some targetBodyItem =>
      let v := { v with targetLabel := targetBodyItem.body.name ++ " / " ++ targetLink.name }
      let v :=
        if (v.defaultCoordName FrameType.WorldFrame).isEmpty then
          { v with
            defaultCoordName := fun t =>
              if t = FrameType.WorldFrame then "World Origin" else v.defaultCoordName t }
        else v
      let v :=
        if (v.defaultCoordName FrameType.BodyFrame).isEmpty then
          { v with
            defaultCoordName := fun t =>
              if t = FrameType.BodyFrame then "Origin" else v.defaultCoordName t }
        else v
      match getCurrentLinkKinematicsKit targetLink with
      | none => some (v, false)
      | some kinematicsKit =>
        let v :=
          match v.functionToGetDefaultFrameNames with
          | none => v
          | some f =>
            { v with
              defaultCoordName := fun t =>
                match t with
                | FrameType.WorldFrame => (f kinematicsKit).1
                | FrameType.BodyFrame => (f kinematicsKit).2.1
                | FrameType.LinkFrame => (f kinematicsKit).2.2 }
        let hasCoordinaeteFrames := kinematicsKit.frameSetSuite
        let kinematicsKit :=
          if v.coordinateMode = WorldCoordinateMode then
            kinematicsKit.setCurrentBaseFrameType FrameType.WorldFrame
          else kinematicsKit.setCurrentBaseFrameType FrameType.BodyFrame
        some ({ v with
            kinematicsKit := some kinematicsKit
            baseFrame := currentBaseFrame kinematicsKit
            linkFrame := currentLinkFrame kinematicsKit }, hasCoordinaeteFrames)

/-- The argument `updateTargetLink` passes to `setBodyCoordinateModeEnabled`:
the kit has a base link, the link is not that base link, and there are
coordinate frames. -/
def bodyCoordinateModeAvailable (kinematicsKit : Option (LinkKinematicsKit K))
    (link : Option (Link K)) (hasCoordinaeteFrames : Bool) : Bool :=
  match kinematicsKit, link with
  | some kinematicsKit, some link =>
    match kinematicsKit.baseLink with
    | some baseLink => decide (link.index ≠ baseLink.index) && hasCoordinaeteFrames
    | none => false
  | _, _ => false

/-- The rest of `updateTargetLink`, after the target link is bound: the frame
interface, the result label, the frame candidates, the preferred coordinate
mode, the availability of Body mode and the configuration interface. -/
def completeTargetLink (v : Impl K)
    (configurationDialog : Option (JointSpaceConfigurationDialog K)) (w : World K)
    (link : Option (Link K)) (hasCoordinaeteFrames : Bool) :
    Option (Impl K × Option (JointSpaceConfigurationDialog K) × World K) :=
  let v := v.setCoordinateFrameInterfaceEnabled hasCoordinaeteFrames
  let v := { v with resultLabel := "" }
  let v := v.updateCoordinateFrameCandidatesAll
  let v := v.setCoordinateMode w v.preferredCoordinateMode false
  let v := v.setBodyCoordinateModeEnabled w
    (bodyCoordinateModeAvailable v.kinematicsKit link hasCoordinaeteFrames)
  v.initializeConfigurationInterface configurationDialog w

/-- `LinkPositionView::Impl::updateTargetLink`, with the configuration dialog
(absent until it is first shown) and the body item's kit lookup as arguments. -/
def updateTargetLink (v : Impl K)
    (configurationDialog : Option (JointSpaceConfigurationDialog K)) (w : World K)
    (getCurrentLinkKinematicsKit : Link K → Option (LinkKinematicsKit K))
    (link : Option (Link K)) :
    Option (Impl K × Option (JointSpaceConfigurationDialog K) × World K) :=
  if v.targetType ≠ TargetType.LinkTarget then some (v, configurationDialog, w)
  else
    let v := { v with targetLink := link, kinematicsKit := none }
    match v.bindTargetLink getCurrentLinkKinematicsKit link with
    | none => none
    | some (v, hasCoordinaeteFrames) =>
      v.completeTargetLink configurationDialog w link hasCoordinaeteFrames

end

end Impl

section Examples

/-- The example view in Local mode, with Local as preferred mode. -/
def exampleLocalView : Impl ℤ :=
  { exampleView with
    coordinateMode := LocalCoordinateMode
    preferredCoordinateMode := LocalCoordinateMode }

/-- The example kit with `WorldFrame` as current base frame type. -/
def exampleWorldFrameKit : LinkKinematicsKit ℤ :=
  { exampleKit with currentBaseFrameType := FrameType.WorldFrame }

/-- The example dialog after a trial (type 1 feasible, type 2 not), with the
feasible-only check on. -/
def exampleFilteredDialog : JointSpaceConfigurationDialog ℤ :=
  { exampleDialog with
    feasibleCheck := true
    treeWidget :=
      [{ number := 1, typeId := 1, solved := some true, texts := ["up"], foreground := [],
         hidden := false },
       { number := 2, typeId := 2, solved := some false, texts := ["down"], foreground := [],
         hidden := false }] }

end Examples

/-! ## Target selection and frame updates -/

/-- What the body items, bodies and links answer to `setTargetBodyAndLink`
(BodyItem, Body and LinkTraverse are not among the sources, so their answers
are inputs): whether a body item is attached to a parent body, its parent body
item, the parent-body link of its body, whether `findPresetIK` finds a preset
IK for a link, the links of `LinkTraverse(link)` (the link itself first), the
kit `getCurrentLinkKinematicsKit` returns, and whether two link pointers are
the same link. -/
structure BodyItemAccess (K : Type) where
  isAttachedToParentBody : BodyItem → Bool
  parentBodyItem : BodyItem → Option BodyItem
  parentBodyLink : BodyItem → Option (Link K)
  findPresetIK : BodyItem → Link K → Bool
  linkTraverse : Link K → List (Link K)
  getCurrentLinkKinematicsKit : BodyItem → Link K → Option (LinkKinematicsKit K)
  sameLink : Link K → Link K → Bool

/-- Pointer equality of two possibly absent links. -/
def BodyItemAccess.sameLinkPtr {K : Type} (access : BodyItemAccess K) :
    Option (Link K) → Option (Link K) → Bool
  | none, none => true
  | some a, some b => access.sameLink a b
  | _, _ => false

namespace Impl

section
variable {K : Type} [LinearOrderedCommRing K]

/-- The block `if(bodyItem->isAttachedToParentBody()){ ... }` of
`setTargetBodyAndLink`: the root link of an attached sub body is taken as the
parent body's link, on the parent body item. -/
def redirectToParentBody (access : BodyItemAccess K) (bodyItem : BodyItem) (link : Link K) :
    BodyItem × Option (Link K) :=
  if access.isAttachedToParentBody bodyItem then
    match access.parentBodyItem bodyItem with
    | some parentBodyItem => (parentBodyItem, access.parentBodyLink bodyItem)
    | none => (bodyItem, some link)
  else (bodyItem, some link)

/-- The block `if(bodyItem && link){ ... }` of `setTargetBodyAndLink`: the
body item and link after the redirection of an attached sub body to its parent
body and after the search for a link with a preset IK. `none` stands for the
dereference of an absent parent-body link. -/
def resolveTargetLink (v : Impl K) (access : BodyItemAccess K) (bodyItem : BodyItem)
    (link : Link K) : Option (BodyItem × Option (Link K)) :=
  let redirected : BodyItem × Option (Link K) := redirectToParentBody access bodyItem link
  let bodyItem := redirected.1
  let link := redirected.2
  let isIkLinkRequired : Option Bool :=
    match v.targetLinkTypeSelection with
    | TargetLinkType.AnyLink => some false
    | TargetLinkType.RootOrIkLink => link.map fun l => !l.isBodyRoot
    | TargetLinkType.IkLink => some true
  match isIkLinkRequired with
  | none => none
  | some false => some (bodyItem, link)
  | some true =>
    match link with
    | none => none
    | some l =>
      if access.findPresetIK bodyItem l then some (bodyItem, some l)
      else some (bodyItem, ((access.linkTraverse l).drop 1).find? (access.findPresetIK bodyItem))

/-- `LinkPositionView::Impl::setTargetBodyAndLink`, with the configuration
dialog as argument. -/
def setTargetBodyAndLink (v : Impl K)
    (configurationDialog : Option (JointSpaceConfigurationDialog K)) (w : World K)
    (access : BodyItemAccess K) (bodyItem : Option BodyItem) (link : Option (Link K)) :
    Option (Impl K × Option (JointSpaceConfigurationDialog K) × World K) :=
  let isTargetTypeChanged := decide (v.targetType ≠ TargetType.LinkTarget)
  let isBodyItemChanged := isTargetTypeChanged || decide (bodyItem ≠ v.targetBodyItem)
  let isLinkChanged := isTargetTypeChanged || !access.sameLinkPtr link v.targetLink
  let resolved : Option (Option BodyItem × Option (Link K)) :=
    match bodyItem, link with
    | some bodyItem, some link =>
      (v.resolveTargetLink access bodyItem link).map fun r => (some r.1, r.2)
    | _, _ => some (bodyItem, link)
  match resolved with
  | none => none
  | some (bodyItem, link) =>
    if link.isNone && isLinkChanged then some (v, configurationDialog, w)
    else
      let isLinkChanged := if link.isNone then true else isLinkChanged
      if isBodyItemChanged || isLinkChanged then
        let v :=
          if isBodyItemChanged then { v with positionWidget := none, targetBodyItem := bodyItem }
          else v
        let v := { v with targetType := TargetType.LinkTarget }
        let kitOf : Link K → Option (LinkKinematicsKit K) := fun l =>
          match v.targetBodyItem with
          | some item => access.getCurrentLinkKinematicsKit item l
          | none => none
        match v.updateTargetLink configurationDialog w kitOf link with
        | none => none
        | some (v, d, w) => some (v.updateDisplayWithCurrentLinkPosition w, d, w)
      else some (v, configurationDialog, w)

/-- The combo loop of `onFrameUpdate`: the first entry standing for `newId`
becomes the current one; without such an entry the current index stays. -/
def selectComboEntry (combo : QComboBox) (newId : GeneralId) : QComboBox :=
  let found : Option Nat := combo.items.findIdx? (fun item => decide (item.id = some newId))
  let currentIndex : Int := (found.map fun j => (j : Int)).getD combo.currentIndex
  if currentIndex = combo.currentIndex then combo else combo.setCurrentIndex currentIndex

/-- `LinkPositionView::Impl::onFrameUpdate`; `none` stands for the dereference
of an absent kinematics kit. -/
def onFrameUpdate (v : Impl K) (w : World K) : Option (Impl K) :=
  match v.kinematicsKit with
  | none => none
  | some kinematicsKit =>
    let baseFrameType := kinematicsKit.currentBaseFrameType
    let v :=
      if baseFrameType = FrameType.WorldFrame ∧ v.coordinateMode ≠ WorldCoordinateMode then
        { v.setCoordinateMode w WorldCoordinateMode false with
          preferredCoordinateMode := WorldCoordinateMode }
      else if baseFrameType = FrameType.BodyFrame ∧ v.coordinateMode ≠ BodyCoordinateMode then
        { v.setCoordinateMode w BodyCoordinateMode false with
          preferredCoordinateMode := BodyCoordinateMode }
      else v.updateCoordinateFrameCandidatesAll
    match v.kinematicsKit with
    | none => none
    | some kinematicsKit =>
      let v := { v with
        frameCombo := fun i =>
          selectComboEntry (v.frameCombo i)
            (if i = FrameComboType.BaseFrameCombo then
              kinematicsKit.currentFrameId kinematicsKit.currentBaseFrameType
            else kinematicsKit.currentFrameId FrameType.LinkFrame) }
      let v := { v with
        baseFrame := currentBaseFrame kinematicsKit
        linkFrame := currentLinkFrame kinematicsKit }
      some (v.updateDisplay w)

end

end Impl

/-- The state names in the order `updateConfigurationDisplay` visits them:
joint position first, type order second. -/
def traversalLabels (allLabels : List (List String)) : List String :=
  (List.range ((allLabels.map List.length).foldl max 0)).flatMap fun i =>
    allLabels.filterMap fun labels => labels.get? i

/-- The distinct elements of a list, each at its first occurrence. -/
def firstOccurrences : List String → List String
  | [] => []
  | x :: rest => x :: (firstOccurrences rest).filter (fun y => decide (y ≠ x))

section Examples

/-- The example view in World mode, with a turned base frame and a shifted
link frame. -/
def exampleWorldView : Impl ℤ :=
  { exampleView with
    coordinateMode := WorldCoordinateMode
    baseFrame := { exampleIdentityFrame with T := exampleRotZ, id := GeneralId.int 1 }
    linkFrame := { exampleIdentityFrame with T := exampleTransX, id := GeneralId.int 2 } }

/-- Body items: a sub body attached to the robot, and the robot. -/
def exampleSubBodyItem : BodyItem := { body := { name := "gripper" } }

/-- The example answers: the gripper is attached to the robot at link 2; only
link 2 has a preset IK; the traverse of a link is the link and link 2. -/
def exampleAccess : BodyItemAccess ℤ :=
  { isAttachedToParentBody := fun item => decide (item = exampleSubBodyItem)
    parentBodyItem := fun item =>
      if item = exampleSubBodyItem then some { body := { name := "robot" } } else none
    parentBodyLink := fun item => if item = exampleSubBodyItem then some exampleTargetLink else none
    findPresetIK := fun _ link => decide (link.index = 2)
    linkTraverse := fun link => [link, exampleTargetLink]
    getCurrentLinkKinematicsKit := fun _ _ => some exampleKit
    sameLink := fun a b => decide (a.index = b.index) }

/-- The root link of the gripper. -/
def exampleGripperRoot : Link ℤ :=
  { index := 0, isBodyRoot := true, Ta := fun s => s.linkT 0, calcRfromAttitude := fun R => R,
    name := "gripper_base" }

/-- The example view accepting any link as target. -/
def exampleAnyLinkView : Impl ℤ :=
  { exampleView with targetLinkTypeSelection := TargetLinkType.AnyLink }

/-- A handler whose two current types share state names. -/
def exampleLabelHandler : JointSpaceConfigurationHandler ℤ :=
  { exampleHandler with
    getConfigurationStateNames := fun id =>
      if id = 1 then ["up", "flip"] else ["flip", "down", "up"]
    getCurrentConfigurationTypes := fun _ => [1, 2] }

/-- The example view on the kit with that handler; its cached configuration
types differ from the current ones. -/
def exampleLabelView : Impl ℤ :=
  { exampleConfView with
    kinematicsKit := some { exampleConfKit with
      configurationHandler := some exampleLabelHandler } }

end Examples

/-! ## Theorems -/

namespace Impl

section
variable {K : Type} [CommRing K]

omit [CommRing K] in
/-- Refreshing the configuration label does not touch the displayed pose. -/
theorem updateConfigurationDisplay_positionWidget (v : Impl K) (w : World K) :
    (v.updateConfigurationDisplay w).positionWidget = v.positionWidget := by
  unfold updateConfigurationDisplay
  split
  · rfl
  · split
    · rfl
    · dsimp only
      split <;> rfl

end

/-- C1, evaluated on the code: in Body mode, with the base link turned a quarter
turn about z and the base frame one unit along x (all transforms isometries,
attitude normalization the identity), feeding the displayed pose of the target
link back through `findBodyIkSolution` hands the solver a pose whose
translation is `(-1, 1, 0)`, not the link's attitude pose (translation zero). -/
theorem C1_round_trip_fails_in_body_mode :
    exampleView.baseFrame.T.IsIsometry ∧ exampleView.linkFrame.T.IsIsometry ∧
    (exampleBaseLink.Ta exampleWorld.kin).IsIsometry ∧
    (exampleTargetLink.Ta exampleWorld.kin).IsIsometry ∧
    ∃ Td Ts : Position ℤ,
      (exampleView.updateDisplayWithCurrentLinkPosition exampleWorld).positionWidget = some Td ∧
      (exampleView.findBodyIkSolution exampleWorld Td false).bind
        (fun r => r.2.2.lastSolverPose) = some Ts ∧
      exampleTargetLink.calcRfromAttitude Ts.linear = Ts.linear ∧
      Ts.translation = ![-1, 1, 0] ∧
      (exampleTargetLink.Ta exampleWorld.kin).translation = ![0, 0, 0] ∧
      Ts ≠ exampleTargetLink.Ta exampleWorld.kin := by
  refine ⟨?_, ?_, ?_, ?_, _, _, rfl, rfl, rfl, ?_, ?_, ?_⟩
  · unfold Position.IsIsometry; decide
  · unfold Position.IsIsometry; decide
  · unfold Position.IsIsometry; decide
  · unfold Position.IsIsometry; decide
  · decide
  · decide
  · intro h
    have h0 := congrArg (fun P : Position ℤ => P.translation 0) h
    revert h0
    decide

section
variable {K : Type} [CommRing K]

/-- C2: for a target link, `updateDisplayWithCurrentLinkPosition` shows
`inverse(baseFrame.T) * link.Ta * linkFrame.T`; when the mode is Body and the
kinematics kit has a base link the product is left-multiplied by
`inverse(baseLink.Ta)`, and when the mode is not Body, or there is no kit, or
the kit has no base link, no body-attitude factor is applied. -/
theorem C2_display_direction (v : Impl K) (w : World K) (targetLink : Link K)
    (h : v.targetLink = some targetLink) :
    (∀ kit baseLink, v.kinematicsKit = some kit → kit.baseLink = some baseLink →
        v.coordinateMode = BodyCoordinateMode →
        (v.updateDisplayWithCurrentLinkPosition w).positionWidget =
          some ((baseLink.Ta w.kin).inverseIsometry *
            (v.baseFrame.T.inverseIsometry * targetLink.Ta w.kin * v.linkFrame.T))) ∧
    ((v.coordinateMode ≠ BodyCoordinateMode ∨
        ∀ kit, v.kinematicsKit = some kit → kit.baseLink = none) →
        (v.updateDisplayWithCurrentLinkPosition w).positionWidget =
          some (v.baseFrame.T.inverseIsometry * targetLink.Ta w.kin * v.linkFrame.T)) := by
  constructor
  · intro kit baseLink hk hb hm
    simp [updateDisplayWithCurrentLinkPosition, h, hk, hb, hm,
      updateConfigurationDisplay_positionWidget]
  · intro hc
    simp only [updateDisplayWithCurrentLinkPosition, h, updateConfigurationDisplay_positionWidget]
    cases hk : v.kinematicsKit with
    | none => rfl
    | some kit =>
      cases hb : kit.baseLink with
      | none => simp [hb]
      | some b =>
        rcases hc with hc | hc
        · simp [hb, hc]
        · have := hc kit hk
          simp [hb] at this

/-- What `findBodyIkSolution` does once the solver and its target pose are
known: one solver call with the current preferred configuration; the returned
flag is the solver's; the preferred configuration is not touched. -/
theorem findBodyIkSolution_of_target (v : Impl K) (w : World K) (T_input T : Position K)
    (isRawT : Bool) (kit : LinkKinematicsKit K) (ik : InverseKinematics K) (item : BodyItem)
    (hk : v.kinematicsKit = some kit) (hik : kit.inverseKinematics = some ik)
    (hb : v.targetBodyItem = some item)
    (hT : v.solverTarget kit { w with edits := w.edits ++ [EditEvent.beginKinematicStateEdit] }
      T_input isRawT = some T) :
    ∃ v1 w1, v.findBodyIkSolution w T_input isRawT =
        some ((ik.calcInverseKinematics w.preferred T w.kin).1, v1, w1) ∧
      w1.ikCalls = w.ikCalls ++ [(w.preferred, T)] ∧ w1.preferred = w.preferred := by
  simp only [findBodyIkSolution, hk, hik, hb, hT]
  by_cases hr : (ik.calcInverseKinematics w.preferred T w.kin).1 = true
  · simp only [hr, if_true]
    exact ⟨_, _, rfl, rfl, rfl⟩
  · simp only [hr, if_false]
    exact ⟨_, _, rfl, rfl, rfl⟩

/-- C3: with a kit, a solver, a body item and a target link, an operator pose
submitted with `isRawT = false` makes `findBodyIkSolution` return, after
exactly one solver call, made with the pose
`baseFrame.T * T_input * inverse(linkFrame.T)`, left-multiplied by
`baseLink.Ta` exactly when the mode is Body and the kit has a base link, whose
linear part is then replaced by the target link's `calcRfromAttitude` of it and
whose translation is kept. -/
theorem C3_input_direction (v : Impl K) (w : World K) (T_input : Position K)
    (kit : LinkKinematicsKit K) (ik : InverseKinematics K) (item : BodyItem)
    (targetLink : Link K)
    (hk : v.kinematicsKit = some kit) (hik : kit.inverseKinematics = some ik)
    (hb : v.targetBodyItem = some item) (hl : v.targetLink = some targetLink) :
    ∃ solved v1 w1, v.findBodyIkSolution w T_input false = some (solved, v1, w1) ∧
      w1.ikCalls = w.ikCalls ++
        [(w.preferred,
          specInputPose v.baseFrame.T T_input v.linkFrame.T
            (if v.coordinateMode = BodyCoordinateMode then
              kit.baseLink.map (fun baseLink => baseLink.Ta w.kin) else none)
            targetLink.calcRfromAttitude)] := by
  have hT : v.solverTarget kit { w with edits := w.edits ++ [EditEvent.beginKinematicStateEdit] }
      T_input false = some (specInputPose v.baseFrame.T T_input v.linkFrame.T
            (if v.coordinateMode = BodyCoordinateMode then
              kit.baseLink.map (fun baseLink => baseLink.Ta w.kin) else none)
            targetLink.calcRfromAttitude) := by
    simp only [solverTarget, hl, specInputPose, Position.setLinear, Bool.false_eq_true, if_false]
    cases kit.baseLink with
    | none => by_cases hm : v.coordinateMode = BodyCoordinateMode <;> simp [hm]
    | some b => by_cases hm : v.coordinateMode = BodyCoordinateMode <;> simp [hm]
  obtain ⟨v1, w1, h1, h2, _⟩ :=
    findBodyIkSolution_of_target v w T_input _ false kit ik item hk hik hb hT
  exact ⟨_, v1, w1, h1, h2⟩

end

/-- C2 at the example view (Body mode, base link present). -/
theorem C2_display_direction_witness :
    exampleView.targetLink = some exampleTargetLink ∧
    (exampleView.updateDisplayWithCurrentLinkPosition exampleWorld).positionWidget =
      some (exampleRotZ.inverseIsometry *
        (exampleTransX.inverseIsometry * Position.identity * Position.identity)) :=
  ⟨rfl, (C2_display_direction exampleView exampleWorld exampleTargetLink rfl).1
    exampleKit exampleBaseLink rfl rfl rfl⟩

/-- C3 at the example view: the call returns and logs one solver call. -/
theorem C3_input_direction_witness :
    exampleView.kinematicsKit = some exampleKit ∧
    exampleKit.inverseKinematics = some exampleIk ∧
    exampleView.targetBodyItem = some { body := { name := "robot" } } ∧
    exampleView.targetLink = some exampleTargetLink ∧
    ∃ solved v1 w1,
      exampleView.findBodyIkSolution exampleWorld exampleTransX false = some (solved, v1, w1) ∧
      w1.ikCalls = exampleWorld.ikCalls ++
        [(exampleWorld.preferred,
          specInputPose exampleView.baseFrame.T exampleTransX exampleView.linkFrame.T
            (if exampleView.coordinateMode = BodyCoordinateMode then
              exampleKit.baseLink.map (fun baseLink => baseLink.Ta exampleWorld.kin) else none)
            exampleTargetLink.calcRfromAttitude)] :=
  ⟨rfl, rfl, rfl, rfl,
    C3_input_direction exampleView exampleWorld exampleTransX exampleKit exampleIk
      { body := { name := "robot" } } exampleTargetLink rfl rfl rfl rfl⟩

end Impl

end Cnoid

namespace Cnoid


namespace JointSpaceConfigurationDialog

section
variable {K : Type} [LinearOrderedCommRing K]

/-- The joint-limit loop returns true exactly when every joint is within its
limits, both limits included. -/
theorem jointsWithinLimits_iff (s : KinematicState K) (joints : List (Joint K)) :
    jointsWithinLimits s joints = true ↔
      ∀ joint ∈ joints, joint.q_lower ≤ s.q joint.jointId ∧ s.q joint.jointId ≤ joint.q_upper := by
  induction joints with
  | nil => simp [jointsWithinLimits]
  | cons j rest ih =>
    by_cases h : s.q j.jointId > j.q_upper ∨ s.q j.jointId < j.q_lower
    · simp only [jointsWithinLimits, h, if_true, List.mem_cons, forall_eq_or_imp]
      constructor
      · intro hf; cases hf
      · rintro ⟨⟨h1, h2⟩, _⟩
        rcases h with h | h
        · exact absurd h2 (not_le.mpr h)
        · exact absurd h1 (not_le.mpr h)
    · simp only [jointsWithinLimits, h, if_false, List.mem_cons, forall_eq_or_imp, ih]
      push_neg at h
      constructor
      · intro hr; exact ⟨⟨h.2, h.1⟩, hr⟩
      · intro hr; exact hr.2

/-- The trial loop, as a fold, computes `trialResults` and `kinAfterTrials`,
logs one solver call per item and touches nothing else but the preferred
configuration. -/
theorem foldl_trialStep (jointPath : JointPath K) (T0 : Position K) (items : List ConfItem) :
    ∀ (acc : List ConfItem) (w : World K),
      (items.foldl (trialStep jointPath T0) (acc, w)).1 =
          acc ++ trialResults jointPath T0 w.kin items ∧
      (items.foldl (trialStep jointPath T0) (acc, w)).2.kin =
          kinAfterTrials jointPath T0 w.kin (items.map ConfItem.typeId) ∧
      (items.foldl (trialStep jointPath T0) (acc, w)).2.ikCalls =
          w.ikCalls ++ items.map (fun item => (some item.typeId, T0)) ∧
      (items.foldl (trialStep jointPath T0) (acc, w)).2.edits = w.edits := by
  induction items with
  | nil => intro acc w; simp [trialResults, kinAfterTrials]
  | cons item rest ih =>
    intro acc w
    simp only [List.foldl_cons]
    obtain ⟨h1, h2, h3, h4⟩ := ih (trialStep jointPath T0 (acc, w) item).1
      (trialStep jointPath T0 (acc, w) item).2
    refine ⟨?_, ?_, ?_, ?_⟩
    · rw [h1]; simp [trialStep, trialResults]
    · rw [h2]; simp [trialStep, kinAfterTrials]
    · rw [h3]; simp [trialStep]
    · rw [h4]; simp [trialStep]

/-- The `i`-th trial result: the item with its flag set from the solve that
starts in the state left by the trials before it. -/
theorem trialResults_get (jointPath : JointPath K) (T0 : Position K) :
    ∀ (items : List ConfItem) (kin : KinematicState K) (i : Nat) (h : i < items.length),
      (trialResults jointPath T0 kin items).get? i =
        some { items.get ⟨i, h⟩ with
          solved := some (
            if (jointPath.calcInverseKinematics (some (items.get ⟨i, h⟩).typeId) T0
                (kinAfterTrials jointPath T0 kin ((items.take i).map ConfItem.typeId))).1
            then jointsWithinLimits
              (jointPath.calcInverseKinematics (some (items.get ⟨i, h⟩).typeId) T0
                (kinAfterTrials jointPath T0 kin ((items.take i).map ConfItem.typeId))).2
              jointPath.joints
            else false) } := by
  intro items
  induction items with
  | nil => intro kin i h; simp at h
  | cons item rest ih =>
    intro kin i h
    cases i with
    | zero => simp [trialResults, kinAfterTrials]
    | succ i =>
      have h2 : i < rest.length := by simpa using h
      simpa [trialResults, kinAfterTrials] using ih _ i h2

end
end JointSpaceConfigurationDialog
end Cnoid

namespace Cnoid
namespace JointSpaceConfigurationDialog

section
variable {K : Type} [LinearOrderedCommRing K]

omit [LinearOrderedCommRing K] in
/-- The display pass keeps an item's type id and feasibility flag. -/
theorem displayItem_keeps (feasibleCheck : Bool) (item : ConfItem) :
    (displayItem feasibleCheck item).typeId = item.typeId ∧
    (displayItem feasibleCheck item).solved = item.solved ∧
    (displayItem feasibleCheck item).feasible = item.feasible := by
  unfold displayItem
  split <;> simp [ConfItem.feasible]

/-- The outcome of `updateConfigurationStates` on a bound dialog with at least
one row. -/
theorem updateConfigurationStates_bound (d : JointSpaceConfigurationDialog K) (w : World K)
    (jointPath : JointPath K) (body : Body) (c : JointSpaceConfigurationHandler K)
    (hj : d.jointPath = some jointPath) (hb : d.body = some body)
    (hc : d.configuration = some c) (hne : d.treeWidget ≠ []) :
    ∃ d1 w1, d.updateConfigurationStates w = some (d1, w1) ∧
      d1.treeWidget = (trialResults jointPath (w.kin.linkT jointPath.endLink) w.kin
        d.treeWidget).map (displayItem d.feasibleCheck) ∧
      d1.jointPath = d.jointPath ∧ d1.body = d.body ∧ d1.configuration = d.configuration ∧
      d1.feasibleCheck = d.feasibleCheck ∧
      w1.preferred = none ∧
      w1.kin.q = w.kin.q ∧
      w1.kin.linkT 0 = w.kin.linkT 0 ∧
      w1.kin.linkT jointPath.endLink = w.kin.linkT jointPath.endLink ∧
      w1.ikCalls = w.ikCalls ++
        d.treeWidget.map (fun item => (some item.typeId, w.kin.linkT jointPath.endLink)) ∧
      w1.edits = w.edits := by
  have hlen : ¬ d.treeWidget.length = 0 := by
    simpa [List.length_eq_zero] using hne
  obtain ⟨f1, f2, f3, f4⟩ :=
    foldl_trialStep jointPath (w.kin.linkT jointPath.endLink) d.treeWidget [] w
  have hlen2 : ¬ (trialResults jointPath (w.kin.linkT jointPath.endLink) w.kin
      d.treeWidget).length = 0 := by
    cases hd : d.treeWidget with
    | nil => exact absurd hd hne
    | cons a l => simp [trialResults]
  simp only [updateConfigurationStates, hlen, if_false, hj, hb, hc]
  refine ⟨_, _, rfl, ?_, ?_, ?_, ?_, ?_, ?_, ?_, ?_, ?_, ?_, ?_⟩
  · simp [updateItemDisplay, f1, hlen2]
  · simp only [updateItemDisplay]; split <;> rfl
  · simp only [updateItemDisplay]; split <;> rfl
  · simp only [updateItemDisplay]; split <;> rfl
  · simp only [updateItemDisplay]; split <;> rfl
  · rfl
  · simp [BodyState.storePositions, BodyState.restorePositions]
  · simp only [BodyState.storePositions, BodyState.restorePositions, Function.update_apply]
    split_ifs with h0 <;> simp_all
  · simp
  · simpa using f3
  · simpa using f4

omit [LinearOrderedCommRing K] in
/-- With no rows `updateConfigurationStates` returns at once. -/
theorem updateConfigurationStates_rowless [LinearOrderedCommRing K]
    (d : JointSpaceConfigurationDialog K) (w : World K)
    (h : d.treeWidget = []) : d.updateConfigurationStates w = some (d, w) := by
  simp [updateConfigurationStates, h]

end
end JointSpaceConfigurationDialog
end Cnoid

namespace Cnoid
namespace JointSpaceConfigurationDialog

section
variable {K : Type} [LinearOrderedCommRing K]

/-- C4: on a bound dialog `updateConfigurationStates` returns, asks the solver
once per row, in row order, for the reference pose `T0` (the end link's pose
at the start of the call) with the row's type id as preferred configuration,
and leaves each row with its type id and with a feasible flag that is true if
and only if that solve succeeded and every joint of the joint path then
satisfies `q_lower ≤ q ≤ q_upper`; a solve that succeeds with a joint above
its upper limit gives a false flag. The solve of row `i` starts in the
kinematic state left by the solves of the rows before it. In the scenario of
two types, where type 1 solves within the limits and type 2 solves with joint
0 above its upper limit, the flags are true and false. -/
theorem C4_feasibility (d : JointSpaceConfigurationDialog K) (w : World K)
    (jointPath : JointPath K) (body : Body) (c : JointSpaceConfigurationHandler K)
    (hj : d.jointPath = some jointPath) (hb : d.body = some body)
    (hc : d.configuration = some c) :
    (∃ d1 w1, d.updateConfigurationStates w = some (d1, w1) ∧
      d1.treeWidget.length = d.treeWidget.length ∧
      w1.ikCalls = w.ikCalls ++
        d.treeWidget.map (fun item => (some item.typeId, w.kin.linkT jointPath.endLink)) ∧
      ∀ (i : Nat) (h : i < d.treeWidget.length),
        ∃ item1, d1.treeWidget.get? i = some item1 ∧
          item1.typeId = (d.treeWidget.get ⟨i, h⟩).typeId ∧
          (item1.feasible = true ↔
            (jointPath.calcInverseKinematics (some (d.treeWidget.get ⟨i, h⟩).typeId)
                (w.kin.linkT jointPath.endLink)
                (kinAfterTrials jointPath (w.kin.linkT jointPath.endLink) w.kin
                  ((d.treeWidget.take i).map ConfItem.typeId))).1 = true ∧
            ∀ joint ∈ jointPath.joints,
              joint.q_lower ≤
                (jointPath.calcInverseKinematics (some (d.treeWidget.get ⟨i, h⟩).typeId)
                  (w.kin.linkT jointPath.endLink)
                  (kinAfterTrials jointPath (w.kin.linkT jointPath.endLink) w.kin
                    ((d.treeWidget.take i).map ConfItem.typeId))).2.q joint.jointId ∧
              (jointPath.calcInverseKinematics (some (d.treeWidget.get ⟨i, h⟩).typeId)
                  (w.kin.linkT jointPath.endLink)
                  (kinAfterTrials jointPath (w.kin.linkT jointPath.endLink) w.kin
                    ((d.treeWidget.take i).map ConfItem.typeId))).2.q joint.jointId ≤
                joint.q_upper) ∧
          ((jointPath.calcInverseKinematics (some (d.treeWidget.get ⟨i, h⟩).typeId)
                (w.kin.linkT jointPath.endLink)
                (kinAfterTrials jointPath (w.kin.linkT jointPath.endLink) w.kin
                  ((d.treeWidget.take i).map ConfItem.typeId))).1 = true →
            (∃ joint ∈ jointPath.joints,
              joint.q_upper <
                (jointPath.calcInverseKinematics (some (d.treeWidget.get ⟨i, h⟩).typeId)
                  (w.kin.linkT jointPath.endLink)
                  (kinAfterTrials jointPath (w.kin.linkT jointPath.endLink) w.kin
                    ((d.treeWidget.take i).map ConfItem.typeId))).2.q joint.jointId) →
            item1.feasible = false)) ∧
    (exampleDialog.updateConfigurationStates exampleWorld).map
        (fun r => r.1.treeWidget.map (fun item => (item.typeId, item.feasible))) =
      some [(1, true), (2, false)] := by
  refine ⟨?_, by decide⟩
  by_cases hne : d.treeWidget = []
  · refine ⟨d, w, updateConfigurationStates_rowless d w hne, rfl, by simp [hne], ?_⟩
    intro i h
    simp [hne] at h
  · obtain ⟨d1, w1, he, ht, -, -, -, -, -, -, -, -, hcalls, -⟩ :=
      updateConfigurationStates_bound d w jointPath body c hj hb hc hne
    have hlen : ∀ (items : List ConfItem) (kin : KinematicState K),
        (trialResults jointPath (w.kin.linkT jointPath.endLink) kin items).length =
          items.length := by
      intro items
      induction items with
      | nil => intro kin; rfl
      | cons a l ih => intro kin; simp [trialResults, ih]
    refine ⟨d1, w1, he, by simp [ht, hlen], hcalls, ?_⟩
    intro i h
    obtain ⟨x, hx, hxdef⟩ : ∃ x,
        (trialResults jointPath (w.kin.linkT jointPath.endLink) w.kin d.treeWidget).get? i =
          some x ∧ x = _ :=
      ⟨_, trialResults_get jointPath (w.kin.linkT jointPath.endLink) d.treeWidget w.kin i h, rfl⟩
    have hm : d1.treeWidget.get? i = some (displayItem d.feasibleCheck x) := by
      rw [ht]
      simp only [List.get?_eq_getElem?, List.getElem?_map]
      rw [← List.get?_eq_getElem?, hx]
      rfl
    have hty : x.typeId = (d.treeWidget.get ⟨i, h⟩).typeId := by rw [hxdef]
    have hfe : x.feasible =
        (if (jointPath.calcInverseKinematics (some (d.treeWidget.get ⟨i, h⟩).typeId)
              (w.kin.linkT jointPath.endLink)
              (kinAfterTrials jointPath (w.kin.linkT jointPath.endLink) w.kin
                ((d.treeWidget.take i).map ConfItem.typeId))).1 = true
          then jointsWithinLimits
            (jointPath.calcInverseKinematics (some (d.treeWidget.get ⟨i, h⟩).typeId)
              (w.kin.linkT jointPath.endLink)
              (kinAfterTrials jointPath (w.kin.linkT jointPath.endLink) w.kin
                ((d.treeWidget.take i).map ConfItem.typeId))).2 jointPath.joints
          else false) := by
      rw [hxdef]; rfl
    refine ⟨displayItem d.feasibleCheck x, hm,
      ((displayItem_keeps _ _).1).trans hty, ?_, ?_⟩
    · rw [(displayItem_keeps _ _).2.2, hfe]
      constructor
      · intro hf
        split at hf
        · next hr => exact ⟨hr, (jointsWithinLimits_iff _ _).mp hf⟩
        · cases hf
      · rintro ⟨hr, hq⟩
        rw [if_pos hr]
        exact (jointsWithinLimits_iff _ _).mpr hq
    · intro hr ⟨joint, hmem, hup⟩
      rw [(displayItem_keeps _ _).2.2, hfe, if_pos hr]
      cases hjw : jointsWithinLimits
          (jointPath.calcInverseKinematics (some (d.treeWidget.get ⟨i, h⟩).typeId)
            (w.kin.linkT jointPath.endLink)
            (kinAfterTrials jointPath (w.kin.linkT jointPath.endLink) w.kin
              ((d.treeWidget.take i).map ConfItem.typeId))).2 jointPath.joints with
      | false => rfl
      | true =>
        exact absurd ((jointsWithinLimits_iff _ _).mp hjw joint hmem).2 (not_le.mpr hup)

/-- C5, as amended: on a bound dialog `updateConfigurationStates` returns with
the body's joint positions and the end link's pose equal to their values
before the call, whatever the individual solves did; the preferred
configuration is none afterwards when the table has at least one row, and is
left as it was when the table has no rows. -/
theorem C5_trials_non_destructive (d : JointSpaceConfigurationDialog K) (w : World K)
    (jointPath : JointPath K) (body : Body) (c : JointSpaceConfigurationHandler K)
    (hj : d.jointPath = some jointPath) (hb : d.body = some body)
    (hc : d.configuration = some c) :
    ∃ d1 w1, d.updateConfigurationStates w = some (d1, w1) ∧
      w1.kin.q = w.kin.q ∧
      w1.kin.linkT jointPath.endLink = w.kin.linkT jointPath.endLink ∧
      (d.treeWidget ≠ [] → w1.preferred = none) ∧
      (d.treeWidget = [] → w1.preferred = w.preferred) := by
  by_cases hne : d.treeWidget = []
  · exact ⟨d, w, updateConfigurationStates_rowless d w hne, rfl, rfl,
      fun h => absurd hne h, fun _ => rfl⟩
  · obtain ⟨d1, w1, he, -, -, -, -, -, hp, hq, -, hT, -, -⟩ :=
      updateConfigurationStates_bound d w jointPath body c hj hb hc hne
    exact ⟨d1, w1, he, hq, hT, fun _ => hp, fun h => absurd h hne⟩

end
end JointSpaceConfigurationDialog
end Cnoid

namespace Cnoid
namespace JointSpaceConfigurationDialog

section
variable {K : Type} [LinearOrderedCommRing K]

/-- The trial results keep the type ids of the items. -/
theorem trialResults_typeId (jointPath : JointPath K) (T0 : Position K) :
    ∀ (items : List ConfItem) (kin : KinematicState K),
      (trialResults jointPath T0 kin items).map ConfItem.typeId = items.map ConfItem.typeId := by
  intro items
  induction items with
  | nil => intro kin; rfl
  | cons a l ih => intro kin; simp [trialResults, ih]

/-- The joint-limit loop reads joint positions only. -/
theorem jointsWithinLimits_congr (s t : KinematicState K) (h : s.q = t.q)
    (joints : List (Joint K)) : jointsWithinLimits s joints = jointsWithinLimits t joints := by
  induction joints with
  | nil => rfl
  | cons j rest ih => simp [jointsWithinLimits, h, ih]

/-- For a solver that reads the kinematic state only through the joint
positions, the root link pose and the end link pose, trials of the same type
ids from states that agree there record the same flags. -/
theorem trialResults_congr (jointPath : JointPath K) (T0 : Position K)
    (hdet : ∀ (p : Option Int) (T : Position K) (s t : KinematicState K),
      s.q = t.q → s.linkT 0 = t.linkT 0 →
      s.linkT jointPath.endLink = t.linkT jointPath.endLink →
      (jointPath.calcInverseKinematics p T s).1 = (jointPath.calcInverseKinematics p T t).1 ∧
      (jointPath.calcInverseKinematics p T s).2.q = (jointPath.calcInverseKinematics p T t).2.q ∧
      (jointPath.calcInverseKinematics p T s).2.linkT 0 =
        (jointPath.calcInverseKinematics p T t).2.linkT 0 ∧
      (jointPath.calcInverseKinematics p T s).2.linkT jointPath.endLink =
        (jointPath.calcInverseKinematics p T t).2.linkT jointPath.endLink) :
    ∀ (items items1 : List ConfItem) (s t : KinematicState K),
      items.map ConfItem.typeId = items1.map ConfItem.typeId →
      s.q = t.q → s.linkT 0 = t.linkT 0 →
      s.linkT jointPath.endLink = t.linkT jointPath.endLink →
      (trialResults jointPath T0 s items).map ConfItem.feasible =
        (trialResults jointPath T0 t items1).map ConfItem.feasible := by
  intro items
  induction items with
  | nil =>
    intro items1 s t hids _ _ _
    cases items1 with
    | nil => rfl
    | cons b l => simp at hids
  | cons a l ih =>
    intro items1 s t hids hq h0 he
    cases items1 with
    | nil => simp at hids
    | cons b l1 =>
      simp only [List.map_cons, List.cons.injEq] at hids
      obtain ⟨d1, d2, d3, d4⟩ := hdet (some a.typeId) T0 s t hq h0 he
      have hrest := ih l1 _ _ hids.2 d2 d3 d4
      simp only [trialResults, List.map_cons, ConfItem.feasible, Option.getD_some]
      rw [← hids.1, d1, jointsWithinLimits_congr _ _ d2]
      exact congrArg _ hrest

end
end JointSpaceConfigurationDialog
end Cnoid

namespace Cnoid
namespace JointSpaceConfigurationDialog

section
variable {K : Type} [LinearOrderedCommRing K]

/-- C6: let the solver be a function of the preferred configuration, the target
pose and the body state, the body state being the joint positions, the root
link pose (the snapshot) and the end link pose. Then on a bound dialog two
runs of `updateConfigurationStates` in a row both return, give every row the
same type id and the same feasible flag both times, and leave the joint
positions, the root link pose and the end link pose as they were before the
first run. -/
theorem C6_trials_idempotent (d : JointSpaceConfigurationDialog K) (w : World K)
    (jointPath : JointPath K) (body : Body) (c : JointSpaceConfigurationHandler K)
    (hj : d.jointPath = some jointPath) (hb : d.body = some body)
    (hc : d.configuration = some c)
    (hdet : ∀ (p : Option Int) (T : Position K) (s t : KinematicState K),
      s.q = t.q → s.linkT 0 = t.linkT 0 →
      s.linkT jointPath.endLink = t.linkT jointPath.endLink →
      (jointPath.calcInverseKinematics p T s).1 = (jointPath.calcInverseKinematics p T t).1 ∧
      (jointPath.calcInverseKinematics p T s).2.q = (jointPath.calcInverseKinematics p T t).2.q ∧
      (jointPath.calcInverseKinematics p T s).2.linkT 0 =
        (jointPath.calcInverseKinematics p T t).2.linkT 0 ∧
      (jointPath.calcInverseKinematics p T s).2.linkT jointPath.endLink =
        (jointPath.calcInverseKinematics p T t).2.linkT jointPath.endLink) :
    ∃ d1 w1 d2 w2, d.updateConfigurationStates w = some (d1, w1) ∧
      d1.updateConfigurationStates w1 = some (d2, w2) ∧
      d2.treeWidget.map ConfItem.typeId = d1.treeWidget.map ConfItem.typeId ∧
      d2.treeWidget.map ConfItem.feasible = d1.treeWidget.map ConfItem.feasible ∧
      w2.kin.q = w.kin.q ∧
      w2.kin.linkT 0 = w.kin.linkT 0 ∧
      w2.kin.linkT jointPath.endLink = w.kin.linkT jointPath.endLink := by
  by_cases hne : d.treeWidget = []
  · exact ⟨d, w, d, w, updateConfigurationStates_rowless d w hne,
      updateConfigurationStates_rowless d w hne, rfl, rfl, rfl, rfl, rfl⟩
  · obtain ⟨d1, w1, he, ht, hj1, hb1, hc1, hf1, -, hq, h0, hT, -, -⟩ :=
      updateConfigurationStates_bound d w jointPath body c hj hb hc hne
    have hne1 : d1.treeWidget ≠ [] := by
      rw [ht]
      cases hd : d.treeWidget with
      | nil => exact absurd hd hne
      | cons a l => simp [trialResults]
    obtain ⟨d2, w2, he2, ht2, -, -, -, -, -, hq2, h02, hT2, -, -⟩ :=
      updateConfigurationStates_bound d1 w1 jointPath body c (hj1.trans hj) (hb1.trans hb)
        (hc1.trans hc) hne1
    have hkeepT : ∀ (b : Bool) (l : List ConfItem),
        (l.map (displayItem b)).map ConfItem.typeId = l.map ConfItem.typeId := by
      intro b l
      rw [List.map_map]
      exact List.map_congr_left fun x _ => (displayItem_keeps b x).1
    have hkeepF : ∀ (b : Bool) (l : List ConfItem),
        (l.map (displayItem b)).map ConfItem.feasible = l.map ConfItem.feasible := by
      intro b l
      rw [List.map_map]
      exact List.map_congr_left fun x _ => (displayItem_keeps b x).2.2
    refine ⟨d1, w1, d2, w2, he, he2, ?_, ?_, hq2.trans hq, h02.trans h0, hT2.trans hT⟩
    · rw [ht2, hkeepT, trialResults_typeId]
    · rw [ht2, hkeepF, ht, hkeepF, hT]
      exact trialResults_congr jointPath _ hdet _ _ _ _
        (by rw [hkeepT, trialResults_typeId]) hq h0 hT

/-- C8: on a dialog with a handler, a view with a kit, a solver and a body
item, `applyConfiguration id` returns after exactly one solver call, made with
`id` as preferred configuration and with the kit link's current pose `T()`
itself as target, and the preferred configuration is none afterwards, whatever
the solver answered. -/
theorem C8_applyConfiguration_one_shot (d : JointSpaceConfigurationDialog K) (v : Impl K)
    (w : World K) (id : Int) (c : JointSpaceConfigurationHandler K)
    (kit : LinkKinematicsKit K) (ik : InverseKinematics K) (item : BodyItem)
    (hc : d.configuration = some c) (hk : v.kinematicsKit = some kit)
    (hik : kit.inverseKinematics = some ik) (hb : v.targetBodyItem = some item) :
    ∃ v1 w1, d.applyConfiguration v w id = some (v1, w1) ∧
      w1.ikCalls = w.ikCalls ++ [(some id, kit.link.T w.kin)] ∧
      w1.preferred = none := by
  obtain ⟨v1, w1, h1, h2, _⟩ :=
    Impl.findBodyIkSolution_of_target v { w with preferred := some id } (kit.link.T w.kin)
      (kit.link.T w.kin) true kit ik item hk hik hb (by simp [Impl.solverTarget])
  refine ⟨v1, { w1 with preferred := none }, ?_, h2, rfl⟩
  simp only [applyConfiguration, hc, hk]
  rw [h1]

end

/-- C4 at the example dialog: the call returns and keeps the two rows. -/
theorem C4_feasibility_witness :
    exampleDialog.jointPath = some exampleJointPath ∧
    exampleDialog.body = some { name := "robot" } ∧
    exampleDialog.configuration = some exampleHandler ∧
    ∃ d1 w1, exampleDialog.updateConfigurationStates exampleWorld = some (d1, w1) ∧
      d1.treeWidget.length = exampleDialog.treeWidget.length :=
  ⟨rfl, rfl, rfl,
    (C4_feasibility exampleDialog exampleWorld exampleJointPath { name := "robot" }
      exampleHandler rfl rfl rfl).1.imp fun _ h => h.imp fun _ h => ⟨h.1, h.2.1⟩⟩

/-- C5 as stated fails on a bound dialog with no rows: the call returns at once
and the preferred configuration 7 stays set. -/
theorem C5_rowless_keeps_preferred :
    exampleRowlessDialog.jointPath = some exampleJointPath ∧
    exampleRowlessDialog.body = some { name := "robot" } ∧
    exampleRowlessDialog.configuration = some exampleHandler ∧
    ∃ d1 w1, exampleRowlessDialog.updateConfigurationStates examplePreferredWorld =
        some (d1, w1) ∧
      w1.preferred = some 7 ∧ w1.preferred ≠ none :=
  ⟨rfl, rfl, rfl, exampleRowlessDialog, examplePreferredWorld, rfl, rfl, by decide⟩

/-- C5, as amended, at the example dialog. -/
theorem C5_trials_non_destructive_witness :
    exampleDialog.jointPath = some exampleJointPath ∧
    exampleDialog.body = some { name := "robot" } ∧
    exampleDialog.configuration = some exampleHandler ∧
    ∃ d1 w1, exampleDialog.updateConfigurationStates exampleWorld = some (d1, w1) ∧
      w1.kin.q = exampleWorld.kin.q :=
  ⟨rfl, rfl, rfl,
    (C5_trials_non_destructive exampleDialog exampleWorld exampleJointPath { name := "robot" }
      exampleHandler rfl rfl rfl).imp fun _ h => h.imp fun _ h => ⟨h.1, h.2.1⟩⟩

/-- C6 at the example dialog, whose solver reads no link pose at all. -/
theorem C6_trials_idempotent_witness :
    exampleDialog.jointPath = some exampleJointPath ∧
    exampleDialog.body = some { name := "robot" } ∧
    exampleDialog.configuration = some exampleHandler ∧
    ∃ d1 w1 d2 w2, exampleDialog.updateConfigurationStates exampleWorld = some (d1, w1) ∧
      d1.updateConfigurationStates w1 = some (d2, w2) ∧
      d2.treeWidget.map ConfItem.feasible = d1.treeWidget.map ConfItem.feasible :=
  ⟨rfl, rfl, rfl,
    (C6_trials_idempotent exampleDialog exampleWorld exampleJointPath { name := "robot" }
      exampleHandler rfl rfl rfl
      (by
        intro p T s t hq h0 _
        refine ⟨rfl, ?_, ?_, ?_⟩
        · simp [exampleJointPath, hq]
        · simpa [exampleJointPath, Function.update] using h0
        · simp [exampleJointPath])).imp
      fun _ h => h.imp fun _ h => h.imp fun _ h => h.imp fun _ h => ⟨h.1, h.2.1, h.2.2.2.1⟩⟩

/-- C7, evaluated on the code: the session is populated with joint 0 at 0,
configuration 1 is applied (joint 0 moves to 1), Update is pressed
(`updateConfigurationStates`), then Cancel: joint 0 is left at 1, not at the
value 0 it had when the session was populated. Without the Update in between,
Cancel does put joint 0 back at 0. -/
theorem C7_cancel_after_update_keeps_edit :
    (do
      let (populated, d1, w1) ←
        exampleEmptyDialog.updateConfigurationTypes (some exampleConfKit) exampleWorld
      let (v2, w2) ← d1.applyConfiguration exampleConfView w1 1
      let (d3, w3) ← d1.updateConfigurationStates w2
      let (_, w4) ← d3.onCanceled v2 w3
      pure (populated, w1.kin.q 0, w2.kin.q 0, w4.kin.q 0)) = some (true, 0, 1, 1) ∧
    (do
      let (populated, d1, w1) ←
        exampleEmptyDialog.updateConfigurationTypes (some exampleConfKit) exampleWorld
      let (v2, w2) ← d1.applyConfiguration exampleConfView w1 1
      let (_, w4) ← d1.onCanceled v2 w2
      pure (populated, w1.kin.q 0, w2.kin.q 0, w4.kin.q 0)) = some (true, 0, 1, 0) := by
  constructor <;> decide

/-- C8 at the example view and dialog. -/
theorem C8_applyConfiguration_one_shot_witness :
    exampleDialog.configuration = some exampleHandler ∧
    exampleConfView.kinematicsKit = some exampleConfKit ∧
    exampleConfKit.inverseKinematics = some exampleJointPath.toInverseKinematics ∧
    exampleConfView.targetBodyItem = some { body := { name := "robot" } } ∧
    ∃ v1 w1, exampleDialog.applyConfiguration exampleConfView exampleWorld 2 = some (v1, w1) ∧
      w1.ikCalls = exampleWorld.ikCalls ++ [(some 2, exampleConfKit.link.T exampleWorld.kin)] ∧
      w1.preferred = none :=
  ⟨rfl, rfl, rfl, rfl,
    C8_applyConfiguration_one_shot exampleDialog exampleConfView exampleWorld 2 exampleHandler
      exampleConfKit exampleJointPath.toInverseKinematics { body := { name := "robot" } }
      rfl rfl rfl rfl⟩

end JointSpaceConfigurationDialog
end Cnoid

namespace Cnoid
namespace Impl

section
variable {K : Type}

/-- One step of the combo loop appends the spec's entry for the frame. -/
theorem addFrameComboItem_items (currentId : GeneralId) (st : QComboBox × Int)
    (frame : CoordinateFrame K) :
    (addFrameComboItem currentId st frame).1.items = st.1.items ++ [specFrameEntry frame] ∧
    (addFrameComboItem currentId st frame).2 =
      (if frame.id = currentId then (st.1.items.length : Int) else st.2) := by
  unfold addFrameComboItem specFrameEntry
  cases h : frame.id with
  | int n => simp [GeneralId.isInt, GeneralId.toInt, QComboBox.addItem, QComboBox.count]
  | str s => simp [GeneralId.isInt, GeneralId.toString, QComboBox.addItem, QComboBox.count]

/-- The combo loop: the entries appended, and where the index ends up. -/
theorem foldl_addFrameComboItem (currentId : GeneralId) :
    ∀ (cands : List (CoordinateFrame K)) (combo : QComboBox) (idx : Int),
      (cands.foldl (addFrameComboItem currentId) (combo, idx)).1.items =
          combo.items ++ cands.map specFrameEntry ∧
      ((∀ f ∈ cands, f.id ≠ currentId) →
          (cands.foldl (addFrameComboItem currentId) (combo, idx)).2 = idx) ∧
      ((cands.map (fun f => f.id)).Nodup → ∀ (i : Nat) (h : i < cands.length),
          (cands.get ⟨i, h⟩).id = currentId →
          (cands.foldl (addFrameComboItem currentId) (combo, idx)).2 =
            (combo.items.length : Int) + i) ∧
      ((cands.foldl (addFrameComboItem currentId) (combo, idx)).2 = idx ∨
        ((combo.items.length : Int) ≤ (cands.foldl (addFrameComboItem currentId) (combo, idx)).2 ∧
          (cands.foldl (addFrameComboItem currentId) (combo, idx)).2 <
            (combo.items.length : Int) + cands.length)) := by
  intro cands
  induction cands with
  | nil => intro combo idx; simp
  | cons f rest ih =>
    intro combo idx
    obtain ⟨s1, s2⟩ := addFrameComboItem_items currentId (combo, idx) f
    have ih1 := ih (addFrameComboItem currentId (combo, idx) f).1
      (addFrameComboItem currentId (combo, idx) f).2
    rw [Prod.mk.eta] at ih1
    obtain ⟨h1, h2, h3, h4⟩ := ih1
    dsimp only at s1 s2
    simp only [List.foldl_cons]
    refine ⟨?_, ?_, ?_, ?_⟩
    · rw [h1, s1]; simp
    · intro hno
      rw [h2 (fun g hg => hno g (List.mem_cons_of_mem _ hg)), s2]
      simp [hno f (List.mem_cons_self _ _)]
    · intro hnd i h hi
      simp only [List.map_cons, List.nodup_cons] at hnd
      cases i with
      | zero =>
        simp only [List.get_eq_getElem, List.getElem_cons_zero] at hi
        have hno : ∀ g ∈ rest, g.id ≠ currentId := by
          intro g hg hgid
          exact hnd.1 (List.mem_map.mpr ⟨g, hg, hgid.trans hi.symm⟩)
        rw [h2 hno, s2]
        simp [hi]
      | succ i =>
        have hlt : i < rest.length := by simpa using h
        have hi2 : (rest.get ⟨i, hlt⟩).id = currentId := by simpa using hi
        rw [h3 hnd.2 i hlt hi2, s1]
        simp only [List.length_append, List.length_singleton]
        push_cast
        ring
    · rcases h4 with h4 | ⟨h4, h5⟩
      · rw [h4, s2]
        by_cases hf : f.id = currentId
        · right; simp only [hf, if_true, List.length_cons]; push_cast; omega
        · left; simp [hf]
      · right
        rw [s1] at h4 h5
        simp only [List.length_append, List.length_singleton, List.length_cons,
          List.length_nil] at h4 h5 ⊢
        push_cast at h4 h5 ⊢
        omega

end
end Impl
end Cnoid

namespace Cnoid
namespace Impl

section
variable {K : Type}

/-- The combo after `updateCoordinateFrameComboItems`: the sentinel followed by
the spec's entries of the findable frames, with the index the loop ended on,
which is always an index of an entry. -/
theorem updateCoordinateFrameComboItems_eq (combo : QComboBox)
    (frames : Option (CoordinateFrameSet K)) (currentId : GeneralId) (originLabel : String) :
    (updateCoordinateFrameComboItems combo frames currentId originLabel).items =
        { text := "0: " ++ originLabel, data := QVariant.int 0 } ::
          (findableFrames frames).map specFrameEntry ∧
    (updateCoordinateFrameComboItems combo frames currentId originLabel).currentIndex =
        ((findableFrames frames).foldl (addFrameComboItem currentId)
          ((combo.clear).addItem ("0: " ++ originLabel) (QVariant.int 0), 0)).2 := by
  have hst : updateCoordinateFrameComboItems combo frames currentId originLabel =
      ((findableFrames frames).foldl (addFrameComboItem currentId)
          ((combo.clear).addItem ("0: " ++ originLabel) (QVariant.int 0), 0)).1.setCurrentIndex
        ((findableFrames frames).foldl (addFrameComboItem currentId)
          ((combo.clear).addItem ("0: " ++ originLabel) (QVariant.int 0), 0)).2 := by
    cases frames <;> rfl
  obtain ⟨h1, -, -, h4⟩ := foldl_addFrameComboItem currentId (findableFrames frames)
    ((combo.clear).addItem ("0: " ++ originLabel) (QVariant.int 0)) 0
  have hitems : ((combo.clear).addItem ("0: " ++ originLabel) (QVariant.int 0)).items =
      [{ text := "0: " ++ originLabel, data := QVariant.int 0 }] := rfl
  rw [hitems] at h1 h4
  rw [hst]
  refine ⟨by simpa [QComboBox.setCurrentIndex] using h1, ?_⟩
  simp only [QComboBox.setCurrentIndex, QComboBox.count, h1]
  rw [if_pos]
  simp only [List.length_singleton, List.length_append, List.length_map, List.length_cons,
    List.length_nil] at h4 ⊢
  push_cast at h4 ⊢
  omega

/-- The spec's entry of a frame stands for the frame's id. -/
theorem specFrameEntry_id (frame : CoordinateFrame K) :
    (specFrameEntry frame).id = some frame.id := by
  unfold specFrameEntry ComboItem.id
  cases h : frame.id <;> rfl

/-- C9: for every frame set, absent or not, every current id and every origin
label, `updateCoordinateFrameComboItems` leaves exactly `1 + n` entries, `n`
being the number of findable frames: first the sentinel labelled
`"0: <originLabel>"` carrying the integer 0, then, in list order, one entry
per findable frame, labelled `"<id>: <note>"` and carrying the integer for an
integer id, labelled with the id's own label and carrying the string for a
string id. For the frames 5 (note "Grasp") and "custom" the labels are
`"0: Origin"`, `"5: Grasp"`, `"custom"`. -/
theorem C9_frame_candidates (combo : QComboBox) (frames : Option (CoordinateFrameSet K))
    (currentId : GeneralId) (originLabel : String) :
    (updateCoordinateFrameComboItems combo frames currentId originLabel).items =
        { text := "0: " ++ originLabel, data := QVariant.int 0 } ::
          (findableFrames frames).map specFrameEntry ∧
    (updateCoordinateFrameComboItems combo frames currentId originLabel).count =
        1 + ((findableFrames frames).length : Int) ∧
    (updateCoordinateFrameComboItems exampleCombo (some exampleFrames) (GeneralId.int 5)
        "Origin").items =
      [{ text := "0: Origin", data := QVariant.int 0 },
       { text := "5: Grasp", data := QVariant.int 5 },
       { text := "custom", data := QVariant.string "custom" }] := by
  obtain ⟨h1, -⟩ := updateCoordinateFrameComboItems_eq combo frames currentId originLabel
  refine ⟨h1, ?_, by decide⟩
  simp only [QComboBox.count, h1, List.length_cons, List.length_map]
  push_cast
  ring

/-- C10: when the findable frames have pairwise distinct ids, the index
`updateCoordinateFrameComboItems` selects is `i + 1` when the `i`-th findable
frame has the current id, and the entry there stands for the current id; it is
the sentinel index 0 when no findable frame has the current id, in particular
when the frame set is absent; it is always an index of an entry. Without a
kinematics kit, or with a kit that has no frame sets,
`updateCoordinateFrameCandidates` selects index 0. -/
theorem C10_selected_index (combo : QComboBox) (frames : Option (CoordinateFrameSet K))
    (currentId : GeneralId) (originLabel : String)
    (hd : ((findableFrames frames).map (fun f => f.id)).Nodup) :
    (∀ (i : Nat) (h : i < (findableFrames frames).length),
      ((findableFrames frames).get ⟨i, h⟩).id = currentId →
      (updateCoordinateFrameComboItems combo frames currentId originLabel).currentIndex =
          (i : Int) + 1 ∧
      ∃ item, (updateCoordinateFrameComboItems combo frames currentId originLabel).items.get?
          (i + 1) = some item ∧ item.id = some currentId) ∧
    ((∀ f ∈ findableFrames frames, f.id ≠ currentId) →
      (updateCoordinateFrameComboItems combo frames currentId originLabel).currentIndex = 0) ∧
    (frames = none →
      (updateCoordinateFrameComboItems combo frames currentId originLabel).currentIndex = 0) ∧
    (0 ≤ (updateCoordinateFrameComboItems combo frames currentId originLabel).currentIndex ∧
      (updateCoordinateFrameComboItems combo frames currentId originLabel).currentIndex <
        (updateCoordinateFrameComboItems combo frames currentId originLabel).count) ∧
    (∀ (v : Impl K) (i : FrameComboType), v.kinematicsKit = none →
      ((v.updateCoordinateFrameCandidates i).frameCombo i).currentIndex = 0) ∧
    (∀ (v : Impl K) (i : FrameComboType) (kit : LinkKinematicsKit K),
      v.kinematicsKit = some kit → (∀ frameType, kit.frameSet frameType = none) →
      ((v.updateCoordinateFrameCandidates i).frameCombo i).currentIndex = 0) := by
  obtain ⟨h1, h2⟩ := updateCoordinateFrameComboItems_eq combo frames currentId originLabel
  obtain ⟨-, f2, f3, f4⟩ := foldl_addFrameComboItem currentId (findableFrames frames)
    ((combo.clear).addItem ("0: " ++ originLabel) (QVariant.int 0)) 0
  have hitems : ((combo.clear).addItem ("0: " ++ originLabel) (QVariant.int 0)).items =
      [{ text := "0: " ++ originLabel, data := QVariant.int 0 }] := rfl
  rw [hitems] at f3 f4
  have hnone : ∀ (c : QComboBox) (id : GeneralId) (label : String),
      (updateCoordinateFrameComboItems c (none : Option (CoordinateFrameSet K)) id
        label).currentIndex = 0 := by
    intro c id label
    rfl
  refine ⟨?_, ?_, ?_, ?_, ?_, ?_⟩
  · intro i h hi
    refine ⟨?_, specFrameEntry ((findableFrames frames).get ⟨i, h⟩), ?_, ?_⟩
    · rw [h2, f3 hd i h hi]
      simp only [List.length_singleton]
      push_cast
      ring
    · rw [h1]
      simp [List.getElem?_eq_getElem h]
    · rw [specFrameEntry_id, hi]
  · intro hno
    rw [h2, f2 hno]
  · intro hf
    subst hf
    exact hnone _ _ _
  · rw [h2]
    simp only [QComboBox.count, h1, List.length_cons, List.length_map]
    simp only [List.length_singleton] at f4
    push_cast at f4 ⊢
    omega
  · intro v i hk
    simp only [updateCoordinateFrameCandidates, hk, if_true]
    exact hnone _ _ _
  · intro v i kit hk hfs
    simp only [updateCoordinateFrameCandidates, hk, hfs, if_true]
    exact hnone _ _ _

end

/-- C10 at the spec's scenario: the frames 5 and "custom" with current id 5
select index 1. -/
theorem C10_selected_index_witness :
    ((findableFrames (some exampleFrames)).map (fun f => f.id)).Nodup ∧
    (updateCoordinateFrameComboItems exampleCombo (some exampleFrames) (GeneralId.int 5)
      "Origin").currentIndex = 1 :=
  ⟨by decide,
    ((C10_selected_index exampleCombo (some exampleFrames) (GeneralId.int 5) "Origin"
      (by decide)).1 0 (by decide) rfl).1⟩

end Impl
end Cnoid

namespace Cnoid
namespace JointSpaceConfigurationDialog

section
variable {K : Type} [LinearOrderedCommRing K]

/-- The trial loop changes nothing of an item but its feasibility flag. -/
theorem trialResults_rows (jointPath : JointPath K) (T0 : Position K) :
    ∀ (items : List ConfItem) (kin : KinematicState K),
      (trialResults jointPath T0 kin items).map
          (fun item => (item.number, item.typeId, item.texts)) =
        items.map (fun item => (item.number, item.typeId, item.texts)) := by
  intro items
  induction items with
  | nil => intro kin; rfl
  | cons a l ih => intro kin; simp [trialResults, ih]

omit [LinearOrderedCommRing K] in
/-- The display pass changes nothing of an item but foreground and hidden flag. -/
theorem displayItem_rows (feasibleCheck : Bool) (items : List ConfItem) :
    (items.map (displayItem feasibleCheck)).map
        (fun item => (item.number, item.typeId, item.texts, item.solved)) =
      items.map (fun item => (item.number, item.typeId, item.texts, item.solved)) := by
  rw [List.map_map]
  refine List.map_congr_left fun x _ => ?_
  simp only [Function.comp, displayItem]
  split <;> rfl

/-- `updateConfigurationStates` changes nothing of the dialog but the reference
pose, the snapshot and the items. -/
theorem updateConfigurationStates_shape (d d1 : JointSpaceConfigurationDialog K)
    (w w1 : World K) (h : d.updateConfigurationStates w = some (d1, w1)) :
    d1 = { d with T0 := d1.T0, bodyState0 := d1.bodyState0, treeWidget := d1.treeWidget } := by
  unfold updateConfigurationStates at h
  split at h
  · cases h; rfl
  · split at h
    · simp only [Option.some.injEq, Prod.mk.injEq] at h
      rw [← h.1]
      unfold updateItemDisplay
      split <;> rfl
    · cases h

/-- The outcome of `updateConfigurationTypes` when the kit has a body, a joint
path and a configuration handler. -/
theorem updateConfigurationTypes_bound (d : JointSpaceConfigurationDialog K)
    (kit : LinkKinematicsKit K) (w : World K) (jointPath : JointPath K)
    (c : JointSpaceConfigurationHandler K) (body : Body)
    (hj : kit.jointPath = some jointPath) (hc : kit.configurationHandler = some c)
    (hb : kit.body = some body) :
    ∃ d1 w1, d.updateConfigurationTypes (some kit) w = some (true, d1, w1) ∧
      d1.treeWidget.map (fun item => (item.number, item.typeId, item.texts)) =
        c.configurationTypeIds.enum.map
          (fun p => ((p.1 : Int) + 1, p.2, c.getConfigurationStateNames p.2)) ∧
      d1.columnCount = c.getConfigurationTargetNames.length + 1 ∧
      d1.headerLabels = "No" :: c.getConfigurationTargetNames ∧
      d1.body = some body ∧ d1.jointPath = some jointPath ∧ d1.configuration = some c ∧
      d1.lastSortedSection = -1 := by
  have hrows : (c.configurationTypeIds.enum.map fun p => newConfItem c p.1 p.2).map
      (fun item => (item.number, item.typeId, item.texts)) =
      c.configurationTypeIds.enum.map
          (fun p => ((p.1 : Int) + 1, p.2, c.getConfigurationStateNames p.2)) := by
    rw [List.map_map]; rfl
  obtain ⟨d0, hd0, hb0, hj0, hc0, ht0, hcc, hhl, hls⟩ :
      ∃ d0 : JointSpaceConfigurationDialog K,
        d.updateConfigurationTypes (some kit) w =
          (d0.updateConfigurationStates w).map (fun r => (true, r.1, r.2)) ∧
        d0.body = some body ∧ d0.jointPath = some jointPath ∧ d0.configuration = some c ∧
        d0.treeWidget = (c.configurationTypeIds.enum.map fun p => newConfItem c p.1 p.2) ∧
        d0.columnCount = c.getConfigurationTargetNames.length + 1 ∧
        d0.headerLabels = "No" :: c.getConfigurationTargetNames ∧
        d0.lastSortedSection = -1 := by
    refine ⟨{ d.reset with
        body := some body
        jointPath := some jointPath
        configuration := some c
        T0 := w.kin.linkT jointPath.endLink
        bodyState0 := d.bodyState0.storePositions w.kin
        windowTitle :=
          if jointPath.name.isEmpty then "Joint-space configuration"
          else jointPath.name ++ " configuration"
        columnCount := c.getConfigurationTargetNames.length + 1
        headerLabels := "No" :: c.getConfigurationTargetNames
        treeWidget := c.configurationTypeIds.enum.map fun p => newConfItem c p.1 p.2 },
      ?_, rfl, rfl, rfl, rfl, rfl, rfl, rfl⟩
    simp only [updateConfigurationTypes, reset, hj, hc, hb, List.nil_append]
    cases updateConfigurationStates _ w <;> rfl
  have hex : ∃ d1 w1, d0.updateConfigurationStates w = some (d1, w1) ∧
      d1.treeWidget.map (fun item => (item.number, item.typeId, item.texts)) =
        d0.treeWidget.map (fun item => (item.number, item.typeId, item.texts)) := by
    by_cases hne : d0.treeWidget = []
    · exact ⟨d0, w, updateConfigurationStates_rowless d0 w hne, rfl⟩
    · obtain ⟨d1, w1, he, ht, -⟩ :=
        updateConfigurationStates_bound d0 w jointPath body c hj0 hb0 hc0 hne
      refine ⟨d1, w1, he, ?_⟩
      have h3 := congrArg (List.map (fun r : Int × Int × List String × Option Bool =>
        (r.1, r.2.1, r.2.2.1))) (displayItem_rows d0.feasibleCheck
          (trialResults jointPath (w.kin.linkT jointPath.endLink) w.kin d0.treeWidget))
      simp only [List.map_map, Function.comp] at h3
      rw [ht, List.map_map]
      exact h3.trans (trialResults_rows jointPath _ _ _)
  obtain ⟨d1, w1, he, hr⟩ := hex
  have hshape := updateConfigurationStates_shape d0 d1 w w1 he
  refine ⟨d1, w1, by rw [hd0, he]; rfl, ?_, ?_, ?_, ?_, ?_, ?_, ?_⟩
  · rw [hr, ht0, hrows]
  · rw [hshape]; exact hcc
  · rw [hshape]; exact hhl
  · rw [hshape]; exact hb0
  · rw [hshape]; exact hj0
  · rw [hshape]; exact hc0
  · rw [hshape]; exact hls

end
end JointSpaceConfigurationDialog
end Cnoid

namespace Cnoid
namespace JointSpaceConfigurationDialog

section
variable {K : Type}

/-- C11: `reset` leaves no last sorted column. On a dialog in that state, for
columns `k` and `j` with `j ≠ k`: a click on `k` sorts column `k` ascending; a
second click on `k` sorts it descending; a click on `j` after the click on `k`
sorts column `j` ascending. In general a click on a column other than the last
sorted one sorts ascending, and a click on the last sorted column sorts in the
order opposite to the last one. -/
theorem C11_sort_toggling (d0 : JointSpaceConfigurationDialog K) (k j : Int)
    (h0 : d0.lastSortedSection = -1) (hk : 0 ≤ k) (hjk : j ≠ k) :
    (∀ d : JointSpaceConfigurationDialog K, d.reset.lastSortedSection = -1) ∧
    ((d0.onSectionClicked k).treeWidget =
        sortByColumn d0.treeWidget k SortOrder.AscendingOrder ∧
      (d0.onSectionClicked k).lastSortOrder = SortOrder.AscendingOrder ∧
      (d0.onSectionClicked k).lastSortedSection = k) ∧
    (((d0.onSectionClicked k).onSectionClicked k).treeWidget =
        sortByColumn (d0.onSectionClicked k).treeWidget k SortOrder.DescendingOrder ∧
      ((d0.onSectionClicked k).onSectionClicked k).lastSortOrder =
        SortOrder.DescendingOrder) ∧
    (((d0.onSectionClicked k).onSectionClicked j).treeWidget =
        sortByColumn (d0.onSectionClicked k).treeWidget j SortOrder.AscendingOrder ∧
      ((d0.onSectionClicked k).onSectionClicked j).lastSortOrder =
        SortOrder.AscendingOrder ∧
      ((d0.onSectionClicked k).onSectionClicked j).lastSortedSection = j) ∧
    (∀ (d : JointSpaceConfigurationDialog K) (index : Int),
      (index ≠ d.lastSortedSection →
        (d.onSectionClicked index).treeWidget =
            sortByColumn d.treeWidget index SortOrder.AscendingOrder ∧
          (d.onSectionClicked index).lastSortOrder = SortOrder.AscendingOrder) ∧
      (index = d.lastSortedSection →
        (d.onSectionClicked index).treeWidget =
            sortByColumn d.treeWidget index
              (if d.lastSortOrder = SortOrder.AscendingOrder then SortOrder.DescendingOrder
                else SortOrder.AscendingOrder) ∧
          (d.onSectionClicked index).lastSortOrder =
            (if d.lastSortOrder = SortOrder.AscendingOrder then SortOrder.DescendingOrder
              else SortOrder.AscendingOrder))) := by
  have hne : k ≠ d0.lastSortedSection := by rw [h0]; omega
  have h1 : (d0.onSectionClicked k).lastSortOrder = SortOrder.AscendingOrder ∧
      (d0.onSectionClicked k).lastSortedSection = k := by
    simp [onSectionClicked, hne]
  refine ⟨fun d => rfl, ⟨?_, h1.1, h1.2⟩, ⟨?_, ?_⟩, ⟨?_, ?_, ?_⟩, ?_⟩
  · simp [onSectionClicked, hne]
  · simp only [onSectionClicked, hne, ne_eq, not_false_eq_true, if_true, not_true_eq_false,
      if_false]
  · simp only [onSectionClicked, hne, ne_eq, not_false_eq_true, if_true, not_true_eq_false,
      if_false]
  · simp only [onSectionClicked, hne, hjk, ne_eq, not_false_eq_true, if_true]
  · simp only [onSectionClicked, hne, hjk, ne_eq, not_false_eq_true, if_true]
  · simp only [onSectionClicked]
  · intro d index
    constructor
    · intro h
      simp [onSectionClicked, h]
    · intro h
      by_cases ho : d.lastSortOrder = SortOrder.AscendingOrder <;>
        simp [onSectionClicked, h, ho]

/-- C12: `updateItemDisplay` keeps the rows in their order with their number,
type id, labels and feasibility flag, and leaves each row hidden exactly when
the feasible-only check is on and the row's feasible flag is false. With type
1 feasible, type 2 infeasible and the check on, the only visible row is that
of type 1, with its labels as they are. -/
theorem C12_feasible_only_filter (d : JointSpaceConfigurationDialog K) :
    d.updateItemDisplay.treeWidget.map
        (fun item => (item.number, item.typeId, item.texts, item.solved)) =
      d.treeWidget.map (fun item => (item.number, item.typeId, item.texts, item.solved)) ∧
    d.updateItemDisplay.treeWidget.map (fun item => item.hidden) =
      d.treeWidget.map (fun item => d.feasibleCheck && !item.feasible) ∧
    (exampleFilteredDialog.updateItemDisplay.treeWidget.filter (fun item => !item.hidden)).map
        (fun item => (item.typeId, item.texts)) = [(1, ["up"])] := by
  refine ⟨?_, ?_, by decide⟩
  · unfold updateItemDisplay
    split
    · rfl
    · exact displayItem_rows d.feasibleCheck d.treeWidget
  · unfold updateItemDisplay
    split
    · next h =>
      rw [List.length_eq_zero.mp h]
      rfl
    · simp only [List.map_map]
      refine List.map_congr_left fun x _ => ?_
      simp only [Function.comp, displayItem, ConfItem.columnCount]
      rw [if_neg (by omega)]
      cases d.feasibleCheck <;> simp

end

section
variable {K : Type} [LinearOrderedCommRing K]

/-- C13: when the body of every kit is present, `updateConfigurationTypes`
returns, and it returns false if and only if there is no kinematics kit, or the
kit has no joint path, or the kit has no configuration handler. -/
theorem C13_updateConfigurationTypes_result (d : JointSpaceConfigurationDialog K)
    (kinematicsKit : Option (LinkKinematicsKit K)) (w : World K)
    (hbody : ∀ kit, kinematicsKit = some kit → kit.body ≠ none) :
    ∃ result d1 w1, d.updateConfigurationTypes kinematicsKit w = some (result, d1, w1) ∧
      (result = false ↔
        (kinematicsKit = none ∨
          ∃ kit, kinematicsKit = some kit ∧
            (kit.jointPath = none ∨ kit.configurationHandler = none))) := by
  cases kinematicsKit with
  | none => exact ⟨false, d.reset, w, rfl, by simp⟩
  | some kit =>
    cases hj : kit.jointPath with
    | none =>
      simp only [updateConfigurationTypes, hj]
      exact ⟨false, _, _, rfl, by simp [hj]⟩
    | some jointPath =>
      cases hc : kit.configurationHandler with
      | none =>
        simp only [updateConfigurationTypes, hj, hc]
        exact ⟨false, _, _, rfl, by simp [hc]⟩
      | some c =>
        cases hb : kit.body with
        | none => exact absurd hb (hbody kit rfl)
        | some body =>
          obtain ⟨d1, w1, he, -⟩ := updateConfigurationTypes_bound d kit w jointPath c body hj hc hb
          exact ⟨true, d1, w1, he, by simp [hj, hc]⟩

/-- C14: when the kit has a body, a joint path and a configuration handler
declaring `n` types, `updateConfigurationTypes` returns true and, whatever rows
the dialog had, the table has exactly `n` rows; row `i` shows the number
`i + 1`, carries the `i`-th declared type id and shows the state names of that
type, in order, in the columns from 1 on; the column count is the number of
target names plus one, and the header is "No" followed by the target names. -/
theorem C14_candidate_table (d : JointSpaceConfigurationDialog K)
    (kit : LinkKinematicsKit K) (w : World K) (jointPath : JointPath K)
    (c : JointSpaceConfigurationHandler K) (body : Body)
    (hj : kit.jointPath = some jointPath) (hc : kit.configurationHandler = some c)
    (hb : kit.body = some body) :
    ∃ d1 w1, d.updateConfigurationTypes (some kit) w = some (true, d1, w1) ∧
      d1.treeWidget.length = c.configurationTypeIds.length ∧
      d1.columnCount = c.getConfigurationTargetNames.length + 1 ∧
      d1.headerLabels = "No" :: c.getConfigurationTargetNames ∧
      ∀ (i : Nat) (h : i < c.configurationTypeIds.length),
        ∃ item, d1.treeWidget.get? i = some item ∧
          item.number = (i : Int) + 1 ∧
          item.typeId = c.configurationTypeIds.get ⟨i, h⟩ ∧
          item.texts = c.getConfigurationStateNames (c.configurationTypeIds.get ⟨i, h⟩) := by
  obtain ⟨d1, w1, he, hrows, hcc, hhl, -⟩ :=
    updateConfigurationTypes_bound d kit w jointPath c body hj hc hb
  have hlen : d1.treeWidget.length = c.configurationTypeIds.length := by
    have := congrArg List.length hrows
    simpa using this
  refine ⟨d1, w1, he, hlen, hcc, hhl, ?_⟩
  intro i h
  have hi : i < d1.treeWidget.length := by rw [hlen]; exact h
  refine ⟨d1.treeWidget.get ⟨i, hi⟩, List.get?_eq_get hi, ?_⟩
  have hg := congrArg (fun l => l.get? i) hrows
  simp only [List.get?_eq_getElem?, List.getElem?_map, List.getElem?_enum,
    List.getElem?_eq_getElem hi, List.getElem?_eq_getElem h, Option.map_some',
    Option.some.injEq, Prod.mk.injEq] at hg
  simpa using hg

/-- C15, as amended: in the Empty state left by `reset`,
`updateConfigurationStates` returns at once with the dialog and the world
(solver log, body state, preferred configuration) unchanged, while
`applyConfiguration` has no guard and dereferences the absent handler. -/
theorem C15_empty_state (d : JointSpaceConfigurationDialog K) (v : Impl K) (w : World K)
    (id : Int) :
    d.reset.updateConfigurationStates w = some (d.reset, w) ∧
    d.reset.applyConfiguration v w id = none := ⟨rfl, rfl⟩

end

/-- C11 at the example dialog for the columns 0 and 1. -/
theorem C11_sort_toggling_witness :
    exampleDialog.lastSortedSection = -1 ∧ (0 : Int) ≤ 0 ∧ (1 : Int) ≠ 0 ∧
    ((exampleDialog.onSectionClicked 0).onSectionClicked 0).lastSortOrder =
      SortOrder.DescendingOrder ∧
    ((exampleDialog.onSectionClicked 0).onSectionClicked 1).lastSortOrder =
      SortOrder.AscendingOrder :=
  ⟨rfl, by decide, by decide,
    (C11_sort_toggling exampleDialog 0 1 rfl (by decide) (by decide)).2.2.1.2,
    (C11_sort_toggling exampleDialog 0 1 rfl (by decide) (by decide)).2.2.2.1.2.1⟩

/-- C13 at the example kit, which has a body, a joint path and a handler. -/
theorem C13_updateConfigurationTypes_result_witness :
    (∀ kit, some exampleConfKit = some kit → kit.body ≠ none) ∧
    ∃ result d1 w1,
      exampleEmptyDialog.updateConfigurationTypes (some exampleConfKit) exampleWorld =
        some (result, d1, w1) :=
  ⟨fun kit h => by cases h; simp [exampleConfKit, exampleKit],
    (C13_updateConfigurationTypes_result exampleEmptyDialog (some exampleConfKit) exampleWorld
      (fun kit h => by cases h; simp [exampleConfKit, exampleKit])).imp
      fun _ h => h.imp fun _ h => h.imp fun _ h => h.1⟩

/-- C14 at the example kit: two rows for the two declared types. -/
theorem C14_candidate_table_witness :
    exampleConfKit.jointPath = some exampleJointPath ∧
    exampleConfKit.configurationHandler = some exampleHandler ∧
    exampleConfKit.body = some { name := "robot" } ∧
    ∃ d1 w1, exampleEmptyDialog.updateConfigurationTypes (some exampleConfKit) exampleWorld =
        some (true, d1, w1) ∧
      d1.treeWidget.length = exampleHandler.configurationTypeIds.length :=
  ⟨rfl, rfl, rfl,
    (C14_candidate_table exampleEmptyDialog exampleConfKit exampleWorld exampleJointPath
      exampleHandler { name := "robot" } rfl rfl rfl).imp
      fun _ h => h.imp fun _ h => ⟨h.1, h.2.1⟩⟩

/-- C15 as stated fails for `applyConfiguration`: on the reset example dialog,
which has no handler, the call dereferences the absent handler. -/
theorem C15_applyConfiguration_unguarded :
    exampleDialog.reset.configuration = none ∧
    exampleDialog.reset.jointPath = none ∧
    exampleDialog.reset.applyConfiguration exampleConfView exampleWorld 1 = none :=
  ⟨rfl, rfl, rfl⟩

end JointSpaceConfigurationDialog
end Cnoid

namespace Cnoid
namespace Impl

section
variable {K : Type} [CommRing K]

/-- C16: `findBodyIkSolution` returns false, without beginning an edit and
without changing the label or anything else, when there is no kinematics kit
or the kit has no solver. With a kit, a solver, a body item and a target pose
(a raw pose, or a target link to convert the input for), it begins an edit,
calls the solver once and returns the solver's answer: on success the edit is
accepted after a state-change notification and the label is "Solved"; on
failure the edit is cancelled, the body is back in the state it had before
the attempt, and the label is "Not Solved". -/
theorem C16_solve_result (v : Impl K) (w : World K) (T_input : Position K) (isRawT : Bool) :
    ((v.kinematicsKit = none ∨
        ∃ kit, v.kinematicsKit = some kit ∧ kit.inverseKinematics = none) →
      v.findBodyIkSolution w T_input isRawT = some (false, v, w)) ∧
    (∀ kit ik item, v.kinematicsKit = some kit → kit.inverseKinematics = some ik →
      v.targetBodyItem = some item → (isRawT = true ∨ ∃ l, v.targetLink = some l) →
      ∃ T v1 w1,
        v.findBodyIkSolution w T_input isRawT =
          some ((ik.calcInverseKinematics w.preferred T w.kin).1, v1, w1) ∧
        w1.ikCalls = w.ikCalls ++ [(w.preferred, T)] ∧
        ((ik.calcInverseKinematics w.preferred T w.kin).1 = true →
          v1.resultLabel = "Solved" ∧
          w1.edits = w.edits ++ [EditEvent.beginKinematicStateEdit,
            EditEvent.notifyKinematicStateChange, EditEvent.acceptKinematicStateEdit] ∧
          w1.kin = ik.calcRemainingPartForwardKinematicsForInverseKinematics
            (ik.calcInverseKinematics w.preferred T w.kin).2) ∧
        ((ik.calcInverseKinematics w.preferred T w.kin).1 = false →
          v1.resultLabel = "Not Solved" ∧
          w1.edits = w.edits ++ [EditEvent.beginKinematicStateEdit,
            EditEvent.cancelKinematicStateEdit] ∧
          w1.kin = w.kin)) := by
  constructor
  · rintro (hk | ⟨kit, hk, hik⟩)
    · simp only [findBodyIkSolution, hk]
    · simp only [findBodyIkSolution, hk, hik]
  · intro kit ik item hk hik hb ht
    obtain ⟨T, hT⟩ : ∃ T, v.solverTarget kit
        { w with edits := w.edits ++ [EditEvent.beginKinematicStateEdit] } T_input isRawT =
          some T := by
      rcases ht with ht | ⟨l, hl⟩
      · exact ⟨T_input, by simp [solverTarget, ht]⟩
      · cases isRawT with
        | true => exact ⟨T_input, by simp [solverTarget]⟩
        | false =>
          simp only [solverTarget, hl, Bool.false_eq_true, if_false]
          exact ⟨_, rfl⟩
    refine ⟨T, ?_⟩
    simp only [findBodyIkSolution, hk, hik, hb, hT]
    cases hr : (ik.calcInverseKinematics w.preferred T w.kin).1 with
    | true =>
      simp only [if_true]
      exact ⟨_, _, rfl, rfl, fun _ => ⟨rfl, by simp, rfl⟩, fun h => by simp at h⟩
    | false =>
      simp only [Bool.false_eq_true, if_false]
      exact ⟨_, _, rfl, rfl, fun h => by simp at h,
        fun _ => ⟨rfl, by simp [cancelKinematicStateEdit], rfl⟩⟩

end

/-- C16 at the example view, whose solver accepts every pose. -/
theorem C16_solve_result_witness :
    exampleView.kinematicsKit = some exampleKit ∧
    exampleKit.inverseKinematics = some exampleIk ∧
    exampleView.targetBodyItem = some { body := { name := "robot" } } ∧
    ∃ T v1 w1, exampleView.findBodyIkSolution exampleWorld exampleTransX true =
        some ((exampleIk.calcInverseKinematics exampleWorld.preferred T exampleWorld.kin).1,
          v1, w1) ∧
      w1.ikCalls = exampleWorld.ikCalls ++ [(exampleWorld.preferred, T)] :=
  ⟨rfl, rfl, rfl,
    ((C16_solve_result exampleView exampleWorld exampleTransX true).2 exampleKit exampleIk
      { body := { name := "robot" } } rfl rfl rfl (Or.inl rfl)).imp
      fun _ h => h.imp fun _ h => h.imp fun _ h => ⟨h.1, h.2.1⟩⟩

end Impl

namespace CoordinateFrame

section
variable {K : Type}

/-- C19, as amended: `setPosition(T)` always succeeds; afterwards `position()`
is `T` and the id, the mode and the note are unchanged; the setter emits no
update itself, and the `PositionUpdate` flag is emitted when `notifyUpdate` is
called with it. -/
theorem C19_setPosition (frame : CoordinateFrame K) (T : Position K) :
    (frame.setPosition T).position = T ∧
    (frame.setPosition T).id = frame.id ∧
    (frame.setPosition T).mode = frame.mode ∧
    (frame.setPosition T).note = frame.note ∧
    (frame.setPosition T).sigUpdated = frame.sigUpdated ∧
    ((frame.setPosition T).notifyUpdate PositionUpdate).sigUpdated =
      frame.sigUpdated ++ [PositionUpdate] :=
  ⟨rfl, rfl, rfl, rfl, rfl, rfl⟩

/-- C20: `resetId(newId)` returns false if and only if another frame of the
owning list has the id `newId`; then the frame, its id and its emitted updates
included, is unchanged; otherwise, also for a frame with no owner, the id
becomes `newId`, nothing else of the frame changes, and exactly one update is
emitted, with exactly the `IdUpdate` flag. -/
theorem C20_resetId (frame : CoordinateFrame K) (siblings : Option (List (CoordinateFrame K)))
    (newId : GeneralId) :
    ((frame.resetId siblings newId).1 = false ↔
      ∃ others, siblings = some others ∧ ∃ other ∈ others, other.id = newId) ∧
    ((frame.resetId siblings newId).1 = false → (frame.resetId siblings newId).2 = frame) ∧
    ((frame.resetId siblings newId).1 = true →
      (frame.resetId siblings newId).2 =
        { frame with id := newId, sigUpdated := frame.sigUpdated ++ [IdUpdate] }) ∧
    (siblings = none → (frame.resetId siblings newId).1 = true) ∧
    IdUpdate = 1 := by
  cases siblings with
  | none => simp [resetId, notifyUpdate, IdUpdate]
  | some others =>
    by_cases h : others.any (fun other => decide (other.id = newId)) = true
    · have h2 := h
      simp only [List.any_eq_true, decide_eq_true_eq] at h2
      simp [resetId, h, h2, IdUpdate]
    · have h2 := h
      simp only [List.any_eq_true, decide_eq_true_eq, not_exists, not_and] at h2
      simp only [resetId, h, notifyUpdate, IdUpdate]
      simp
      intro x hx
      exact h2 x hx

end

/-- C19 as stated fails: after `setPosition` on a frame that has emitted
nothing, no update has been emitted, so none carries `PositionUpdate`. -/
theorem C19_setPosition_emits_nothing :
    (exampleIdentityFrame.setPosition exampleTransX).position = exampleTransX ∧
    exampleIdentityFrame.sigUpdated = [] ∧
    (exampleIdentityFrame.setPosition exampleTransX).sigUpdated = [] ∧
    PositionUpdate ∉ (exampleIdentityFrame.setPosition exampleTransX).sigUpdated :=
  ⟨rfl, rfl, rfl, by decide⟩

end CoordinateFrame
end Cnoid

namespace Cnoid
namespace Impl

section
variable {K : Type} [CommRing K]

omit [CommRing K] in
/-- Refreshing the configuration label touches neither the kit, the modes nor
the frame combos. -/
theorem updateConfigurationDisplay_keeps (v : Impl K) (w : World K) :
    (v.updateConfigurationDisplay w).kinematicsKit = v.kinematicsKit ∧
    (v.updateConfigurationDisplay w).coordinateMode = v.coordinateMode ∧
    (v.updateConfigurationDisplay w).preferredCoordinateMode = v.preferredCoordinateMode ∧
    (v.updateConfigurationDisplay w).frameCombo = v.frameCombo := by
  unfold updateConfigurationDisplay
  split
  · exact ⟨rfl, rfl, rfl, rfl⟩
  · split
    · exact ⟨rfl, rfl, rfl, rfl⟩
    · dsimp only
      split <;> exact ⟨rfl, rfl, rfl, rfl⟩

/-- Refreshing the display touches neither the kit, the modes nor the frame
combos. -/
theorem updateDisplay_keeps (v : Impl K) (w : World K) :
    (v.updateDisplay w).kinematicsKit = v.kinematicsKit ∧
    (v.updateDisplay w).coordinateMode = v.coordinateMode ∧
    (v.updateDisplay w).preferredCoordinateMode = v.preferredCoordinateMode ∧
    (v.updateDisplay w).frameCombo = v.frameCombo := by
  unfold updateDisplay
  cases v.targetType with
  | LinkTarget =>
    dsimp only
    unfold updateDisplayWithCurrentLinkPosition
    split
    · exact ⟨rfl, rfl, rfl, rfl⟩
    · exact updateConfigurationDisplay_keeps _ w
  | PositionEditTarget =>
    dsimp only
    unfold updateDisplayWithPositionEditTarget
    split <;> exact ⟨rfl, rfl, rfl, rfl⟩

omit [CommRing K] in
/-- Re-deriving the candidates of both frame combos: the kit and the modes
are untouched, and each combo is rebuilt from the frame set of its frame type. -/
theorem updateCoordinateFrameCandidatesAll_eq (v : Impl K) :
    v.updateCoordinateFrameCandidatesAll.kinematicsKit = v.kinematicsKit ∧
    v.updateCoordinateFrameCandidatesAll.coordinateMode = v.coordinateMode ∧
    v.updateCoordinateFrameCandidatesAll.preferredCoordinateMode = v.preferredCoordinateMode ∧
    v.updateCoordinateFrameCandidatesAll.frameCombo FrameComboType.BaseFrameCombo =
      (v.updateCoordinateFrameCandidates FrameComboType.BaseFrameCombo).frameCombo
        FrameComboType.BaseFrameCombo ∧
    v.updateCoordinateFrameCandidatesAll.frameCombo FrameComboType.LinkFrameCombo =
      (v.updateCoordinateFrameCandidates FrameComboType.LinkFrameCombo).frameCombo
        FrameComboType.LinkFrameCombo := by
  refine ⟨rfl, rfl, rfl, ?_, ?_⟩
  · simp [updateCoordinateFrameCandidatesAll, updateCoordinateFrameCandidates]
  · simp [updateCoordinateFrameCandidatesAll, updateCoordinateFrameCandidates]

omit [CommRing K] in
/-- The radio block of `setCoordinateMode` changes the kit's base frame type
only. -/
theorem checkCoordinateModeRadio_eq (v : Impl K) (mode : Int) :
    (v.checkCoordinateModeRadio mode).kinematicsKit =
      (if mode = WorldCoordinateMode then
        v.kinematicsKit.map fun kit => kit.setCurrentBaseFrameType FrameType.WorldFrame
      else if mode = BodyCoordinateMode then
        v.kinematicsKit.map fun kit => kit.setCurrentBaseFrameType FrameType.BodyFrame
      else v.kinematicsKit) ∧
    (v.checkCoordinateModeRadio mode).coordinateMode = v.coordinateMode ∧
    (v.checkCoordinateModeRadio mode).preferredCoordinateMode = v.preferredCoordinateMode ∧
    (v.checkCoordinateModeRadio mode).frameCombo = v.frameCombo ∧
    (v.checkCoordinateModeRadio mode).defaultCoordName = v.defaultCoordName := by
  unfold checkCoordinateModeRadio
  split_ifs <;> exact ⟨rfl, rfl, rfl, rfl, rfl⟩

/-- What `setCoordinateMode` does to the kit and the modes. -/
theorem setCoordinateMode_eq (v : Impl K) (w : World K) (mode : Int) (doUpdateDisplay : Bool) :
    (v.setCoordinateMode w mode doUpdateDisplay).kinematicsKit =
      (if mode = WorldCoordinateMode then
        v.kinematicsKit.map fun kit => kit.setCurrentBaseFrameType FrameType.WorldFrame
      else if mode = BodyCoordinateMode then
        v.kinematicsKit.map fun kit => kit.setCurrentBaseFrameType FrameType.BodyFrame
      else v.kinematicsKit) ∧
    (v.setCoordinateMode w mode doUpdateDisplay).coordinateMode = mode ∧
    (v.setCoordinateMode w mode doUpdateDisplay).preferredCoordinateMode =
      v.preferredCoordinateMode := by
  obtain ⟨r1, r2, r3, -, -⟩ := checkCoordinateModeRadio_eq v mode
  unfold setCoordinateMode
  generalize v.checkCoordinateModeRadio mode = v1 at r1 r2 r3 ⊢
  dsimp only
  have hstep : ∀ v2 : Impl K,
      v2 = (if mode ≠ v1.coordinateMode then
        updateCoordinateFrameCandidatesAll { v1 with coordinateMode := mode } else v1) →
      v2.kinematicsKit = v1.kinematicsKit ∧ v2.coordinateMode = mode ∧
        v2.preferredCoordinateMode = v1.preferredCoordinateMode := by
    intro v2 h2
    by_cases hm : mode = v1.coordinateMode
    · rw [h2, if_neg (not_not.mpr hm)]
      exact ⟨rfl, hm.symm, rfl⟩
    · rw [h2, if_pos hm]
      exact ⟨rfl, rfl, rfl⟩
  obtain ⟨s1, s2, s3⟩ := hstep _ rfl
  cases doUpdateDisplay with
  | false =>
    simp only [Bool.false_eq_true, if_false]
    exact ⟨s1.trans r1, s2, s3.trans r3⟩
  | true =>
    simp only [if_true]
    obtain ⟨u1, u2, u3, -⟩ := updateDisplay_keeps
      (if mode ≠ v1.coordinateMode then
        updateCoordinateFrameCandidatesAll { v1 with coordinateMode := mode } else v1) w
    exact ⟨(u1.trans s1).trans r1, u2.trans s2, (u3.trans s3).trans r3⟩

end
end Impl
end Cnoid

namespace Cnoid
namespace Impl

section
variable {K : Type} [CommRing K]

/-- What `setCoordinateMode` does to the frame combos: nothing when the mode
is the current one, and otherwise both are re-derived in the new mode. -/
theorem setCoordinateMode_frameCombo (v : Impl K) (w : World K) (mode : Int)
    (doUpdateDisplay : Bool) :
    (mode = v.coordinateMode →
      (v.setCoordinateMode w mode doUpdateDisplay).frameCombo = v.frameCombo) ∧
    (mode ≠ v.coordinateMode →
      (v.setCoordinateMode w mode doUpdateDisplay).frameCombo =
        (updateCoordinateFrameCandidatesAll
          { v.checkCoordinateModeRadio mode with coordinateMode := mode }).frameCombo) := by
  obtain ⟨-, r2, -, r4, -⟩ := checkCoordinateModeRadio_eq v mode
  unfold setCoordinateMode
  generalize v.checkCoordinateModeRadio mode = v1 at r2 r4 ⊢
  dsimp only
  constructor
  · intro hm
    rw [if_neg (not_not.mpr (hm.trans r2.symm))]
    cases doUpdateDisplay with
    | false => simpa using r4
    | true => simpa using (updateDisplay_keeps v1 w).2.2.2.trans r4
  · intro hm
    rw [if_pos (fun h => hm (h.trans r2))]
    cases doUpdateDisplay with
    | false => simp
    | true => simpa using (updateDisplay_keeps _ w).2.2.2

/-- C17: with a kinematics kit bound, `setCoordinateMode` makes `WorldFrame`
the kit's current base frame type for World mode and `BodyFrame` for Body
mode, and leaves the kit as it is for Local mode; the view's coordinate mode is
the selected mode afterwards; when the selected mode is the previous one the
frame combos are left as they are, and when it differs both are re-derived:
the base frame combo from the frame set of the new mode's base frame type
(`WorldFrame` for World, `BodyFrame` otherwise), the link frame combo from the
link frame set. -/
theorem C17_setCoordinateMode (v : Impl K) (w : World K) (mode : Int) (doUpdateDisplay : Bool)
    (kit : LinkKinematicsKit K) (hk : v.kinematicsKit = some kit) :
    (mode = WorldCoordinateMode →
      (v.setCoordinateMode w mode doUpdateDisplay).kinematicsKit =
        some (kit.setCurrentBaseFrameType FrameType.WorldFrame)) ∧
    (mode = BodyCoordinateMode →
      (v.setCoordinateMode w mode doUpdateDisplay).kinematicsKit =
        some (kit.setCurrentBaseFrameType FrameType.BodyFrame)) ∧
    (mode = LocalCoordinateMode →
      (v.setCoordinateMode w mode doUpdateDisplay).kinematicsKit = some kit) ∧
    (v.setCoordinateMode w mode doUpdateDisplay).coordinateMode = mode ∧
    (mode = v.coordinateMode →
      (v.setCoordinateMode w mode doUpdateDisplay).frameCombo = v.frameCombo) ∧
    (mode ≠ v.coordinateMode →
      (v.setCoordinateMode w mode doUpdateDisplay).frameCombo FrameComboType.BaseFrameCombo =
        updateCoordinateFrameComboItems (v.frameCombo FrameComboType.BaseFrameCombo)
          (kit.frameSet
            (if mode = WorldCoordinateMode then FrameType.WorldFrame else FrameType.BodyFrame))
          (kit.currentFrameId
            (if mode = WorldCoordinateMode then FrameType.WorldFrame else FrameType.BodyFrame))
          (v.defaultCoordName
            (if mode = WorldCoordinateMode then FrameType.WorldFrame else FrameType.BodyFrame)) ∧
      (v.setCoordinateMode w mode doUpdateDisplay).frameCombo FrameComboType.LinkFrameCombo =
        updateCoordinateFrameComboItems (v.frameCombo FrameComboType.LinkFrameCombo)
          (kit.frameSet FrameType.LinkFrame) (kit.currentFrameId FrameType.LinkFrame)
          (v.defaultCoordName FrameType.LinkFrame)) := by
  obtain ⟨e1, e2, -⟩ := setCoordinateMode_eq v w mode doUpdateDisplay
  obtain ⟨f1, f2⟩ := setCoordinateMode_frameCombo v w mode doUpdateDisplay
  refine ⟨?_, ?_, ?_, e2, f1, ?_⟩
  · intro h
    rw [e1, if_pos h, hk]; rfl
  · intro h
    have h1 : mode ≠ WorldCoordinateMode := by rw [h]; decide
    rw [e1, if_neg h1, if_pos h, hk]; rfl
  · intro h
    have h1 : mode ≠ WorldCoordinateMode := by rw [h]; decide
    have h2 : mode ≠ BodyCoordinateMode := by rw [h]; decide
    rw [e1, if_neg h1, if_neg h2, hk]
  · intro hm
    obtain ⟨r1, -, -, r4, r5⟩ := checkCoordinateModeRadio_eq v mode
    have hkit : ∃ kit1, (v.checkCoordinateModeRadio mode).kinematicsKit = some kit1 ∧
        kit1.frameSet = kit.frameSet ∧ kit1.currentFrameId = kit.currentFrameId := by
      rw [r1, hk]
      split_ifs <;> exact ⟨_, rfl, rfl, rfl⟩
    obtain ⟨kit1, hk1, hfs, hci⟩ := hkit
    rw [f2 hm]
    obtain ⟨-, -, -, c1, c2⟩ := updateCoordinateFrameCandidatesAll_eq
      { v.checkCoordinateModeRadio mode with coordinateMode := mode }
    rw [c1, c2]
    simp only [updateCoordinateFrameCandidates, hk1, hfs, hci, r4, r5, if_true]
    constructor
    · simp
    · simp

end

/-- C17 at the example view: selecting World mode. -/
theorem C17_setCoordinateMode_witness :
    exampleView.kinematicsKit = some exampleKit ∧
    (exampleView.setCoordinateMode exampleWorld WorldCoordinateMode true).coordinateMode =
      WorldCoordinateMode ∧
    (exampleView.setCoordinateMode exampleWorld WorldCoordinateMode true).kinematicsKit =
      some (exampleKit.setCurrentBaseFrameType FrameType.WorldFrame) :=
  ⟨rfl,
    (C17_setCoordinateMode exampleView exampleWorld WorldCoordinateMode true exampleKit
      rfl).2.2.2.1,
    (C17_setCoordinateMode exampleView exampleWorld WorldCoordinateMode true exampleKit
      rfl).1 rfl⟩

end Impl
end Cnoid

namespace Cnoid
namespace Impl

section
variable {K : Type} [LinearOrderedCommRing K]

/-- Binding a link that has a kit: the kit is bound with `WorldFrame` as base
frame type when the view is in World mode and `BodyFrame` otherwise; the
modes are untouched. -/
theorem bindTargetLink_kit (v : Impl K)
    (getCurrentLinkKinematicsKit : Link K → Option (LinkKinematicsKit K))
    (link : Link K) (kit : LinkKinematicsKit K) (item : BodyItem)
    (hitem : v.targetBodyItem = some item)
    (hkit : getCurrentLinkKinematicsKit link = some kit) :
    ∃ v1, v.bindTargetLink getCurrentLinkKinematicsKit (some link) =
        some (v1, kit.frameSetSuite) ∧
      v1.kinematicsKit = some (kit.setCurrentBaseFrameType
        (if v.coordinateMode = WorldCoordinateMode then FrameType.WorldFrame
          else FrameType.BodyFrame)) ∧
      v1.coordinateMode = v.coordinateMode ∧
      v1.preferredCoordinateMode = v.preferredCoordinateMode := by
  simp only [bindTargetLink, hitem, hkit]
  cases hf : v.functionToGetDefaultFrameNames <;>
    by_cases h1 : (v.defaultCoordName FrameType.WorldFrame).isEmpty = true <;>
    by_cases h2 : (v.defaultCoordName FrameType.BodyFrame).isEmpty = true <;>
    by_cases hm : v.coordinateMode = WorldCoordinateMode <;>
    simp [h1, h2, hm]

end
end Impl
end Cnoid

namespace Cnoid

namespace JointSpaceConfigurationDialog

section
variable {K : Type} [LinearOrderedCommRing K]

/-- `updateConfigurationTypes` returns when the body of the kit is present. -/
theorem updateConfigurationTypes_returns (d : JointSpaceConfigurationDialog K)
    (kinematicsKit : Option (LinkKinematicsKit K)) (w : World K)
    (hbody : ∀ kit, kinematicsKit = some kit → kit.body ≠ none) :
    ∃ r, d.updateConfigurationTypes kinematicsKit w = some r := by
  cases kinematicsKit with
  | none => exact ⟨_, rfl⟩
  | some kit =>
    cases hj : kit.jointPath with
    | none =>
      simp only [updateConfigurationTypes, hj]
      exact ⟨_, rfl⟩
    | some jointPath =>
      cases hc : kit.configurationHandler with
      | none =>
        simp only [updateConfigurationTypes, hj, hc]
        exact ⟨_, rfl⟩
      | some c =>
        cases hb : kit.body with
        | none => exact absurd hb (hbody kit rfl)
        | some body =>
          obtain ⟨d1, w1, he, -⟩ := updateConfigurationTypes_bound d kit w jointPath c body hj hc hb
          exact ⟨_, he⟩

end

end JointSpaceConfigurationDialog

namespace Impl

section
variable {K : Type} [LinearOrderedCommRing K]

omit [LinearOrderedCommRing K] in
/-- Enabling or disabling the frame interface touches neither kit nor modes. -/
theorem setCoordinateFrameInterfaceEnabled_keeps (v : Impl K) (enabled : Bool) :
    (v.setCoordinateFrameInterfaceEnabled enabled).kinematicsKit = v.kinematicsKit ∧
    (v.setCoordinateFrameInterfaceEnabled enabled).coordinateMode = v.coordinateMode ∧
    (v.setCoordinateFrameInterfaceEnabled enabled).preferredCoordinateMode =
      v.preferredCoordinateMode := by
  unfold setCoordinateFrameInterfaceEnabled
  split <;> exact ⟨rfl, rfl, rfl⟩

/-- `initializeConfigurationInterface` returns when the body of the kit is
present, and leaves the kit as it is. -/
theorem initializeConfigurationInterface_kit (v : Impl K)
    (configurationDialog : Option (JointSpaceConfigurationDialog K)) (w : World K)
    (hbody : ∀ kit, v.kinematicsKit = some kit → kit.body ≠ none) :
    ∃ v1 d1 w1, v.initializeConfigurationInterface configurationDialog w = some (v1, d1, w1) ∧
      v1.kinematicsKit = v.kinematicsKit := by
  have hk : ∀ b : Bool, (({ v with currentConfigurationTypes := [] } :
      Impl K).setConfigurationInterfaceEnabled b).kinematicsKit = v.kinematicsKit := by
    intro b
    unfold setConfigurationInterfaceEnabled
    split <;> rfl
  unfold initializeConfigurationInterface
  dsimp only
  cases configurationDialog with
  | none => exact ⟨_, _, _, rfl, hk _⟩
  | some d =>
    dsimp only
    split
    · rw [hk]
      obtain ⟨⟨r, d1, w1⟩, hr⟩ :=
        JointSpaceConfigurationDialog.updateConfigurationTypes_returns d v.kinematicsKit w hbody
      rw [hr]
      exact ⟨_, _, _, rfl, hk _⟩
    · exact ⟨_, _, _, rfl, hk _⟩

/-- The rest of `updateTargetLink` on a view whose kit is bound: the call
returns, and the kit's base frame type is `WorldFrame` when the preferred mode
is World, or when it is Body and Body mode is not available; it is `BodyFrame`
when the preferred mode is Body and Body mode is available; otherwise it stays
as bound. -/
theorem completeTargetLink_kit (v : Impl K)
    (configurationDialog : Option (JointSpaceConfigurationDialog K)) (w : World K)
    (link : Link K) (has : Bool) (kit : LinkKinematicsKit K)
    (hk : v.kinematicsKit = some kit) (hbody : kit.body ≠ none) :
    ∃ v1 d1 w1 kit1,
      v.completeTargetLink configurationDialog w (some link) has = some (v1, d1, w1) ∧
      v1.kinematicsKit = some kit1 ∧
      kit1.currentBaseFrameType =
        (if v.preferredCoordinateMode = WorldCoordinateMode then FrameType.WorldFrame
          else if v.preferredCoordinateMode = BodyCoordinateMode then
            (if bodyCoordinateModeAvailable (some kit) (some link) has = false then
              FrameType.WorldFrame else FrameType.BodyFrame)
          else kit.currentBaseFrameType) := by
  unfold completeTargetLink
  dsimp only
  obtain ⟨a1, -, a3⟩ := setCoordinateFrameInterfaceEnabled_keeps v has
  generalize v.setCoordinateFrameInterfaceEnabled has = v2 at a1 a3 ⊢
  obtain ⟨c1, -, c3, -, -⟩ := updateCoordinateFrameCandidatesAll_eq
    ({ v2 with resultLabel := "" } : Impl K)
  generalize updateCoordinateFrameCandidatesAll ({ v2 with resultLabel := "" } : Impl K) = v4
    at c1 c3 ⊢
  have hk4 : v4.kinematicsKit = some kit := c1.trans (a1.trans hk)
  have hp4 : v4.preferredCoordinateMode = v.preferredCoordinateMode := c3.trans a3
  obtain ⟨e1, e2, -⟩ := setCoordinateMode_eq v4 w v4.preferredCoordinateMode false
  generalize v4.setCoordinateMode w v4.preferredCoordinateMode false = v5 at e1 e2 ⊢
  rw [hp4] at e1 e2
  rw [hk4] at e1
  obtain ⟨kit5, hk5, hbl5, hbody5, htype5⟩ : ∃ kit5, v5.kinematicsKit = some kit5 ∧
      kit5.baseLink = kit.baseLink ∧ kit5.body = kit.body ∧
      kit5.currentBaseFrameType =
        (if v.preferredCoordinateMode = WorldCoordinateMode then FrameType.WorldFrame
          else if v.preferredCoordinateMode = BodyCoordinateMode then FrameType.BodyFrame
          else kit.currentBaseFrameType) := by
    rw [e1]
    split_ifs <;> exact ⟨_, rfl, rfl, rfl, rfl⟩
  have hav : bodyCoordinateModeAvailable v5.kinematicsKit (some link) has =
      bodyCoordinateModeAvailable (some kit) (some link) has := by
    simp only [bodyCoordinateModeAvailable, hk5, hbl5]
  rw [hav]
  obtain ⟨kit6, hk6, hbody6, htype6⟩ : ∃ kit6,
      (v5.setBodyCoordinateModeEnabled w
        (bodyCoordinateModeAvailable (some kit) (some link) has)).kinematicsKit =
          some kit6 ∧ kit6.body = kit.body ∧
      kit6.currentBaseFrameType =
        (if v.preferredCoordinateMode = WorldCoordinateMode then FrameType.WorldFrame
          else if v.preferredCoordinateMode = BodyCoordinateMode then
            (if bodyCoordinateModeAvailable (some kit) (some link) has = false then
              FrameType.WorldFrame else FrameType.BodyFrame)
          else kit.currentBaseFrameType) := by
    unfold setBodyCoordinateModeEnabled
    cases hav2 : bodyCoordinateModeAvailable (some kit) (some link) has with
    | true =>
      simp only [Bool.not_true, Bool.false_and, Bool.false_eq_true, if_false]
      refine ⟨kit5, hk5, hbody5, ?_⟩
      rw [htype5]
      simp
    | false =>
      by_cases hb : v.preferredCoordinateMode = BodyCoordinateMode
      · simp only [Bool.not_false, Bool.true_and, e2, hb, decide_True, if_true]
        obtain ⟨g1, -, -⟩ := setCoordinateMode_eq v5 w WorldCoordinateMode false
        rw [g1, if_pos rfl, hk5]
        refine ⟨_, rfl, hbody5, ?_⟩
        have hbw : BodyCoordinateMode ≠ WorldCoordinateMode := by decide
        simp [LinkKinematicsKit.setCurrentBaseFrameType, hbw]
      · simp only [Bool.not_false, Bool.true_and, e2, hb, decide_False,
          Bool.false_eq_true, if_false]
        exact ⟨kit5, hk5, hbody5, by rw [htype5]; simp [hb]⟩
  obtain ⟨v1, d1, w1, hinit, hk1⟩ := initializeConfigurationInterface_kit
    (v5.setBodyCoordinateModeEnabled w
      (bodyCoordinateModeAvailable (some kit) (some link) has))
    configurationDialog w
    (by
      intro k hk
      rw [hk6] at hk
      cases hk
      rw [hbody6]
      exact hbody)
  exact ⟨v1, d1, w1, kit6, hinit, hk1.trans hk6, htype6⟩

/-- C18, as amended: when the view is in Local mode and `updateTargetLink` binds
a link that has a kinematics kit, the call returns and the kit's current base
frame type is forced, whatever it was before: it is `WorldFrame` when the
preferred coordinate mode is World, or when it is Body and Body mode is not
available (no base link, the link is the base link, or no frame set suite),
and `BodyFrame` in every other case. -/
theorem C18_local_mode_forces_frame_type (v : Impl K)
    (configurationDialog : Option (JointSpaceConfigurationDialog K)) (w : World K)
    (getCurrentLinkKinematicsKit : Link K → Option (LinkKinematicsKit K))
    (link : Link K) (kit : LinkKinematicsKit K) (item : BodyItem)
    (hmode : v.coordinateMode = LocalCoordinateMode)
    (htype : v.targetType = TargetType.LinkTarget)
    (hitem : v.targetBodyItem = some item)
    (hkit : getCurrentLinkKinematicsKit link = some kit)
    (hbody : kit.body ≠ none) :
    ∃ v1 d1 w1 kit1,
      v.updateTargetLink configurationDialog w getCurrentLinkKinematicsKit (some link) =
        some (v1, d1, w1) ∧
      v1.kinematicsKit = some kit1 ∧
      kit1.currentBaseFrameType =
        (if v.preferredCoordinateMode = WorldCoordinateMode then FrameType.WorldFrame
          else if v.preferredCoordinateMode = BodyCoordinateMode ∧
              bodyCoordinateModeAvailable (some kit) (some link) kit.frameSetSuite = false
            then FrameType.WorldFrame
          else FrameType.BodyFrame) := by
  obtain ⟨vb, hbind, bk, -, bp⟩ := bindTargetLink_kit
    { v with targetLink := some link, kinematicsKit := none } getCurrentLinkKinematicsKit
    link kit item hitem hkit
  have hlw : LocalCoordinateMode ≠ WorldCoordinateMode := by decide
  simp only [hmode, hlw, if_false] at bk
  obtain ⟨v1, d1, w1, kit1, h1, h2, h3⟩ := completeTargetLink_kit vb configurationDialog w link
    kit.frameSetSuite (kit.setCurrentBaseFrameType FrameType.BodyFrame) bk hbody
  refine ⟨v1, d1, w1, kit1, ?_, h2, ?_⟩
  · unfold updateTargetLink
    rw [if_neg (not_not.mpr htype)]
    dsimp only
    rw [hbind]
    exact h1
  · rw [h3, bp]
    have hav : bodyCoordinateModeAvailable
        (some (kit.setCurrentBaseFrameType FrameType.BodyFrame)) (some link) kit.frameSetSuite =
        bodyCoordinateModeAvailable (some kit) (some link) kit.frameSetSuite := rfl
    rw [hav]
    by_cases hw : v.preferredCoordinateMode = WorldCoordinateMode
    · simp [hw]
    · by_cases hb : v.preferredCoordinateMode = BodyCoordinateMode
      · cases bodyCoordinateModeAvailable (some kit) (some link) kit.frameSetSuite <;>
          simp [hw, hb]
      · simp [hw, hb, LinkKinematicsKit.setCurrentBaseFrameType]

end

/-- C18 as stated fails: the view is in Local mode (Local preferred), the
kit of the link has `WorldFrame` as current base frame type, and after
`updateTargetLink` has bound the link the kit's type is `BodyFrame`. -/
theorem C18_local_mode_switches_frame_type :
    exampleLocalView.coordinateMode = LocalCoordinateMode ∧
    exampleWorldFrameKit.currentBaseFrameType = FrameType.WorldFrame ∧
    (exampleLocalView.updateTargetLink none exampleWorld (fun _ => some exampleWorldFrameKit)
        (some exampleTargetLink)).bind
      (fun r => r.1.kinematicsKit.map (fun kit => kit.currentBaseFrameType)) =
        some FrameType.BodyFrame ∧
    FrameType.BodyFrame ≠ exampleWorldFrameKit.currentBaseFrameType := by
  refine ⟨rfl, rfl, ?_, by decide⟩
  decide

/-- C18, as amended, at the example view in Local mode. -/
theorem C18_local_mode_forces_frame_type_witness :
    exampleLocalView.coordinateMode = LocalCoordinateMode ∧
    exampleLocalView.targetType = TargetType.LinkTarget ∧
    exampleLocalView.targetBodyItem = some { body := { name := "robot" } } ∧
    exampleWorldFrameKit.body ≠ none ∧
    ∃ v1 d1 w1 kit1,
      exampleLocalView.updateTargetLink none exampleWorld (fun _ => some exampleWorldFrameKit)
        (some exampleTargetLink) = some (v1, d1, w1) ∧
      v1.kinematicsKit = some kit1 :=
  ⟨rfl, rfl, rfl, by decide,
    (C18_local_mode_forces_frame_type exampleLocalView none exampleWorld
      (fun _ => some exampleWorldFrameKit) exampleTargetLink exampleWorldFrameKit
      { body := { name := "robot" } } rfl rfl rfl rfl (by decide)).imp
      fun _ h => h.imp fun _ h => h.imp fun _ h => h.imp fun _ h => ⟨h.1, h.2.1⟩⟩

end Impl
end Cnoid

namespace Cnoid
namespace CoordinateFrame

/-- C20 at the frames 5 and "custom": taking the id 5 of a sibling is rejected
and leaves the frame as it is; a frame with no owner gets the id. -/
theorem C20_resetId_witness :
    (exampleIdentityFrame.resetId (some exampleFrames.getFindableFrameLists)
      (GeneralId.int 5)).1 = false ∧
    (exampleIdentityFrame.resetId (some exampleFrames.getFindableFrameLists)
      (GeneralId.int 5)).2 = exampleIdentityFrame ∧
    (exampleIdentityFrame.resetId none (GeneralId.int 5)).1 = true :=
  ⟨(C20_resetId exampleIdentityFrame (some exampleFrames.getFindableFrameLists)
      (GeneralId.int 5)).1.mpr
      ⟨_, rfl, _, List.mem_cons_self _ _, rfl⟩,
    (C20_resetId exampleIdentityFrame (some exampleFrames.getFindableFrameLists)
      (GeneralId.int 5)).2.1 (by decide),
    (C20_resetId exampleIdentityFrame none (GeneralId.int 5)).2.2.2.1 rfl⟩

end CoordinateFrame
end Cnoid

namespace Cnoid

namespace Position

section
variable {K : Type} [CommRing K]

omit [CommRing K] in
/-- Two transforms with the same linear part and translation are equal. -/
theorem eq_of_parts (A B : Position K) (h1 : A.linear = B.linear)
    (h2 : A.translation = B.translation) : A = B := by
  cases A; cases B; simp_all

/-- The linear part and the translation of a product. -/
theorem mul_parts (A B : Position K) :
    (A * B).linear = A.linear * B.linear ∧
    (A * B).translation = A.linear.mulVec B.translation + A.translation :=
  ⟨rfl, rfl⟩

/-- The transform product is associative. -/
theorem mul_assoc_pos (A B C : Position K) : A * B * C = A * (B * C) := by
  apply eq_of_parts
  · simp only [mul_parts, Matrix.mul_assoc]
  · simp only [mul_parts, Matrix.mulVec_add, Matrix.mulVec_mulVec, add_assoc]

/-- `inverse(Eigen::Isometry)` is a left inverse when `Rᵀ R = 1`. -/
theorem inverseIsometry_mul_cancel (A B : Position K)
    (h : A.linear.transpose * A.linear = 1) : A.inverseIsometry * (A * B) = B := by
  apply eq_of_parts
  · simp only [mul_parts, inverseIsometry, ← Matrix.mul_assoc, h, Matrix.one_mul]
  · simp only [mul_parts, inverseIsometry, Matrix.mulVec_add, Matrix.mulVec_mulVec, h,
      Matrix.one_mulVec]
    abel

/-- `inverse(Eigen::Isometry)` is a left inverse from the other side when
`R Rᵀ = 1`. -/
theorem mul_inverseIsometry_cancel (A B : Position K)
    (h : A.linear * A.linear.transpose = 1) : A * (A.inverseIsometry * B) = B := by
  apply eq_of_parts
  · simp only [mul_parts, inverseIsometry, ← Matrix.mul_assoc, h, Matrix.one_mul]
  · simp only [mul_parts, inverseIsometry, Matrix.mulVec_add, Matrix.mulVec_mulVec, h,
      Matrix.one_mulVec, Matrix.mulVec_neg]
    abel

/-- `inverse(Eigen::Isometry)` is a right inverse when `R Rᵀ = 1`. -/
theorem mul_mul_inverseIsometry_cancel (B A : Position K)
    (h : A.linear * A.linear.transpose = 1) : B * A * A.inverseIsometry = B := by
  apply eq_of_parts
  · simp only [mul_parts, inverseIsometry, Matrix.mul_assoc, h, Matrix.mul_one]
  · simp only [mul_parts, inverseIsometry, Matrix.mulVec_neg, Matrix.mulVec_mulVec,
      Matrix.mul_assoc, h, Matrix.mul_one]
    abel

/-- `inverse(Eigen::Isometry)` is a right inverse from the other side when
`Rᵀ R = 1`. -/
theorem mul_inverseIsometry_mul_cancel (B A : Position K)
    (h : A.linear.transpose * A.linear = 1) : B * A.inverseIsometry * A = B := by
  apply eq_of_parts
  · simp only [mul_parts, inverseIsometry, Matrix.mul_assoc, h, Matrix.mul_one]
  · simp only [mul_parts, inverseIsometry, Matrix.mulVec_neg, Matrix.mulVec_mulVec,
      Matrix.mul_assoc, h, Matrix.mul_one]
    abel

end

end Position

namespace Impl

section
variable {K : Type} [CommRing K]

/-- C21: let the view have a kit with a solver, a body item and a target link,
let no body compensation apply (the mode is not Body, or the kit has no base
link), and let the base frame and the link frame be isometries. (a) If the
attitude normalization is the identity on the rotation of the link's attitude
pose `Ta`, the pose shown for the link, submitted as input, makes
`findBodyIkSolution` hand `Ta` to the solver. (b) For every operator input
`X` on whose solver pose `baseFrame.T * X * inverse(linkFrame.T)` the
normalization is the identity, the solver receives that pose, and for a link
whose attitude pose equals it the pose shown is `X`. -/
theorem C21_mutual_inverses (v : Impl K) (w : World K) (kit : LinkKinematicsKit K)
    (ik : InverseKinematics K) (item : BodyItem) (targetLink : Link K)
    (hk : v.kinematicsKit = some kit) (hik : kit.inverseKinematics = some ik)
    (hb : v.targetBodyItem = some item) (hl : v.targetLink = some targetLink)
    (hcomp : v.coordinateMode ≠ BodyCoordinateMode ∨ kit.baseLink = none)
    (hF : v.baseFrame.T.IsIsometry) (hL : v.linkFrame.T.IsIsometry) :
    (targetLink.calcRfromAttitude (targetLink.Ta w.kin).linear = (targetLink.Ta w.kin).linear →
      ∃ Td, (v.updateDisplayWithCurrentLinkPosition w).positionWidget = some Td ∧
        ∃ solved v1 w1, v.findBodyIkSolution w Td false = some (solved, v1, w1) ∧
          w1.ikCalls = w.ikCalls ++ [(w.preferred, targetLink.Ta w.kin)]) ∧
    (∀ X : Position K,
      targetLink.calcRfromAttitude
          (v.baseFrame.T * X * v.linkFrame.T.inverseIsometry).linear =
        (v.baseFrame.T * X * v.linkFrame.T.inverseIsometry).linear →
      (∃ solved v1 w1, v.findBodyIkSolution w X false = some (solved, v1, w1) ∧
          w1.ikCalls = w.ikCalls ++
            [(w.preferred, v.baseFrame.T * X * v.linkFrame.T.inverseIsometry)]) ∧
      ∀ w2 : World K,
        targetLink.Ta w2.kin = v.baseFrame.T * X * v.linkFrame.T.inverseIsometry →
        (v.updateDisplayWithCurrentLinkPosition w2).positionWidget = some X) := by
  -- without body compensation both directions are the bare frame formulas
  have hdisp : ∀ w0 : World K, (v.updateDisplayWithCurrentLinkPosition w0).positionWidget =
      some (v.baseFrame.T.inverseIsometry * targetLink.Ta w0.kin * v.linkFrame.T) := by
    intro w0
    simp only [updateDisplayWithCurrentLinkPosition, hl, hk,
      updateConfigurationDisplay_positionWidget]
    rcases hcomp with h | h
    · cases kit.baseLink <;> simp [h]
    · simp [h]
  have htarget : ∀ (w0 : World K) (X : Position K),
      targetLink.calcRfromAttitude
          (v.baseFrame.T * X * v.linkFrame.T.inverseIsometry).linear =
        (v.baseFrame.T * X * v.linkFrame.T.inverseIsometry).linear →
      v.solverTarget kit w0 X false =
        some (v.baseFrame.T * X * v.linkFrame.T.inverseIsometry) := by
    intro w0 X hn
    simp only [solverTarget, hl, Bool.false_eq_true, if_false]
    have hT : (match kit.baseLink with
        | none => v.baseFrame.T * X * v.linkFrame.T.inverseIsometry
        | some baseLink =>
          if v.coordinateMode = BodyCoordinateMode then
            baseLink.Ta w0.kin * (v.baseFrame.T * X * v.linkFrame.T.inverseIsometry)
          else v.baseFrame.T * X * v.linkFrame.T.inverseIsometry) =
        v.baseFrame.T * X * v.linkFrame.T.inverseIsometry := by
      rcases hcomp with h | h
      · cases kit.baseLink <;> simp [h]
      · simp [h]
    rw [hT, Position.setLinear, hn]
  have hsolve : ∀ X : Position K,
      targetLink.calcRfromAttitude
          (v.baseFrame.T * X * v.linkFrame.T.inverseIsometry).linear =
        (v.baseFrame.T * X * v.linkFrame.T.inverseIsometry).linear →
      ∃ solved v1 w1, v.findBodyIkSolution w X false = some (solved, v1, w1) ∧
          w1.ikCalls = w.ikCalls ++
            [(w.preferred, v.baseFrame.T * X * v.linkFrame.T.inverseIsometry)] := by
    intro X hn
    obtain ⟨v1, w1, h1, h2, -⟩ := findBodyIkSolution_of_target v w X _ false kit ik item
      hk hik hb (htarget _ X hn)
    exact ⟨_, v1, w1, h1, h2⟩
  constructor
  · intro hn
    have hround : v.baseFrame.T *
        (v.baseFrame.T.inverseIsometry * targetLink.Ta w.kin * v.linkFrame.T) *
        v.linkFrame.T.inverseIsometry = targetLink.Ta w.kin := by
      rw [Position.mul_assoc_pos v.baseFrame.T.inverseIsometry,
        Position.mul_inverseIsometry_cancel _ _ hF.2,
        Position.mul_mul_inverseIsometry_cancel _ _ hL.2]
    refine ⟨_, hdisp w, ?_⟩
    have := hsolve (v.baseFrame.T.inverseIsometry * targetLink.Ta w.kin * v.linkFrame.T)
      (by rw [hround]; exact hn)
    rw [hround] at this
    exact this
  · intro X hn
    refine ⟨hsolve X hn, ?_⟩
    intro w2 hTa
    rw [hdisp w2, hTa, Position.mul_assoc_pos v.baseFrame.T,
      Position.inverseIsometry_mul_cancel _ _ hF.1,
      Position.mul_inverseIsometry_mul_cancel _ _ hL.1]

end

/-- C21 at the example view in World mode: the pose shown for the target link,
submitted as input, makes the solver receive the link's attitude pose. -/
theorem C21_mutual_inverses_witness :
    exampleWorldView.kinematicsKit = some exampleKit ∧
    exampleKit.inverseKinematics = some exampleIk ∧
    exampleWorldView.targetBodyItem = some { body := { name := "robot" } } ∧
    exampleWorldView.targetLink = some exampleTargetLink ∧
    exampleWorldView.coordinateMode ≠ BodyCoordinateMode ∧
    exampleWorldView.baseFrame.T.IsIsometry ∧ exampleWorldView.linkFrame.T.IsIsometry ∧
    ∃ Td, (exampleWorldView.updateDisplayWithCurrentLinkPosition exampleWorld).positionWidget =
        some Td ∧
      ∃ solved v1 w1, exampleWorldView.findBodyIkSolution exampleWorld Td false =
          some (solved, v1, w1) ∧
        w1.ikCalls = exampleWorld.ikCalls ++
          [(exampleWorld.preferred, exampleTargetLink.Ta exampleWorld.kin)] :=
  ⟨rfl, rfl, rfl, rfl, by decide, by unfold Position.IsIsometry; decide,
    by unfold Position.IsIsometry; decide,
    (C21_mutual_inverses exampleWorldView exampleWorld exampleKit exampleIk
      { body := { name := "robot" } } exampleTargetLink rfl rfl rfl rfl (Or.inl (by decide))
      (by unfold Position.IsIsometry; decide) (by unfold Position.IsIsometry; decide)).1 rfl⟩

end Impl

namespace JointSpaceConfigurationDialog

/-- C22, evaluated on the code: for a kit with a body but no joint path,
`updateConfigurationTypes` returns false and leaves the dialog with the body
bound and no joint path; `onCanceled`, which restores whenever the body is
bound, then dereferences the absent joint path. -/
theorem C22_body_bound_without_joint_path :
    exampleKit.body = some { name := "robot" } ∧ exampleKit.jointPath = none ∧
    ∃ d1 w1,
      exampleEmptyDialog.updateConfigurationTypes (some exampleKit) exampleWorld =
        some (false, d1, w1) ∧
      d1.body = some { name := "robot" } ∧ d1.jointPath = none ∧ d1.configuration = none ∧
      d1.onCanceled exampleView w1 = none :=
  ⟨rfl, rfl, _, _, rfl, rfl, rfl, rfl, rfl⟩

end JointSpaceConfigurationDialog

end Cnoid

namespace Cnoid
namespace Impl

section
variable {K : Type} [LinearOrderedCommRing K]

/-- C25: with a kinematics kit bound, `onFrameUpdate` returns and leaves the
kit's current base frame type as it was; afterwards the coordinate mode is
World if that type is `WorldFrame` and Body if it is `BodyFrame`; if the call
changed the coordinate mode, the preferred coordinate mode is the new mode,
and otherwise the preferred coordinate mode is unchanged. -/
theorem C25_onFrameUpdate_sync (v : Impl K) (w : World K) (kit : LinkKinematicsKit K)
    (hk : v.kinematicsKit = some kit) :
    ∃ v1 kit1, v.onFrameUpdate w = some v1 ∧ v1.kinematicsKit = some kit1 ∧
      kit1.currentBaseFrameType = kit.currentBaseFrameType ∧
      (kit1.currentBaseFrameType = FrameType.WorldFrame →
        v1.coordinateMode = WorldCoordinateMode) ∧
      (kit1.currentBaseFrameType = FrameType.BodyFrame →
        v1.coordinateMode = BodyCoordinateMode) ∧
      (v1.coordinateMode ≠ v.coordinateMode →
        v1.preferredCoordinateMode = v1.coordinateMode) ∧
      (v1.coordinateMode = v.coordinateMode →
        v1.preferredCoordinateMode = v.preferredCoordinateMode) := by
  -- the view after the mode block
  obtain ⟨v2, kit2, hv2, hk2, ht2, hw2, hb2, hc2, hu2⟩ : ∃ (v2 : Impl K) (kit2 : LinkKinematicsKit K),
      v2 = (if kit.currentBaseFrameType = FrameType.WorldFrame ∧
            v.coordinateMode ≠ WorldCoordinateMode then
          { v.setCoordinateMode w WorldCoordinateMode false with
            preferredCoordinateMode := WorldCoordinateMode }
        else if kit.currentBaseFrameType = FrameType.BodyFrame ∧
            v.coordinateMode ≠ BodyCoordinateMode then
          { v.setCoordinateMode w BodyCoordinateMode false with
            preferredCoordinateMode := BodyCoordinateMode }
        else v.updateCoordinateFrameCandidatesAll) ∧
      v2.kinematicsKit = some kit2 ∧
      kit2.currentBaseFrameType = kit.currentBaseFrameType ∧
      (kit2.currentBaseFrameType = FrameType.WorldFrame →
        v2.coordinateMode = WorldCoordinateMode) ∧
      (kit2.currentBaseFrameType = FrameType.BodyFrame →
        v2.coordinateMode = BodyCoordinateMode) ∧
      (v2.coordinateMode ≠ v.coordinateMode →
        v2.preferredCoordinateMode = v2.coordinateMode) ∧
      (v2.coordinateMode = v.coordinateMode →
        v2.preferredCoordinateMode = v.preferredCoordinateMode) := by
    by_cases h1 : kit.currentBaseFrameType = FrameType.WorldFrame ∧
        v.coordinateMode ≠ WorldCoordinateMode
    · obtain ⟨e1, e2, -⟩ := setCoordinateMode_eq v w WorldCoordinateMode false
      rw [if_pos rfl, hk] at e1
      refine ⟨_, kit.setCurrentBaseFrameType FrameType.WorldFrame, (if_pos h1).symm, e1,
        h1.1.symm, fun _ => e2, ?_, fun _ => e2.symm, ?_⟩
      · intro hb
        exact absurd (show FrameType.WorldFrame = FrameType.BodyFrame from hb) (by decide)
      · intro hc
        exact absurd (hc.symm.trans e2) h1.2
    · by_cases h2 : kit.currentBaseFrameType = FrameType.BodyFrame ∧
          v.coordinateMode ≠ BodyCoordinateMode
      · obtain ⟨e1, e2, -⟩ := setCoordinateMode_eq v w BodyCoordinateMode false
        have hbw : BodyCoordinateMode ≠ WorldCoordinateMode := by decide
        rw [if_neg hbw, if_pos rfl, hk] at e1
        refine ⟨_, kit.setCurrentBaseFrameType FrameType.BodyFrame,
          ((if_neg h1).trans (if_pos h2)).symm, e1, h2.1.symm, ?_, fun _ => e2,
          fun _ => e2.symm, ?_⟩
        · intro hw
          exact absurd (show FrameType.BodyFrame = FrameType.WorldFrame from hw) (by decide)
        · intro hc
          exact absurd (hc.symm.trans e2) h2.2
      · obtain ⟨c1, c2, c3, -, -⟩ := updateCoordinateFrameCandidatesAll_eq v
        refine ⟨_, kit, ((if_neg h1).trans (if_neg h2)).symm, c1.trans hk, rfl, ?_, ?_,
          fun hc => absurd c2 hc, fun _ => c3⟩
        · intro hw
          rw [c2]
          by_contra hne
          exact h1 ⟨hw, hne⟩
        · intro hb
          rw [c2]
          by_contra hne
          exact h2 ⟨hb, hne⟩
  unfold onFrameUpdate
  simp only [hk]
  rw [← hv2]
  simp only [hk2]
  refine ⟨_, kit2, rfl, ?_, ht2, ?_, ?_, ?_, ?_⟩
  · rw [(updateDisplay_keeps _ w).1]
  · intro h
    rw [(updateDisplay_keeps _ w).2.1]
    exact hw2 h
  · intro h
    rw [(updateDisplay_keeps _ w).2.1]
    exact hb2 h
  · intro h
    rw [(updateDisplay_keeps _ w).2.1] at h ⊢
    rw [(updateDisplay_keeps _ w).2.2.1]
    exact hc2 h
  · intro h
    rw [(updateDisplay_keeps _ w).2.1] at h
    rw [(updateDisplay_keeps _ w).2.2.1]
    exact hu2 h

end

/-- C25 at the example view, which is in Body mode on a kit whose base frame
type is `BodyFrame`. -/
theorem C25_onFrameUpdate_sync_witness :
    exampleView.kinematicsKit = some exampleKit ∧
    ∃ v1 kit1, exampleView.onFrameUpdate exampleWorld = some v1 ∧
      v1.kinematicsKit = some kit1 ∧
      kit1.currentBaseFrameType = exampleKit.currentBaseFrameType :=
  ⟨rfl, (C25_onFrameUpdate_sync exampleView exampleWorld exampleKit rfl).imp
    fun _ h => h.imp fun _ h => ⟨h.1, h.2.1, h.2.2.1⟩⟩

end Impl
end Cnoid

namespace Cnoid
namespace Impl

/-- C23, evaluated on the code: a view accepting any link is asked for the root
link of a gripper attached to the robot; no IK link is required, yet the link
is not kept: the resolved target is the robot's link 2 on the robot's body
item, and `setTargetBodyAndLink` binds that one. -/
theorem C23_attached_sub_body_redirected :
    exampleAnyLinkView.targetLinkTypeSelection = TargetLinkType.AnyLink ∧
    exampleGripperRoot.index = 0 ∧
    exampleAnyLinkView.resolveTargetLink exampleAccess exampleSubBodyItem exampleGripperRoot =
      some ({ body := { name := "robot" } }, some exampleTargetLink) ∧
    exampleTargetLink.index = 2 ∧
    (exampleAnyLinkView.setTargetBodyAndLink none exampleWorld exampleAccess
        (some exampleSubBodyItem) (some exampleGripperRoot)).map
      (fun r => (r.1.targetBodyItem, r.1.targetLink.map fun l => l.index)) =
      some (some { body := { name := "robot" } }, some 2) := by
  refine ⟨rfl, rfl, rfl, rfl, ?_⟩
  decide

section
variable {K : Type} [LinearOrderedCommRing K]

/-- C23, amended: let `(item1, l)` be the body item and link after the
redirection of an attached sub body to its parent body (the requested ones
when the body item is not attached or has no parent body item). An IK link is
required iff the target-link type is `IkLink`, or it is `RootOrIkLink` and `l`
is not the body root. When it is not required or `l` has a preset IK, the
resolved link is `l`; otherwise it is the first link after `l` in the traverse
of `l` with a preset IK, or none without such a link. If the resolved link is
none and the requested link is not the current target link,
`setTargetBodyAndLink` leaves the view, the dialog and the world as they are. -/
theorem C23_target_link_resolution (v : Impl K) (access : BodyItemAccess K)
    (bodyItem : BodyItem) (link l : Link K) (item1 : BodyItem)
    (hr : redirectToParentBody access bodyItem link = (item1, some l)) :
    ((access.isAttachedToParentBody bodyItem = false ∨ access.parentBodyItem bodyItem = none) →
      redirectToParentBody access bodyItem link = (bodyItem, some link)) ∧
    ((¬ (v.targetLinkTypeSelection = TargetLinkType.IkLink ∨
          (v.targetLinkTypeSelection = TargetLinkType.RootOrIkLink ∧ l.isBodyRoot = false)) ∨
        access.findPresetIK item1 l = true) →
      v.resolveTargetLink access bodyItem link = some (item1, some l)) ∧
    ((v.targetLinkTypeSelection = TargetLinkType.IkLink ∨
          (v.targetLinkTypeSelection = TargetLinkType.RootOrIkLink ∧ l.isBodyRoot = false)) →
        access.findPresetIK item1 l = false →
      v.resolveTargetLink access bodyItem link =
        some (item1, ((access.linkTraverse l).drop 1).find? (access.findPresetIK item1))) ∧
    (∀ (configurationDialog : Option (JointSpaceConfigurationDialog K)) (w : World K)
        (item2 : BodyItem),
      v.resolveTargetLink access bodyItem link = some (item2, none) →
      access.sameLinkPtr (some link) v.targetLink = false →
      v.setTargetBodyAndLink configurationDialog w access (some bodyItem) (some link) =
        some (v, configurationDialog, w)) := by
  refine ⟨?_, ?_, ?_, ?_⟩
  · intro h
    unfold redirectToParentBody
    rcases h with h | h
    · simp [h]
    · simp [h]
  · intro h
    unfold resolveTargetLink
    rw [hr]
    dsimp only
    cases hs : v.targetLinkTypeSelection with
    | AnyLink => rfl
    | RootOrIkLink =>
      cases hroot : l.isBodyRoot with
      | true => simp [hroot]
      | false =>
        rcases h with h | h
        · exact absurd (Or.inr ⟨hs, hroot⟩) h
        · simp [h, hroot]
    | IkLink =>
      rcases h with h | h
      · exact absurd (Or.inl hs) h
      · simp [h]
  · intro h hp
    unfold resolveTargetLink
    rw [hr]
    dsimp only
    cases hs : v.targetLinkTypeSelection with
    | AnyLink =>
      rw [hs] at h
      simp at h
    | RootOrIkLink =>
      rw [hs] at h
      simp at h
      simp [h, hp]
    | IkLink => simp [hp]
  · intro configurationDialog w item2 hres hdiff
    unfold setTargetBodyAndLink
    simp [hres, hdiff]

end

/-- C23 (amended) at the example view, whose target-link type is
`RootOrIkLink`: link 1 of the robot is not the body root and has no preset IK,
so the resolved link is link 2, the next one in its traverse. -/
theorem C23_target_link_resolution_witness :
    redirectToParentBody exampleAccess { body := { name := "robot" } } exampleBaseLink =
      ({ body := { name := "robot" } }, some exampleBaseLink) ∧
    exampleView.targetLinkTypeSelection = TargetLinkType.RootOrIkLink ∧
    exampleBaseLink.isBodyRoot = false ∧
    exampleAccess.findPresetIK { body := { name := "robot" } } exampleBaseLink = false ∧
    (exampleView.resolveTargetLink exampleAccess { body := { name := "robot" } }
        exampleBaseLink).map (fun r => (r.1, r.2.map fun m => m.index)) =
      some ({ body := { name := "robot" } }, some 2) :=
  ⟨rfl, rfl, rfl, rfl,
    congrArg (Option.map fun r => (r.1, r.2.map fun m => m.index))
      ((C23_target_link_resolution exampleView exampleAccess { body := { name := "robot" } }
        exampleBaseLink exampleBaseLink { body := { name := "robot" } } rfl).2.2.1
        (Or.inr ⟨rfl, rfl⟩) rfl)⟩

end Impl
end Cnoid

namespace Cnoid

/-- The first-occurrence list commutes with filtering. -/
theorem firstOccurrences_filter (p : String → Bool) (M : List String) :
    firstOccurrences (M.filter p) = (firstOccurrences M).filter p := by
  induction M with
  | nil => rfl
  | cons y M ih =>
    by_cases hp : p y = true
    · rw [List.filter_cons_of_pos hp, firstOccurrences, firstOccurrences,
        List.filter_cons_of_pos hp, ih, List.filter_filter, List.filter_filter]
      congr 1
      exact List.filter_congr fun x _ => Bool.and_comm _ _
    · rw [List.filter_cons_of_neg hp, ih, firstOccurrences, List.filter_cons_of_neg hp,
        List.filter_filter]
      refine List.filter_congr fun x _ => ?_
      by_cases hx : x = y
      · subst hx
        simp [hp]
      · simp [hx]

/-- The first-occurrence list has the members of the list. -/
theorem mem_firstOccurrences (x : String) (L : List String) :
    x ∈ firstOccurrences L ↔ x ∈ L := by
  induction L with
  | nil => simp [firstOccurrences]
  | cons y L ih =>
    rw [firstOccurrences, List.mem_cons, List.mem_cons, List.mem_filter, ih]
    by_cases hx : x = y
    · simp [hx]
    · simp [hx]

/-- The first-occurrence list has no duplicates. -/
theorem nodup_firstOccurrences (L : List String) : (firstOccurrences L).Nodup := by
  induction L with
  | nil => simp [firstOccurrences]
  | cons y L ih =>
    rw [firstOccurrences, List.nodup_cons]
    refine ⟨?_, ih.filter _⟩
    simp [List.mem_filter]

/-- A running maximum is at least its start value and every element. -/
theorem le_foldl_max (A : List Nat) (b : Nat) :
    b ≤ A.foldl max b ∧ ∀ n ∈ A, n ≤ A.foldl max b := by
  induction A generalizing b with
  | nil => simp
  | cons a A ih =>
    rw [List.foldl_cons]
    obtain ⟨h1, h2⟩ := ih (max b a)
    refine ⟨le_trans (le_max_left b a) h1, ?_⟩
    intro n hn
    rcases List.mem_cons.mp hn with h | h
    · rw [h]
      exact le_trans (le_max_right b a) h1
    · exact h2 n h

/-- The traversal visits exactly the labels of the given lists. -/
theorem mem_traversalLabels (x : String) (allLabels : List (List String)) :
    x ∈ traversalLabels allLabels ↔ ∃ labels ∈ allLabels, x ∈ labels := by
  unfold traversalLabels
  rw [List.mem_flatMap]
  constructor
  · rintro ⟨i, -, hi⟩
    obtain ⟨labels, hl, hget⟩ := List.mem_filterMap.mp hi
    obtain ⟨h, hx⟩ := List.get?_eq_some.mp hget
    exact ⟨labels, hl, hx ▸ List.get_mem labels i h⟩
  · rintro ⟨labels, hl, hx⟩
    obtain ⟨n, hn⟩ := List.get_of_mem hx
    refine ⟨n.1, ?_, List.mem_filterMap.mpr ⟨labels, hl, ?_⟩⟩
    · rw [List.mem_range]
      exact lt_of_lt_of_le n.2
        ((le_foldl_max _ 0).2 _ (List.mem_map.mpr ⟨labels, hl, rfl⟩))
    · exact List.get?_eq_some.mpr ⟨n.2, hn⟩

/-- Appending the labels one by one after a non-empty string is the joining
loop of `String.intercalate`. -/
theorem foldl_join_of_ne (names : List String) (acc : String) (hacc : acc ≠ "") :
    names.foldl (fun s label => (if s.isEmpty then s else s ++ "-") ++ label) acc =
      String.intercalate.go acc "-" names := by
  induction names generalizing acc with
  | nil => rfl
  | cons x names ih =>
    have he : acc.isEmpty = false := by
      cases h : acc.isEmpty with
      | false => rfl
      | true => exact absurd ((String.isEmpty_iff acc).mp h) hacc
    rw [List.foldl_cons, String.intercalate.go, he]
    simp only [Bool.false_eq_true, if_false]
    refine ih _ ?_
    intro h0
    have hlen := congrArg String.length h0
    rw [String.length_append, String.length_append] at hlen
    have h1 : ("-" : String).length = 1 := rfl
    have h2 : ("" : String).length = 0 := rfl
    omega

/-- Appending non-empty labels one by one to the empty string joins them with
`"-"`. -/
theorem foldl_join (names : List String) (hne : ∀ x ∈ names, x ≠ "") :
    names.foldl (fun s label => (if s.isEmpty then s else s ++ "-") ++ label) "" =
      "-".intercalate names := by
  cases names with
  | nil => rfl
  | cons x names =>
    rw [List.foldl_cons, String.intercalate]
    have h0 : ("" : String).isEmpty = true := rfl
    rw [h0]
    simp only [if_true, String.empty_append]
    exact foldl_join_of_ne names x (hne x (List.mem_cons_self x names))

/-- The label loop over a list of labels: the labels not yet in the set are
appended at their first occurrence. -/
theorem foldl_appendConfigurationLabel (L : List String) (seen : List String) (s : String) :
    (L.foldl Impl.appendConfigurationLabel (seen, s)).2 =
      (firstOccurrences (L.filter fun x => decide (x ∉ seen))).foldl
        (fun s label => (if s.isEmpty then s else s ++ "-") ++ label) s := by
  induction L generalizing seen s with
  | nil => rfl
  | cons x L ih =>
    rw [List.foldl_cons]
    by_cases hx : x ∈ seen
    · have h1 : Impl.appendConfigurationLabel (seen, s) x = (seen, s) := by
        unfold Impl.appendConfigurationLabel
        exact if_pos hx
      rw [h1, ih, List.filter_cons_of_neg (by simpa using hx)]
    · have h1 : Impl.appendConfigurationLabel (seen, s) x =
          (x :: seen, (if s.isEmpty then s else s ++ "-") ++ x) := by
        unfold Impl.appendConfigurationLabel
        exact if_neg hx
      rw [h1, ih, List.filter_cons_of_pos (by simpa using hx), firstOccurrences,
        List.foldl_cons, ← firstOccurrences_filter, List.filter_filter]
      congr 2
      refine List.filter_congr fun y _ => ?_
      by_cases hy : y = x
      · simp [hy]
      · simp [hy]

/-- The inner loop over the types visits the labels at position `i`. -/
theorem foldl_labels_at (allLabels : List (List String)) (i : Nat)
    (acc : List String × String) :
    allLabels.foldl
        (fun acc labels =>
          match labels.get? i with
          | some label => Impl.appendConfigurationLabel acc label
          | none => acc) acc =
      (allLabels.filterMap fun labels => labels.get? i).foldl
        Impl.appendConfigurationLabel acc := by
  induction allLabels generalizing acc with
  | nil => rfl
  | cons labels allLabels ih =>
    rw [List.foldl_cons, ih, List.filterMap_cons]
    cases labels.get? i <;> rfl

/-- The two nested loops visit the labels in traversal order. -/
theorem foldl_positions (allLabels : List (List String)) (positions : List Nat)
    (acc : List String × String) :
    positions.foldl
        (fun acc i => allLabels.foldl
          (fun acc labels =>
            match labels.get? i with
            | some label => Impl.appendConfigurationLabel acc label
            | none => acc) acc) acc =
      (positions.flatMap fun i => allLabels.filterMap fun labels => labels.get? i).foldl
        Impl.appendConfigurationLabel acc := by
  induction positions generalizing acc with
  | nil => rfl
  | cons i positions ih =>
    rw [List.foldl_cons, ih, List.flatMap_cons, List.foldl_append, foldl_labels_at]

end Cnoid

namespace Cnoid
namespace Impl

section
variable {K : Type}

/-- C24: let the view have a kit with a configuration handler, let the label
set be empty on entry (it is cleared at the end of every call) and let every
state name of the current types be non-empty. If the current configuration
types differ from the cached ones, `updateConfigurationDisplay` sets the label
to the state names of the current types joined by `"-"`, each name once, at
its first occurrence in the traversal by joint position first and type order
second, and caches the current types. If they equal the cached ones, the label
and the cache are left as they are. -/
theorem C24_configuration_label (v : Impl K) (w : World K) (kit : LinkKinematicsKit K)
    (c : JointSpaceConfigurationHandler K)
    (hk : v.kinematicsKit = some kit) (hc : kit.configurationHandler = some c)
    (hset : v.tmpConfigurationLabelSet = [])
    (hne : ∀ t ∈ c.getCurrentConfigurationTypes w.kin,
      ∀ name ∈ c.getConfigurationStateNames t, name ≠ "") :
    (c.getCurrentConfigurationTypes w.kin ≠ v.currentConfigurationTypes →
      (v.updateConfigurationDisplay w).configurationLabel =
        "-".intercalate (firstOccurrences (traversalLabels
          ((c.getCurrentConfigurationTypes w.kin).map c.getConfigurationStateNames))) ∧
      (v.updateConfigurationDisplay w).currentConfigurationTypes =
        c.getCurrentConfigurationTypes w.kin ∧
      (firstOccurrences (traversalLabels
        ((c.getCurrentConfigurationTypes w.kin).map c.getConfigurationStateNames))).Nodup ∧
      ∀ x, x ∈ firstOccurrences (traversalLabels
          ((c.getCurrentConfigurationTypes w.kin).map c.getConfigurationStateNames)) ↔
        ∃ t ∈ c.getCurrentConfigurationTypes w.kin, x ∈ c.getConfigurationStateNames t) ∧
    (c.getCurrentConfigurationTypes w.kin = v.currentConfigurationTypes →
      (v.updateConfigurationDisplay w).configurationLabel = v.configurationLabel ∧
      (v.updateConfigurationDisplay w).currentConfigurationTypes =
        v.currentConfigurationTypes) := by
  have hmem : ∀ x, x ∈ firstOccurrences (traversalLabels
        ((c.getCurrentConfigurationTypes w.kin).map c.getConfigurationStateNames)) ↔
      ∃ t ∈ c.getCurrentConfigurationTypes w.kin, x ∈ c.getConfigurationStateNames t := by
    intro x
    rw [mem_firstOccurrences, mem_traversalLabels]
    constructor
    · rintro ⟨labels, hl, hx⟩
      obtain ⟨t, ht, rfl⟩ := List.mem_map.mp hl
      exact ⟨t, ht, hx⟩
    · rintro ⟨t, ht, hx⟩
      exact ⟨_, List.mem_map.mpr ⟨t, ht, rfl⟩, hx⟩
  constructor
  · intro hdiff
    refine ⟨?_, ?_, nodup_firstOccurrences _, hmem⟩
    · unfold updateConfigurationDisplay
      simp only [hk, hc, hset]
      rw [if_pos hdiff]
      dsimp only
      rw [foldl_positions, foldl_appendConfigurationLabel]
      simp only [List.not_mem_nil, not_false_eq_true, decide_True, List.filter_true]
      rw [← traversalLabels]
      refine foldl_join _ ?_
      intro x hx
      obtain ⟨t, ht, hxt⟩ := (hmem x).mp hx
      exact hne t ht x hxt
    · unfold updateConfigurationDisplay
      simp only [hk, hc]
      rw [if_pos hdiff]
  · intro hsame
    unfold updateConfigurationDisplay
    simp only [hk, hc]
    rw [if_neg (not_not.mpr hsame)]
    exact ⟨rfl, rfl⟩

end

/-- C24 at the example view with two current types whose state names overlap:
the label is `up-flip-down`. -/
theorem C24_configuration_label_witness :
    exampleLabelView.tmpConfigurationLabelSet = [] ∧
    exampleLabelHandler.getCurrentConfigurationTypes exampleWorld.kin ≠
      exampleLabelView.currentConfigurationTypes ∧
    (exampleLabelView.updateConfigurationDisplay exampleWorld).configurationLabel =
      "up-flip-down" :=
  ⟨rfl, by decide,
    (((C24_configuration_label exampleLabelView exampleWorld
      { exampleConfKit with configurationHandler := some exampleLabelHandler }
      exampleLabelHandler rfl rfl rfl (by decide)).1 (by decide)).1).trans (by decide)⟩

end Impl
end Cnoid
